import Mathlib

/-!
Verification of the AVRCP transaction and procedure orchestration engine of
btif/src/btif_rc.cc (Bluetooth remote-control profile implementation).

The development shallowly embeds the relevant C code: the fixed-capacity
transaction label pool (device.transaction), the notification registry
(rc_supported_event_list), the post-connect discovery procedure handlers and
the response dispatchers.  C arrays are embedded as Lean lists, machine
integers as Nat (all values involved are small and never overflow), and the
osi alarm on each transaction slot as a Boolean scheduled flag together with
the stored timer context (label and pdu id).  External collaborators
(AVRC_BldCommand, BTA_AvVendorCmd, the HAL callback sink) are treated as a
pure boundary: a command hand-off is recorded in an output trace and the
build/send step is modelled as succeeding.
-/

/-! ### Constants from btif_rc.cc and the AVRC headers -/

def MAX_LABEL : Nat := 16
def MAX_TRANSACTIONS_PER_SESSION : Nat := 16
def MAX_VOLUME : Nat := 128

def AVRC_OP_VENDOR : Nat := 0

def AVRC_RSP_NOT_IMPL : Nat := 8
def AVRC_RSP_ACCEPT : Nat := 9
def AVRC_RSP_REJ : Nat := 10
def AVRC_RSP_CHANGED : Nat := 13
def AVRC_RSP_INTERIM : Nat := 15

def AVRC_STS_NO_ERROR : Nat := 4
def AVRC_STS_BAD_PARAM : Nat := 1
def BTIF_RC_STS_TIMEOUT : Nat := 0xFE

def AVRC_PDU_GET_CAPABILITIES : Nat := 0x10
def AVRC_PDU_LIST_PLAYER_APP_ATTR : Nat := 0x11
def AVRC_PDU_LIST_PLAYER_APP_VALUES : Nat := 0x12
def AVRC_PDU_GET_CUR_PLAYER_APP_VALUE : Nat := 0x13
def AVRC_PDU_SET_PLAYER_APP_VALUE : Nat := 0x14
def AVRC_PDU_GET_PLAYER_APP_ATTR_TEXT : Nat := 0x15
def AVRC_PDU_GET_PLAYER_APP_VALUE_TEXT : Nat := 0x16
def AVRC_PDU_GET_ELEMENT_ATTR : Nat := 0x20
def AVRC_PDU_GET_PLAY_STATUS : Nat := 0x30
def AVRC_PDU_REGISTER_NOTIFICATION : Nat := 0x31
def AVRC_PDU_SET_ABSOLUTE_VOLUME : Nat := 0x50

def AVRC_CAP_COMPANY_ID : Nat := 2
def AVRC_CAP_EVENTS_SUPPORTED : Nat := 3

def AVRC_EVT_PLAY_STATUS_CHANGE : Nat := 0x01
def AVRC_EVT_TRACK_CHANGE : Nat := 0x02
def AVRC_EVT_TRACK_REACHED_END : Nat := 0x03
def AVRC_EVT_TRACK_REACHED_START : Nat := 0x04
def AVRC_EVT_PLAY_POS_CHANGED : Nat := 0x05
def AVRC_EVT_BATTERY_STATUS_CHANGE : Nat := 0x06
def AVRC_EVT_SYSTEM_STATUS_CHANGE : Nat := 0x07
def AVRC_EVT_APP_SETTING_CHANGE : Nat := 0x08
def AVRC_EVT_NOW_PLAYING_CHANGE : Nat := 0x09
def AVRC_EVT_AVAL_PLAYERS_CHANGE : Nat := 0x0a
def AVRC_EVT_ADDR_PLAYER_CHANGE : Nat := 0x0b
def AVRC_EVT_UIDS_CHANGE : Nat := 0x0c
def AVRC_EVT_VOLUME_CHANGE : Nat := 0x0d

def AVRC_PLAYSTATE_PLAYING : Nat := 1

/-! ### The transaction pool (rc_device_t / rc_transaction_t)

One slot of device.transaction.  The txn_timer alarm is embedded as the
Boolean timerScheduled (alarm_is_scheduled), and the slot timer context
btif_rc_timer_context_t as the two stored fields ctxLabel / ctxPdu. -/

structure RcTransaction where
  in_use : Bool
  lbl : Nat
  handle : Nat
  ctxLabel : Nat
  ctxPdu : Nat
  timerScheduled : Bool
deriving Repr, DecidableEq

structure RcDevice where
  transaction : List RcTransaction
deriving Repr, DecidableEq

inductive BtStatus where
  | success
  | fail
  | nomem
  | notReady
deriving Repr, DecidableEq

/-- Update the slot at index i, when it exists. -/
def modifySlot (l : List RcTransaction) (i : Nat) (f : RcTransaction → RcTransaction) :
    List RcTransaction :=
  match l[i]? with
  | none => l
  | some t => l.set i (f t)

/-- get_transaction_by_lbl: returns the slot only when the label is in range
and the slot is currently in use (btif_rc.cc:4174). -/
def get_transaction_by_lbl (d : RcDevice) (lbl : Nat) : Option RcTransaction :=
  if lbl < MAX_TRANSACTIONS_PER_SESSION then
    match d.transaction[lbl]? with
    | some t => if t.in_use = false then none else some t
    | none => none
  else none

/-- clear_cmd_timeout: looks the transaction up by label; on lookup failure
only logs; otherwise cancels the slot alarm (btif_rc.cc:3117). -/
def clear_cmd_timeout (d : RcDevice) (label : Nat) : RcDevice :=
  match get_transaction_by_lbl d label with
  | none => d
  | some _ => ⟨modifySlot d.transaction label (fun t => { t with timerScheduled := false })⟩

/-- initialize_transaction: for an in-range label, cancels a scheduled slot
alarm via clear_cmd_timeout and resets lbl / in_use / handle
(btif_rc.cc:4116).  Note that clear_cmd_timeout itself is a no-op when the
slot is not in use, exactly as in the source. -/
def initialize_transaction (d : RcDevice) (lbl : Nat) : RcDevice :=
  if lbl < MAX_TRANSACTIONS_PER_SESSION then
    let d1 :=
      match d.transaction[lbl]? with
      | some t => if t.timerScheduled then clear_cmd_timeout d lbl else d
      | none => d
    ⟨modifySlot d1.transaction lbl
        (fun t => { t with lbl := lbl, in_use := false, handle := 0 })⟩
  else d

/-- Helper for get_transaction: scan the slot list for the first unused slot,
mark it in use and return the updated list together with the acquired slot
(btif_rc.cc:4206 loop body). -/
def get_transaction_scan :
    List RcTransaction → Option (List RcTransaction × RcTransaction)
  | [] => none
  | t :: ts =>
    if t.in_use = false then
      some ({ t with in_use := true } :: ts, { t with in_use := true })
    else
      match get_transaction_scan ts with
      | none => none
      | some (ts2, tr) => some (t :: ts2, tr)

/-- get_transaction: first-free-slot allocator; BT_STATUS_NOMEM when every
slot is in use (btif_rc.cc:4206). -/
def get_transaction (d : RcDevice) : BtStatus × RcDevice × Option RcTransaction :=
  match get_transaction_scan d.transaction with
  | none => (BtStatus.nomem, d, none)
  | some (l, tr) => (BtStatus.success, ⟨l⟩, some tr)

/-- release_transaction: no-op unless the label is currently in use, in which
case the slot is reinitialized (btif_rc.cc:4237). -/
def release_transaction (d : RcDevice) (lbl : Nat) : RcDevice :=
  match get_transaction_by_lbl d lbl with
  | none => d
  | some _ => initialize_transaction d lbl

/-- The alarm arming shared by start_status_command_timer and
register_for_event_notification: store label and pdu id into the slot
context and schedule the alarm (btif_rc.cc:2317, 2299). -/
def arm_status_timer (d : RcDevice) (lbl : Nat) (pdu : Nat) : RcDevice :=
  ⟨modifySlot d.transaction lbl
      (fun t => { t with ctxLabel := lbl, ctxPdu := pdu, timerScheduled := true })⟩

/-- The pool right after lbl_init / init_all_transactions: 16 slots, each
with lbl equal to its index, unused, no alarm (btif_rc.cc:4137, 4156). -/
def init_device : RcDevice :=
  ⟨(List.range MAX_TRANSACTIONS_PER_SESSION).map
      (fun i => ⟨false, i, 0, 0, 0, false⟩)⟩

/-- Pool well-formedness: 16 slots and slot i stores label i (established by
lbl_init and preserved by every pool operation). -/
def WfDevice (d : RcDevice) : Prop :=
  d.transaction.length = MAX_TRANSACTIONS_PER_SESSION ∧
  ∀ i, i < MAX_TRANSACTIONS_PER_SESSION →
    (d.transaction[i]?).map RcTransaction.lbl = some i

instance : DecidablePred WfDevice := by
  intro d
  unfold WfDevice
  exact instDecidableAnd

/-- Number of simultaneously in-use labels. -/
def countInUse (d : RcDevice) : Nat :=
  d.transaction.countP (fun t => t.in_use)

/-- One client-visible pool operation, for reasoning about arbitrary
acquire / release call sequences. -/
inductive PoolOp where
  | acquire
  | release (lbl : Nat)
deriving Repr, DecidableEq

def applyPoolOp (d : RcDevice) : PoolOp → RcDevice
  | PoolOp.acquire => (get_transaction d).2.1
  | PoolOp.release lbl => release_transaction d lbl

def applyPoolOps (d : RcDevice) (ops : List PoolOp) : RcDevice :=
  ops.foldl applyPoolOp d

/-! ### Basic pool lemmas -/

lemma modifySlot_length (l : List RcTransaction) (i : Nat) (f : RcTransaction → RcTransaction) :
    (modifySlot l i f).length = l.length := by
  unfold modifySlot
  cases h : l[i]? with
  | none => rfl
  | some t => simp

lemma get_transaction_scan_length :
    ∀ (l : List RcTransaction) (l' : List RcTransaction) (tr : RcTransaction),
      get_transaction_scan l = some (l', tr) → l'.length = l.length := by
  intro l
  induction l with
  | nil => intro l' tr h; simp [get_transaction_scan] at h
  | cons t ts ih =>
    intro l' tr h
    unfold get_transaction_scan at h
    by_cases hu : t.in_use = false
    · simp [hu] at h
      rcases h with ⟨h1, _⟩
      subst h1
      simp
    · simp [hu] at h
      cases hscan : get_transaction_scan ts with
      | none => rw [hscan] at h; simp at h
      | some p =>
        rw [hscan] at h
        cases p with
        | mk ts2 tr2 =>
          simp at h
          rcases h with ⟨h1, _⟩
          subst h1
          simp [ih ts2 tr2 hscan]

lemma get_transaction_length (d : RcDevice) :
    ((get_transaction d).2.1).transaction.length = d.transaction.length := by
  unfold get_transaction
  cases h : get_transaction_scan d.transaction with
  | none => rfl
  | some p =>
    cases p with
    | mk l tr => simpa using get_transaction_scan_length d.transaction l tr h

lemma clear_cmd_timeout_length (d : RcDevice) (lbl : Nat) :
    (clear_cmd_timeout d lbl).transaction.length = d.transaction.length := by
  unfold clear_cmd_timeout
  cases h : get_transaction_by_lbl d lbl with
  | none => rfl
  | some t => simpa using modifySlot_length d.transaction lbl _

lemma initialize_transaction_length (d : RcDevice) (lbl : Nat) :
    (initialize_transaction d lbl).transaction.length = d.transaction.length := by
  unfold initialize_transaction
  by_cases h : lbl < MAX_TRANSACTIONS_PER_SESSION
  · simp only [h, if_true]
    cases hg : d.transaction[lbl]? with
    | none => simpa using modifySlot_length d.transaction lbl _
    | some t =>
      by_cases ht : t.timerScheduled
      · simp only [hg, ht, if_true]
        rw [modifySlot_length]
        exact clear_cmd_timeout_length d lbl
      · simp only [hg, ht, if_false]
        simpa using modifySlot_length d.transaction lbl _
  · simp [h]

lemma release_transaction_length (d : RcDevice) (lbl : Nat) :
    (release_transaction d lbl).transaction.length = d.transaction.length := by
  unfold release_transaction
  cases h : get_transaction_by_lbl d lbl with
  | none => rfl
  | some t => exact initialize_transaction_length d lbl

lemma applyPoolOp_length (d : RcDevice) (op : PoolOp) :
    (applyPoolOp d op).transaction.length = d.transaction.length := by
  cases op with
  | acquire => exact get_transaction_length d
  | release lbl => exact release_transaction_length d lbl

lemma applyPoolOps_length (ops : List PoolOp) :
    ∀ d : RcDevice, (applyPoolOps d ops).transaction.length = d.transaction.length := by
  induction ops with
  | nil => intro d; rfl
  | cons op ops ih =>
    intro d
    unfold applyPoolOps
    simp only [List.foldl_cons]
    calc (ops.foldl applyPoolOp (applyPoolOp d op)).transaction.length
        = (applyPoolOp d op).transaction.length := ih (applyPoolOp d op)
      _ = d.transaction.length := applyPoolOp_length d op

lemma countInUse_le_length (d : RcDevice) : countInUse d ≤ d.transaction.length :=
  List.countP_le_length _

/-- When every slot is in use, the scan fails. -/
lemma get_transaction_scan_none_of_all_in_use :
    ∀ l : List RcTransaction, (∀ t ∈ l, t.in_use = true) → get_transaction_scan l = none := by
  intro l
  induction l with
  | nil => intro _; rfl
  | cons t ts ih =>
    intro h
    unfold get_transaction_scan
    have ht : t.in_use = true := h t (List.mem_cons_self t ts)
    simp [ht, ih (fun x hx => h x (List.mem_cons_of_mem t hx))]

/-- When some slot is unused, the scan succeeds and acquires a slot whose
label was free beforehand. -/
lemma get_transaction_scan_some_of_free :
    ∀ l : List RcTransaction, (∃ t ∈ l, t.in_use = false) →
      ∃ l' tr, get_transaction_scan l = some (l', tr) ∧ tr.in_use = true ∧
        ∃ i : Nat, l[i]? = some { tr with in_use := false } := by
  intro l
  induction l with
  | nil => intro h; simp at h
  | cons t ts ih =>
    intro h
    unfold get_transaction_scan
    by_cases hu : t.in_use = false
    · refine ⟨{ t with in_use := true } :: ts, { t with in_use := true }, by simp [hu], by simp, 0, ?_⟩
      simp
      cases t
      simp at hu
      simp [hu]
    · have hfree : ∃ x ∈ ts, x.in_use = false := by
        rcases h with ⟨x, hx, hxf⟩
        rcases List.mem_cons.mp hx with h1 | h2
        · exact absurd (h1 ▸ hxf) hu
        · exact ⟨x, h2, hxf⟩
      rcases ih hfree with ⟨l', tr, hscan, htr, i, hi⟩
      refine ⟨t :: l', tr, ?_, htr, i + 1, by simpa using hi⟩
      simp [hu, hscan]

/-- countP equal to length forces every element to satisfy the predicate. -/
lemma all_in_use_of_countInUse_full (d : RcDevice)
    (h : countInUse d = d.transaction.length) : ∀ t ∈ d.transaction, t.in_use = true := by
  intro t ht
  unfold countInUse at h
  have := (List.countP_eq_length (p := fun t : RcTransaction => t.in_use)
    (l := d.transaction)).mp h t ht
  simpa using this

/-- C1 core, exhaustion half: with all 16 labels in use, acquisition reports
BT_STATUS_NOMEM and the pool is returned unchanged. -/
lemma get_transaction_full (d : RcDevice)
    (h : ∀ t ∈ d.transaction, t.in_use = true) :
    get_transaction d = (BtStatus.nomem, d, none) := by
  unfold get_transaction
  rw [get_transaction_scan_none_of_all_in_use d.transaction h]

lemma modifySlot_get_eq (l : List RcTransaction) (i : Nat) (f : RcTransaction → RcTransaction) :
    (modifySlot l i f)[i]? = (l[i]?).map f := by
  unfold modifySlot
  cases h : l[i]? with
  | none => simp [h]
  | some t =>
    have hlt : i < l.length := by
      by_contra hge
      rw [List.getElem?_eq_none (Nat.le_of_not_lt hge)] at h
      exact Option.noConfusion h
    simp only [h]
    rw [List.getElem?_set_eq_of_lt (f t) hlt]
    rfl

lemma modifySlot_get_ne (l : List RcTransaction) (i j : Nat)
    (f : RcTransaction → RcTransaction) (h : j ≠ i) :
    (modifySlot l i f)[j]? = l[j]? := by
  unfold modifySlot
  cases hg : l[i]? with
  | none => rfl
  | some t => exact List.getElem?_set_ne (fun he => h he.symm)

lemma get_transaction_scan_lbl_preserved :
    ∀ (l l' : List RcTransaction) (tr : RcTransaction),
      get_transaction_scan l = some (l', tr) →
      ∀ i : Nat, (l'[i]?).map RcTransaction.lbl = (l[i]?).map RcTransaction.lbl := by
  intro l
  induction l with
  | nil => intro l' tr h; simp [get_transaction_scan] at h
  | cons t ts ih =>
    intro l' tr h i
    unfold get_transaction_scan at h
    by_cases hu : t.in_use = false
    · simp [hu] at h
      rcases h with ⟨h1, _⟩
      subst h1
      cases i with
      | zero => simp
      | succ n => simp
    · simp [hu] at h
      cases hscan : get_transaction_scan ts with
      | none => rw [hscan] at h; simp at h
      | some p =>
        rw [hscan] at h
        cases p with
        | mk ts2 tr2 =>
          simp at h
          rcases h with ⟨h1, _⟩
          subst h1
          cases i with
          | zero => simp
          | succ n => simpa using ih ts2 tr2 hscan n

lemma wf_get_transaction (d : RcDevice) (h : WfDevice d) :
    WfDevice (get_transaction d).2.1 := by
  rcases h with ⟨hlen, hlbl⟩
  refine ⟨by rw [get_transaction_length]; exact hlen, ?_⟩
  intro i hi
  unfold get_transaction
  cases hscan : get_transaction_scan d.transaction with
  | none => exact hlbl i hi
  | some p =>
    cases p with
    | mk l tr =>
      simpa using (get_transaction_scan_lbl_preserved d.transaction l tr hscan i).trans
        (hlbl i hi)

/-- modifySlot with a function that never changes the stored label leaves
every label projection unchanged. -/
lemma modifySlot_lbl_invariant (l : List RcTransaction) (k : Nat)
    (f : RcTransaction → RcTransaction) (hf : ∀ t, (f t).lbl = t.lbl) (i : Nat) :
    ((modifySlot l k f)[i]?).map RcTransaction.lbl = (l[i]?).map RcTransaction.lbl := by
  by_cases hik : i = k
  · subst hik
    rw [modifySlot_get_eq]
    cases hg : l[i]? with
    | none => simp
    | some t => simp [hf t]
  · rw [modifySlot_get_ne _ _ _ _ hik]

lemma wf_clear_cmd_timeout (d : RcDevice) (lbl : Nat) (h : WfDevice d) :
    WfDevice (clear_cmd_timeout d lbl) := by
  rcases h with ⟨hlen, hlbl⟩
  refine ⟨by rw [clear_cmd_timeout_length]; exact hlen, ?_⟩
  intro i hi
  unfold clear_cmd_timeout
  cases hg : get_transaction_by_lbl d lbl with
  | none => exact hlbl i hi
  | some t =>
    simp only
    exact (modifySlot_lbl_invariant d.transaction lbl
      (fun t => { t with timerScheduled := false }) (fun t => rfl) i).trans (hlbl i hi)

lemma wf_initialize_transaction (d : RcDevice) (lbl : Nat) (h : WfDevice d) :
    WfDevice (initialize_transaction d lbl) := by
  unfold initialize_transaction
  by_cases hr : lbl < MAX_TRANSACTIONS_PER_SESSION
  · simp only [hr, if_true]
    set d1 := match d.transaction[lbl]? with
      | some t => if t.timerScheduled then clear_cmd_timeout d lbl else d
      | none => d with hd1
    have hwf1 : WfDevice d1 := by
      rw [hd1]
      cases hg : d.transaction[lbl]? with
      | none => exact h
      | some t =>
        by_cases ht : t.timerScheduled
        · simpa [ht] using wf_clear_cmd_timeout d lbl h
        · simpa [ht] using h
    refine ⟨by simpa [modifySlot_length] using hwf1.1, ?_⟩
    intro i hi
    by_cases hij : i = lbl
    · subst hij
      rw [modifySlot_get_eq]
      have hilen : i < d1.transaction.length := by rw [hwf1.1]; exact hi
      cases hgi : d1.transaction[i]? with
      | none =>
        exact absurd hgi (by simp [List.getElem?_eq_getElem hilen])
      | some x => simp [hgi]
    · rw [modifySlot_get_ne _ _ _ _ hij]
      exact hwf1.2 i hi
  · simpa [hr] using h

lemma wf_release_transaction (d : RcDevice) (lbl : Nat) (h : WfDevice d) :
    WfDevice (release_transaction d lbl) := by
  unfold release_transaction
  cases hg : get_transaction_by_lbl d lbl with
  | none => exact h
  | some t => exact wf_initialize_transaction d lbl h

lemma wf_applyPoolOp (d : RcDevice) (op : PoolOp) (h : WfDevice d) :
    WfDevice (applyPoolOp d op) := by
  cases op with
  | acquire => exact wf_get_transaction d h
  | release lbl => exact wf_release_transaction d lbl h

lemma wf_applyPoolOps (ops : List PoolOp) :
    ∀ d : RcDevice, WfDevice d → WfDevice (applyPoolOps d ops) := by
  induction ops with
  | nil => intro d h; exact h
  | cons op ops ih =>
    intro d h
    exact ih (applyPoolOp d op) (wf_applyPoolOp d op h)

lemma wf_init_device : WfDevice init_device := by decide

/-- Releasing an in-use label resets the slot: unused, label restored,
handle zero, timer cancelled; every other slot is untouched. -/
lemma release_transaction_spec (d : RcDevice) (lbl : Nat) (t : RcTransaction)
    (h : get_transaction_by_lbl d lbl = some t) :
    (release_transaction d lbl).transaction[lbl]? =
      some ⟨false, lbl, 0, t.ctxLabel, t.ctxPdu, false⟩ ∧
    (∀ j, j ≠ lbl → (release_transaction d lbl).transaction[j]? = d.transaction[j]?) := by
  have hr : lbl < MAX_TRANSACTIONS_PER_SESSION := by
    by_contra hge
    unfold get_transaction_by_lbl at h
    simp [hge] at h
  have hg : d.transaction[lbl]? = some t ∧ t.in_use = true := by
    unfold get_transaction_by_lbl at h
    simp only [hr, if_true] at h
    cases hgi : d.transaction[lbl]? with
    | none => rw [hgi] at h; exact Option.noConfusion h
    | some x =>
      rw [hgi] at h
      by_cases hx : x.in_use = false
      · simp [hx] at h
      · simp [hx] at h
        subst h
        exact ⟨rfl, by simpa using hx⟩
  unfold release_transaction
  rw [h]
  unfold initialize_transaction
  simp only [hr, if_true, hg.1]
  by_cases ht : t.timerScheduled
  · simp only [ht, if_true]
    have hclear : (clear_cmd_timeout d lbl).transaction[lbl]? =
        some { t with timerScheduled := false } := by
      unfold clear_cmd_timeout
      rw [h]
      rw [modifySlot_get_eq, hg.1]
      rfl
    constructor
    · rw [modifySlot_get_eq, hclear]
      simp
    · intro j hj
      rw [modifySlot_get_ne _ _ _ _ hj]
      unfold clear_cmd_timeout
      rw [h]
      exact modifySlot_get_ne _ _ _ _ hj
  · have htf : t.timerScheduled = false := by simpa using ht
    simp only [htf, Bool.false_eq_true, if_false]
    constructor
    · rw [modifySlot_get_eq, hg.1]
      simp [htf]
    · intro j hj
      exact modifySlot_get_ne _ _ _ _ hj

/-- Any pool with a free slot allows a successful acquisition, and the
slot handed out was free beforehand (its label looks up to nothing). -/
lemma get_transaction_succeeds_of_free (d : RcDevice) (hwf : WfDevice d)
    (hfree : ∃ t ∈ d.transaction, t.in_use = false) :
    ∃ d2 tr, get_transaction d = (BtStatus.success, d2, some tr) ∧
      get_transaction_by_lbl d tr.lbl = none := by
  rcases get_transaction_scan_some_of_free d.transaction hfree with
    ⟨l', tr, hscan, htr, i, hi⟩
  have hilen : i < d.transaction.length := (List.getElem?_eq_some_iff.mp hi).choose
  have hi16 : i < MAX_TRANSACTIONS_PER_SESSION := by
    rw [hwf.1] at hilen; exact hilen
  have hlbl : tr.lbl = i := by
    have := hwf.2 i hi16
    rw [hi] at this
    simpa using this
  refine ⟨⟨l'⟩, tr, ?_, ?_⟩
  · unfold get_transaction
    rw [hscan]
  · unfold get_transaction_by_lbl
    rw [hlbl]
    simp only [hi16, if_true, hi]

/-- C1: over every sequence of acquire / release calls starting from the
freshly initialized pool, the number of in-use labels never exceeds 16; an
acquire issued with all 16 slots in use returns BT_STATUS_NOMEM and leaves
the pool unchanged; and after releasing any in-use label a subsequent
acquire succeeds and hands out a label that was free. -/
theorem get_transaction_pool_capacity (ops : List PoolOp) :
    countInUse (applyPoolOps init_device ops) ≤ MAX_TRANSACTIONS_PER_SESSION ∧
    (countInUse (applyPoolOps init_device ops) = MAX_TRANSACTIONS_PER_SESSION →
      get_transaction (applyPoolOps init_device ops) =
        (BtStatus.nomem, applyPoolOps init_device ops, none)) ∧
    (∀ lbl t, get_transaction_by_lbl (applyPoolOps init_device ops) lbl = some t →
      ∃ d2 tr,
        get_transaction (release_transaction (applyPoolOps init_device ops) lbl) =
          (BtStatus.success, d2, some tr) ∧
        get_transaction_by_lbl (release_transaction (applyPoolOps init_device ops) lbl)
          tr.lbl = none) := by
  set d := applyPoolOps init_device ops with hd
  have hwf : WfDevice d := wf_applyPoolOps ops init_device wf_init_device
  have hlen : d.transaction.length = MAX_TRANSACTIONS_PER_SESSION := hwf.1
  refine ⟨?_, ?_, ?_⟩
  · calc countInUse d ≤ d.transaction.length := countInUse_le_length d
      _ = MAX_TRANSACTIONS_PER_SESSION := hlen
  · intro hfull
    exact get_transaction_full d (all_in_use_of_countInUse_full d (by rw [hfull, hlen]))
  · intro lbl t hlook
    have hspec := release_transaction_spec d lbl t hlook
    have hwf2 : WfDevice (release_transaction d lbl) := wf_release_transaction d lbl hwf
    have hfree : ∃ x ∈ (release_transaction d lbl).transaction, x.in_use = false := by
      refine ⟨⟨false, lbl, 0, t.ctxLabel, t.ctxPdu, false⟩, List.getElem?_mem hspec.1, rfl⟩
    exact get_transaction_succeeds_of_free (release_transaction d lbl) hwf2 hfree

/-- C1 witness: after 16 acquisitions the 17th fails with NOMEM leaving the
pool unchanged, and releasing label 0 makes a subsequent acquire succeed
with a label that was free. -/
theorem get_transaction_pool_capacity_witness :
    get_transaction (applyPoolOps init_device (List.replicate 16 PoolOp.acquire)) =
      (BtStatus.nomem, applyPoolOps init_device (List.replicate 16 PoolOp.acquire), none) ∧
    (∃ d2 tr,
      get_transaction (release_transaction
          (applyPoolOps init_device (List.replicate 16 PoolOp.acquire)) 0) =
        (BtStatus.success, d2, some tr) ∧
      get_transaction_by_lbl (release_transaction
          (applyPoolOps init_device (List.replicate 16 PoolOp.acquire)) 0) tr.lbl = none) := by
  have h := get_transaction_pool_capacity (List.replicate 16 PoolOp.acquire)
  exact ⟨h.2.1 (by decide), h.2.2 0 ⟨true, 0, 0, 0, 0, false⟩ (by decide)⟩

/-- Whether the slot alarm for a label could still fire. -/
def timer_can_fire (d : RcDevice) (lbl : Nat) : Bool :=
  match d.transaction[lbl]? with
  | some t => t.timerScheduled
  | none => false

/-- C7: releasing an in-use label cancels the slot alarm (so its timeout
handler can no longer fire) and resets the slot to unused; releasing a label
that is not in use is a no-op that leaves the whole pool unchanged. -/
theorem release_transaction_cancels_timer_and_idempotent (d : RcDevice) (lbl : Nat) :
    (get_transaction_by_lbl d lbl = none → release_transaction d lbl = d) ∧
    (∀ t, get_transaction_by_lbl d lbl = some t →
      (release_transaction d lbl).transaction[lbl]? =
        some ⟨false, lbl, 0, t.ctxLabel, t.ctxPdu, false⟩ ∧
      timer_can_fire (release_transaction d lbl) lbl = false ∧
      (∀ j, j ≠ lbl → (release_transaction d lbl).transaction[j]? = d.transaction[j]?)) := by
  constructor
  · intro hnone
    unfold release_transaction
    rw [hnone]
  · intro t hsome
    have hspec := release_transaction_spec d lbl t hsome
    refine ⟨hspec.1, ?_, hspec.2⟩
    unfold timer_can_fire
    rw [hspec.1]

/-- C7 witness: releasing free label 5 of the fresh pool changes nothing,
and releasing label 0 after an acquire that armed a timer leaves slot 0
unused with its alarm cancelled. -/
theorem release_transaction_cancels_timer_and_idempotent_witness :
    release_transaction init_device 5 = init_device ∧
    (release_transaction (arm_status_timer (applyPoolOp init_device PoolOp.acquire)
        0 AVRC_PDU_GET_CAPABILITIES) 0).transaction[0]? =
      some ⟨false, 0, 0, 0, AVRC_PDU_GET_CAPABILITIES, false⟩ ∧
    timer_can_fire (release_transaction (arm_status_timer
        (applyPoolOp init_device PoolOp.acquire) 0 AVRC_PDU_GET_CAPABILITIES) 0) 0 = false := by
  refine ⟨(release_transaction_cancels_timer_and_idempotent init_device 5).1 (by decide), ?_, ?_⟩
  · exact ((release_transaction_cancels_timer_and_idempotent _ 0).2
      ⟨true, 0, 0, 0, AVRC_PDU_GET_CAPABILITIES, true⟩ (by decide)).1
  · exact ((release_transaction_cancels_timer_and_idempotent _ 0).2
      ⟨true, 0, 0, 0, AVRC_PDU_GET_CAPABILITIES, true⟩ (by decide)).2.1

/-! ### Notification registry, app settings and session state -/

def AVRC_MAX_APP_ATTR_SIZE : Nat := 16
def AVRC_PLAYER_SETTING_LOW_MENU_EXT : Nat := 4

inductive EvtRegStatus where
  | eNOT_REGISTERED
  | eREGISTERED
  | eINTERIM
deriving Repr, DecidableEq

/-- btif_rc_supported_event_t. -/
structure SupportedEvent where
  event_id : Nat
  label : Nat
  status : EvtRegStatus
deriving Repr, DecidableEq

/-- btrc_player_app_attr_t: a standard player application attribute with its
discovered value list (attr_val is the fixed 16-entry array). -/
structure PlayerAppAttr where
  attr_id : Nat
  num_val : Nat
  attr_val : List Nat
deriving Repr, DecidableEq

/-- btrc_player_app_ext_attr_val_t: extended attribute value with its text
(strings are embedded as abstract tokens). -/
structure PlayerAppExtAttrVal where
  val : Nat
  charset_id : Nat
  str_len : Nat
  p_str : Option Nat
deriving Repr, DecidableEq

/-- btrc_player_app_ext_attr_t. -/
structure PlayerAppExtAttr where
  attr_id : Nat
  charset_id : Nat
  str_len : Nat
  p_str : Option Nat
  num_val : Nat
  ext_attr_val : List PlayerAppExtAttrVal
deriving Repr, DecidableEq

/-- btif_rc_player_app_settings_t. -/
structure PlayerAppSettings where
  query_started : Bool
  num_attrs : Nat
  num_ext_attrs : Nat
  attr_index : Nat
  ext_attr_index : Nat
  ext_val_index : Nat
  attrs : List PlayerAppAttr
  ext_attrs : List PlayerAppExtAttr
deriving Repr, DecidableEq

/-- The btif_rc_cb_t fields used by the orchestration engine.  The
rc_features bitmap is embedded as the single feature bit the engine reads in
this code (BTA_AV_FEAT_APP_SETTING); the play-status alarm as its scheduled
flag. -/
structure RcCb where
  rc_connected : Bool
  rc_features_app_setting : Bool
  rc_volume : Nat
  rc_vol_label : Nat
  rc_supported_event_list : List SupportedEvent
  rc_app_settings : PlayerAppSettings
  rc_play_status_timer : Bool
  rc_playing_uid : Nat
  rc_procedure_complete : Bool
  device : RcDevice
deriving Repr, DecidableEq

/-- Outbound AVRCP commands handed to the transport, with the transaction
label they were sent under. -/
inductive OutCmd where
  | getCapabilities (lbl : Nat) (capId : Nat)
  | listPlayerAppSettingAttrib (lbl : Nat)
  | listPlayerAppSettingValue (lbl : Nat) (attrId : Nat)
  | getPlayerAppSetting (lbl : Nat) (attrIds : List Nat)
  | getPlayerAppSettingAttrText (lbl : Nat) (attrIds : List Nat)
  | getPlayerAppSettingValueText (lbl : Nat) (vals : List Nat)
  | getElementAttributes (lbl : Nat)
  | getPlayStatus (lbl : Nat)
  | registerNotification (lbl : Nat) (eventId : Nat)
  | registerVolumeChange (lbl : Nat)
deriving Repr, DecidableEq

/-- HAL callbacks fired towards the host (payloads reduced to the numeric
fields the engine computes). -/
inductive HalCback where
  | playStatusChanged (playStatus : Nat)
  | trackChanged (numAttr : Nat)
  | playerAppSettingChanged (numAttr : Nat)
  | playerAppSetting (numAttrs : Nat) (numExtAttrs : Nat)
  | setPlayerAppRsp (accepted : Nat)
  | playPositionChanged (songLen : Nat) (songPos : Nat)
  | volumeChange (volume : Nat) (ctype : Nat)
deriving Repr, DecidableEq

/-- Generic fixed-array write at an index (no-op out of range, matching an
in-bounds C array write). -/
def updAt {α : Type} (l : List α) (i : Nat) (f : α → α) : List α :=
  match l[i]? with
  | none => l
  | some x => l.set i (f x)

/-! ### Outbound command senders

Every status-class sender in btif_rc.cc (getcapabilities_cmd,
list_player_app_setting_attrib_cmd, list_player_app_setting_value_cmd,
get_player_app_setting_cmd, get_player_app_setting_attr_text_cmd,
get_player_app_setting_value_text_cmd, get_element_attribute_cmd,
get_play_status_cmd) has the same shape: CHECK_RC_CONNECTED, acquire a
transaction, build the PDU, hand it to BTA_AvVendorCmd and arm the status
command timer.  The build/send external boundary is modelled as
succeeding. -/

def send_status_cmd (cb : RcCb) (pdu : Nat) (mk : Nat → OutCmd) : RcCb × List OutCmd :=
  if cb.rc_connected = false then (cb, [])
  else
    match get_transaction cb.device with
    | (BtStatus.success, d1, some tr) =>
        ({ cb with device := arm_status_timer d1 tr.lbl pdu }, [mk tr.lbl])
    | (_, d1, _) => ({ cb with device := d1 }, [])

def getcapabilities_cmd (cb : RcCb) (cap_id : Nat) : RcCb × List OutCmd :=
  send_status_cmd cb AVRC_PDU_GET_CAPABILITIES (fun l => OutCmd.getCapabilities l cap_id)

def list_player_app_setting_attrib_cmd (cb : RcCb) : RcCb × List OutCmd :=
  send_status_cmd cb AVRC_PDU_LIST_PLAYER_APP_ATTR
    (fun l => OutCmd.listPlayerAppSettingAttrib l)

def list_player_app_setting_value_cmd (cb : RcCb) (attrib_id : Nat) : RcCb × List OutCmd :=
  send_status_cmd cb AVRC_PDU_LIST_PLAYER_APP_VALUES
    (fun l => OutCmd.listPlayerAppSettingValue l attrib_id)

def get_player_app_setting_cmd (cb : RcCb) (attrib_ids : List Nat) : RcCb × List OutCmd :=
  send_status_cmd cb AVRC_PDU_GET_CUR_PLAYER_APP_VALUE
    (fun l => OutCmd.getPlayerAppSetting l attrib_ids)

def get_player_app_setting_attr_text_cmd (cb : RcCb) (attrs : List Nat) :
    RcCb × List OutCmd :=
  send_status_cmd cb AVRC_PDU_GET_PLAYER_APP_ATTR_TEXT
    (fun l => OutCmd.getPlayerAppSettingAttrText l attrs)

def get_player_app_setting_value_text_cmd (cb : RcCb) (vals : List Nat) :
    RcCb × List OutCmd :=
  send_status_cmd cb AVRC_PDU_GET_PLAYER_APP_VALUE_TEXT
    (fun l => OutCmd.getPlayerAppSettingValueText l vals)

def get_element_attribute_cmd (cb : RcCb) : RcCb × List OutCmd :=
  send_status_cmd cb AVRC_PDU_GET_ELEMENT_ATTR (fun l => OutCmd.getElementAttributes l)

def get_play_status_cmd (cb : RcCb) : RcCb × List OutCmd :=
  send_status_cmd cb AVRC_PDU_GET_PLAY_STATUS (fun l => OutCmd.getPlayStatus l)

/-- rc_start_play_status_timer: schedule the play-status poll alarm if it is
not already scheduled (btif_rc.cc:2240). -/
def rc_start_play_status_timer (cb : RcCb) : RcCb :=
  { cb with rc_play_status_timer := true }

/-- rc_stop_play_status_timer (btif_rc.cc:2263). -/
def rc_stop_play_status_timer (cb : RcCb) : RcCb :=
  { cb with rc_play_status_timer := false }

/-- rc_ctrl_procedure_complete: sticky completion flag; the first call sets
it and launches the element-attribute fetch, later calls return immediately
(btif_rc.cc:1645). -/
def rc_ctrl_procedure_complete (cb : RcCb) : RcCb × List OutCmd :=
  if cb.rc_procedure_complete = true then (cb, [])
  else get_element_attribute_cmd { cb with rc_procedure_complete := true }

/-- register_for_event_notification on the list entry at index i: acquire a
transaction, send REGISTER_NOTIFICATION (send modelled as succeeding; on a
send failure the source releases the label and leaves the event untouched),
record label and eREGISTERED status on the event and arm the interim
response timer (btif_rc.cc:2279). -/
def register_for_event_notification (cb : RcCb) (i : Nat) : RcCb × List OutCmd :=
  match cb.rc_supported_event_list[i]? with
  | none => (cb, [])
  | some e =>
    match get_transaction cb.device with
    | (BtStatus.success, d1, some tr) =>
        ({ cb with
            rc_supported_event_list :=
              cb.rc_supported_event_list.set i
                { e with label := tr.lbl, status := EvtRegStatus.eREGISTERED },
            device := arm_status_timer d1 tr.lbl AVRC_PDU_REGISTER_NOTIFICATION },
          [OutCmd.registerNotification tr.lbl e.event_id])
    | (_, d1, _) => ({ cb with device := d1 }, [])

/-- Index of the first eNOT_REGISTERED entry, the scan both
handle_notification_response and rc_notification_interim_timout run. -/
def find_first_not_registered : List SupportedEvent → Option Nat
  | [] => none
  | e :: es =>
    if e.status = EvtRegStatus.eNOT_REGISTERED then some 0
    else (find_first_not_registered es).map (· + 1)

/-- The while loop over the supported event list: register the first
eNOT_REGISTERED entry; the returned flag records whether one was found
(p_event != NULL at loop exit). -/
def register_first_not_registered (cb : RcCb) : RcCb × List OutCmd × Bool :=
  match find_first_not_registered cb.rc_supported_event_list with
  | some i =>
    let r := register_for_event_notification cb i
    (r.1, r.2, true)
  | none => (cb, [], false)

/-- iterate_supported_event_list_for_interim_rsp: flip the first entry with
the given event id to eINTERIM (the iterator stops at the first match,
btif_rc.cc:1990). -/
def mark_first_interim : List SupportedEvent → Nat → List SupportedEvent
  | [], _ => []
  | e :: es, eid =>
    if e.event_id = eid then { e with status := EvtRegStatus.eINTERIM } :: es
    else e :: mark_first_interim es eid

/-- iterate_supported_event_list_for_timeout: remove the first entry whose
registration label matches (btif_rc.cc:2017). -/
def remove_first_label : List SupportedEvent → Nat → List SupportedEvent
  | [], _ => []
  | e :: es, lbl => if e.label = lbl then es else e :: remove_first_label es lbl

/-- Index of the first entry with the given event id (the while loop of the
CHANGED branch of handle_notification_response). -/
def find_first_event : List SupportedEvent → Nat → Option Nat
  | [], _ => none
  | e :: es, eid =>
    if e.event_id = eid then some 0
    else (find_first_event es eid).map (· + 1)

/-! ### Parsed response payloads (tAVRC_RESPONSE members) -/

/-- tAVRC_REG_NOTIF_RSP: the event id plus the parts of the param union the
handler reads.  track_valid embeds rc_is_track_id_valid(param.track). -/
structure RegNotifRsp where
  event_id : Nat
  play_status : Nat
  track_valid : Bool
  track_uid : Nat
  setting_num_attr : Nat
deriving Repr, DecidableEq

/-- tAVRC_GET_CAPS_RSP; count is the length of the id list. -/
structure GetCapsRsp where
  status : Nat
  capability_id : Nat
  event_ids : List Nat
  company_ids : List Nat
deriving Repr, DecidableEq

/-- tAVRC_LIST_APP_ATTR_RSP. -/
structure ListAppAttrRsp where
  status : Nat
  attrs : List Nat
deriving Repr, DecidableEq

/-- tAVRC_LIST_APP_VALUES_RSP. -/
structure ListAppValuesRsp where
  status : Nat
  vals : List Nat
deriving Repr, DecidableEq

/-- tAVRC_GET_CUR_APP_VALUE_RSP; p_vals as (attr_id, attr_val) pairs. -/
structure GetCurAppValueRsp where
  status : Nat
  p_vals : List (Nat × Nat)
deriving Repr, DecidableEq

/-- One tAVRC_APP_SETTING_TEXT entry of a tAVRC_GET_APP_ATTR_TXT_RSP. -/
structure AppSettingText where
  attr_id : Nat
  charset_id : Nat
  str_len : Nat
  p_str : Option Nat
deriving Repr, DecidableEq

/-- tAVRC_GET_APP_ATTR_TXT_RSP. -/
structure GetAppAttrTxtRsp where
  status : Nat
  p_attrs : List AppSettingText
deriving Repr, DecidableEq

/-- tAVRC_GET_ELEM_ATTRS_RSP (attribute payloads surface only through the
HAL callback count). -/
structure GetElemAttrsRsp where
  status : Nat
  num_attr : Nat
deriving Repr, DecidableEq

/-- tAVRC_GET_PLAY_STATUS_RSP. -/
structure GetPlayStatusRsp where
  status : Nat
  song_len : Nat
  song_pos : Nat
  play_status : Nat
deriving Repr, DecidableEq

/-! ### Discovery procedure response handlers -/

/-- handle_get_capability_response (btif_rc.cc:2354): on EventsSupported,
rebuild the supported event list keeping only PLAY_STATUS_CHANGE,
TRACK_CHANGE and APP_SETTING_CHANGE, then register the front entry; on
CompanyId, query EventsSupported.  The label field of a freshly allocated
entry is uninitialized in the source (osi_malloc); it is embedded as 0. -/
def handle_get_capability_response (cb : RcCb) (p : GetCapsRsp) :
    RcCb × List OutCmd × List HalCback :=
  if p.status ≠ AVRC_STS_NO_ERROR then (cb, [], [])
  else if p.capability_id = AVRC_CAP_EVENTS_SUPPORTED then
    let events :=
      (p.event_ids.filter (fun e =>
          e = AVRC_EVT_PLAY_STATUS_CHANGE ∨ e = AVRC_EVT_TRACK_CHANGE ∨
          e = AVRC_EVT_APP_SETTING_CHANGE)).map
        (fun e => SupportedEvent.mk e 0 EvtRegStatus.eNOT_REGISTERED)
    let cb1 := { cb with rc_supported_event_list := events }
    match events with
    | [] => (cb1, [], [])
    | _ :: _ =>
      let r := register_for_event_notification cb1 0
      (r.1, r.2, [])
  else if p.capability_id = AVRC_CAP_COMPANY_ID then
    let r := getcapabilities_cmd cb AVRC_CAP_EVENTS_SUPPORTED
    (r.1, r.2, [])
  else (cb, [], [])

/-- The registration bookkeeping shared by the interim branch of
handle_notification_response after its per-event switch
(btif_rc.cc:2511-2543): mark the event interim, register the next
eNOT_REGISTERED entry, and when none remains and the query has not started,
start the application settings query (or complete the procedure when the
peer lacks the app-settings feature). -/
def interim_advance (cb : RcCb) (eid : Nat) : RcCb × List OutCmd :=
  let cb1 := { cb with
    rc_supported_event_list := mark_first_interim cb.rc_supported_event_list eid }
  let r := register_first_not_registered cb1
  let cb2 := r.1
  if r.2.2 = false ∧ cb2.rc_app_settings.query_started = false then
    let cb3 := { cb2 with
      rc_app_settings := { cb2.rc_app_settings with query_started := true } }
    if cb3.rc_features_app_setting then
      let r2 := list_player_app_setting_attrib_cmd cb3
      (r2.1, r.2.1 ++ r2.2)
    else
      let r2 := rc_ctrl_procedure_complete cb3
      (r2.1, r.2.1 ++ r2.2)
  else (cb2, r.2.1)

/-- The while loop of the CHANGED branch of handle_notification_response
(btif_rc.cc:2553-2564): drive the first entry with the changed event id back
to eNOT_REGISTERED and immediately re-register it. -/
def changed_rereg (cb : RcCb) (eid : Nat) : RcCb × List OutCmd :=
  match find_first_event cb.rc_supported_event_list eid with
  | none => (cb, [])
  | some i =>
    let cb1 := { cb with
      rc_supported_event_list :=
        updAt cb.rc_supported_event_list i
          (fun e => { e with status := EvtRegStatus.eNOT_REGISTERED }) }
    register_for_event_notification cb1 i

/-- handle_notification_response (btif_rc.cc:2435).  The interim branch
handles the per-event side effects (early return for unhandled event ids),
then advances the registration walk; the changed branch first drives the
matching event back to eNOT_REGISTERED and re-registers it, then handles the
per-event side effects. -/
def handle_notification_response (cb : RcCb) (code : Nat) (p : RegNotifRsp) :
    RcCb × List OutCmd × List HalCback :=
  if code = AVRC_RSP_INTERIM then
    if p.event_id = AVRC_EVT_PLAY_STATUS_CHANGE then
      let cb1 := if p.play_status = AVRC_PLAYSTATE_PLAYING
        then rc_start_play_status_timer cb else cb
      let r := interim_advance cb1 p.event_id
      (r.1, r.2, [HalCback.playStatusChanged p.play_status])
    else if p.event_id = AVRC_EVT_TRACK_CHANGE then
      let cb1 := if p.track_valid = true
        then { cb with rc_playing_uid := p.track_uid } else cb
      let r := interim_advance cb1 p.event_id
      (r.1, r.2, [])
    else if p.event_id = AVRC_EVT_APP_SETTING_CHANGE ∨
        p.event_id = AVRC_EVT_NOW_PLAYING_CHANGE ∨
        p.event_id = AVRC_EVT_AVAL_PLAYERS_CHANGE ∨
        p.event_id = AVRC_EVT_ADDR_PLAYER_CHANGE ∨
        p.event_id = AVRC_EVT_UIDS_CHANGE then
      let r := interim_advance cb p.event_id
      (r.1, r.2, [])
    else (cb, [], [])
  else if code = AVRC_RSP_CHANGED then
    let rereg := changed_rereg cb p.event_id
    let cb1 := rereg.1
    if p.event_id = AVRC_EVT_PLAY_STATUS_CHANGE then
      let cb2 := if p.play_status = AVRC_PLAYSTATE_PLAYING
        then rc_start_play_status_timer cb1 else rc_stop_play_status_timer cb1
      (cb2, rereg.2, [HalCback.playStatusChanged p.play_status])
    else if p.event_id = AVRC_EVT_TRACK_CHANGE then
      if p.track_valid = false then (cb1, rereg.2, [])
      else
        let r := get_element_attribute_cmd cb1
        (r.1, rereg.2 ++ r.2, [])
    else if p.event_id = AVRC_EVT_APP_SETTING_CHANGE then
      (cb1, rereg.2, [HalCback.playerAppSettingChanged p.setting_num_attr])
    else (cb1, rereg.2, [])
  else (cb, [], [])

/-! ### Player application settings handlers -/

/-- attrs[i].attr_id read with the C zero default of the fixed array. -/
def std_attr_id (l : List PlayerAppAttr) (i : Nat) : Nat :=
  ((l[i]?).map PlayerAppAttr.attr_id).getD 0

def ext_attr_id (l : List PlayerAppExtAttr) (i : Nat) : Nat :=
  ((l[i]?).map PlayerAppExtAttr.attr_id).getD 0

/-- The element-wise array write loop attr_val[xx] = p_rsp->vals[xx]. -/
def write_vals : List Nat → List Nat → List Nat
  | arr, [] => arr
  | [], _ => []
  | _ :: arr, v :: vs => v :: write_vals arr vs

/-- The element-wise write loop ext_attr_val[xx].val = p_rsp->vals[xx]. -/
def write_ext_vals : List PlayerAppExtAttrVal → List Nat → List PlayerAppExtAttrVal
  | arr, [] => arr
  | [], _ => []
  | e :: arr, v :: vs => { e with val := v } :: write_ext_vals arr vs

/-- handle_app_attr_response (btif_rc.cc:2642): on error complete the
procedure; otherwise split the reported attributes into standard and
extended buckets, reset the cursors, and query the first standard
attribute's values when any attribute was reported. -/
def handle_app_attr_response (cb : RcCb) (p : ListAppAttrRsp) :
    RcCb × List OutCmd × List HalCback :=
  if p.status ≠ AVRC_STS_NO_ERROR then
    let r := rc_ctrl_procedure_complete cb
    (r.1, r.2, [])
  else
    let s1 := p.attrs.foldl (fun s a =>
      if AVRC_PLAYER_SETTING_LOW_MENU_EXT < a then
        { s with
          ext_attrs := updAt s.ext_attrs s.num_ext_attrs (fun x => { x with attr_id := a }),
          num_ext_attrs := s.num_ext_attrs + 1 }
      else
        { s with
          attrs := updAt s.attrs s.num_attrs (fun x => { x with attr_id := a }),
          num_attrs := s.num_attrs + 1 }) cb.rc_app_settings
    let s2 := { s1 with attr_index := 0, ext_attr_index := 0, ext_val_index := 0 }
    let cb1 := { cb with rc_app_settings := s2 }
    if p.attrs.length ≠ 0 then
      let r := list_player_app_setting_value_cmd cb1 (std_attr_id s2.attrs 0)
      (r.1, r.2, [])
    else (cb1, [], [])

/-- handle_app_val_response (btif_rc.cc:2697): on any error status, log and
return with no callback and no follow-up command; otherwise record the value
list for the attribute under the cursor and either query the next attribute
(standard first, then extended), or, when the standard walk is done and no
extended attributes exist, fetch current values and report the discovered
settings upstream. -/
def handle_app_val_response (cb : RcCb) (p : ListAppValuesRsp) :
    RcCb × List OutCmd × List HalCback :=
  if p.status ≠ AVRC_STS_NO_ERROR then (cb, [], [])
  else
    let s := cb.rc_app_settings
    if s.attr_index < s.num_attrs then
      let s1 := { s with
        attrs := updAt s.attrs s.attr_index
          (fun x => { x with num_val := p.vals.length,
                             attr_val := write_vals x.attr_val p.vals }) }
      let s2 := { s1 with attr_index := s1.attr_index + 1 }
      let cb1 := { cb with rc_app_settings := s2 }
      if s2.attr_index < s2.num_attrs then
        let r := list_player_app_setting_value_cmd cb1 (std_attr_id s2.attrs s2.attr_index)
        (r.1, r.2, [])
      else if s2.ext_attr_index < s2.num_ext_attrs then
        let s3 := { s2 with ext_attr_index := 0 }
        let cb2 := { cb1 with rc_app_settings := s3 }
        let r := list_player_app_setting_value_cmd cb2 (ext_attr_id s3.ext_attrs 0)
        (r.1, r.2, [])
      else
        let ids := (s2.attrs.take s2.num_attrs).map PlayerAppAttr.attr_id
        let r := get_player_app_setting_cmd cb1 ids
        (r.1, r.2, [HalCback.playerAppSetting s2.num_attrs 0])
    else if s.ext_attr_index < s.num_ext_attrs then
      let s1 := { s with
        ext_attrs := updAt s.ext_attrs s.ext_attr_index
          (fun x => { x with num_val := p.vals.length,
                             ext_attr_val := write_ext_vals x.ext_attr_val p.vals }) }
      let s2 := { s1 with ext_attr_index := s1.ext_attr_index + 1 }
      let cb1 := { cb with rc_app_settings := s2 }
      if s2.ext_attr_index < s2.num_ext_attrs then
        let r := list_player_app_setting_value_cmd cb1
          (ext_attr_id s2.ext_attrs s2.ext_attr_index)
        (r.1, r.2, [])
      else
        let ids := (s2.ext_attrs.take s2.num_ext_attrs).map PlayerAppExtAttr.attr_id
        let r := get_player_app_setting_attr_text_cmd cb1 ids
        (r.1, r.2, [])
    else (cb, [], [])

/-- handle_app_cur_val_response (btif_rc.cc:2783): on any error status, log
and return with no callback and no follow-up command; otherwise report the
current settings upstream and complete the procedure. -/
def handle_app_cur_val_response (cb : RcCb) (p : GetCurAppValueRsp) :
    RcCb × List OutCmd × List HalCback :=
  if p.status ≠ AVRC_STS_NO_ERROR then (cb, [], [])
  else
    let r := rc_ctrl_procedure_complete cb
    (r.1, r.2, [HalCback.playerAppSettingChanged p.p_vals.length])

/-- First-match update of an extended attribute with a text entry, bounded
by the filled prefix length (the inner x < num_ext_attrs loop). -/
def update_first_ext_txt : List PlayerAppExtAttr → Nat → AppSettingText →
    List PlayerAppExtAttr
  | [], _, _ => []
  | es, 0, _ => es
  | e :: es, Nat.succ n, a =>
    if e.attr_id = a.attr_id then
      { e with charset_id := a.charset_id, str_len := a.str_len, p_str := a.p_str } :: es
    else e :: update_first_ext_txt es n a

/-- Free the attribute text of the first n extended attributes
(osi_free_and_reset on ext_attrs[xx].p_str). -/
def free_ext_strs : List PlayerAppExtAttr → Nat → List PlayerAppExtAttr
  | [], _ => []
  | es, 0 => es
  | e :: es, Nat.succ n => { e with p_str := none } :: free_ext_strs es n

/-- handle_app_attr_txt_response (btif_rc.cc:2825): on error, drop the
extended attributes, report the standard settings upstream and query current
values; on success, store each received text on the first matching extended
attribute and query the value text of the first extended attribute. -/
def handle_app_attr_txt_response (cb : RcCb) (p : GetAppAttrTxtRsp) :
    RcCb × List OutCmd × List HalCback :=
  let s := cb.rc_app_settings
  if p.status ≠ AVRC_STS_NO_ERROR then
    let s1 := { s with
      num_ext_attrs := 0,
      ext_attrs := free_ext_strs s.ext_attrs s.ext_attr_index,
      ext_attr_index := 0 }
    let ids := (s1.attrs.take s1.num_attrs).map PlayerAppAttr.attr_id
    let cb1 := { cb with rc_app_settings := s1 }
    let r := get_player_app_setting_cmd cb1 ids
    (r.1, r.2, [HalCback.playerAppSetting s1.num_attrs 0])
  else
    let s1 := { s with
      ext_attrs := p.p_attrs.foldl
        (fun l a => update_first_ext_txt l s.num_ext_attrs a) s.ext_attrs }
    let cb1 := { cb with rc_app_settings := s1 }
    let ext0_num_val := (((s1.ext_attrs[0]?).map PlayerAppExtAttr.num_val).getD 0)
    let ext0_vals :=
      ((((s1.ext_attrs[0]?).map PlayerAppExtAttr.ext_attr_val).getD []).take
        ext0_num_val).map PlayerAppExtAttrVal.val
    let r := get_player_app_setting_value_text_cmd cb1 ext0_vals
    (r.1, r.2, [])

/-- First-match update of an extended attribute value entry with a value
text entry; the inner loop bound comes from the response count, exactly as
in the source. -/
def update_first_ext_val_txt : List PlayerAppExtAttrVal → Nat → AppSettingText →
    List PlayerAppExtAttrVal
  | [], _, _ => []
  | es, 0, _ => es
  | e :: es, Nat.succ n, a =>
    if e.val = a.attr_id then
      { e with charset_id := a.charset_id, str_len := a.str_len, p_str := a.p_str } :: es
    else e :: update_first_ext_val_txt es n a

/-- Free the value texts of the first n entries. -/
def free_ext_val_strs : List PlayerAppExtAttrVal → Nat → List PlayerAppExtAttrVal
  | [], _ => []
  | es, 0 => es
  | e :: es, Nat.succ n => { e with p_str := none } :: free_ext_val_strs es n

/-- Free the first n extended attributes entirely: every value text up to
num_val, the value count, and the attribute text. -/
def free_ext_full : List PlayerAppExtAttr → Nat → List PlayerAppExtAttr
  | [], _ => []
  | es, 0 => es
  | e :: es, Nat.succ n =>
    { e with ext_attr_val := free_ext_val_strs e.ext_attr_val e.num_val,
             num_val := 0, p_str := none } :: free_ext_full es n

/-- handle_app_attr_val_txt_response (btif_rc.cc:2895): on error, drop the
extended attributes (freeing their texts), report the standard settings
upstream and query current values; on success, store the received value
texts on the extended attribute under the value cursor and either continue
with the next extended attribute or finish the walk: report everything
upstream, query current values and release the accumulator. -/
def handle_app_attr_val_txt_response (cb : RcCb) (p : GetAppAttrTxtRsp) :
    RcCb × List OutCmd × List HalCback :=
  let s := cb.rc_app_settings
  if p.status ≠ AVRC_STS_NO_ERROR then
    let s1 := { s with
      num_ext_attrs := 0,
      ext_attrs := free_ext_full s.ext_attrs s.ext_attr_index,
      ext_attr_index := 0 }
    let ids := (s1.attrs.take s1.num_attrs).map PlayerAppAttr.attr_id
    let cb1 := { cb with rc_app_settings := s1 }
    let r := get_player_app_setting_cmd cb1 ids
    (r.1, r.2, [HalCback.playerAppSetting s1.num_attrs 0])
  else
    let upd := fun (e : PlayerAppExtAttr) =>
      { e with
        ext_attr_val :=
          p.p_attrs.foldl
            (fun l a => update_first_ext_val_txt l p.p_attrs.length a) e.ext_attr_val }
    let s1 := { s with ext_attrs := updAt s.ext_attrs s.ext_val_index upd }
    let s2 := { s1 with ext_val_index := s1.ext_val_index + 1 }
    if s2.ext_val_index < s2.num_ext_attrs then
      let nextVals :=
        ((((s2.ext_attrs[s2.ext_val_index]?).map PlayerAppExtAttr.ext_attr_val).getD
          []).take (((s2.ext_attrs[s2.ext_val_index]?).map
            PlayerAppExtAttr.num_val).getD 0)).map PlayerAppExtAttrVal.val
      let cb1 := { cb with rc_app_settings := s2 }
      let r := get_player_app_setting_value_text_cmd cb1 nextVals
      (r.1, r.2, [])
    else
      let ids := ((s2.attrs.take s2.num_attrs).map PlayerAppAttr.attr_id) ++
        ((s2.ext_attrs.take s2.num_ext_attrs).map PlayerAppExtAttr.attr_id)
      let s3 := { s2 with
        ext_attrs := free_ext_full s2.ext_attrs s2.ext_attr_index,
        num_attrs := 0 }
      let cb1 := { cb with rc_app_settings := s3 }
      let r := get_player_app_setting_cmd cb1 ids
      (r.1, r.2, [HalCback.playerAppSetting s2.num_attrs s2.num_ext_attrs])

/-- handle_set_app_attr_val_response (btif_rc.cc:3012): report accept (1)
only for AVRC_RSP_ACCEPT; the timeout path passes no message (none). -/
def handle_set_app_attr_val_response (cb : RcCb) (code : Option Nat) :
    RcCb × List OutCmd × List HalCback :=
  if code = some AVRC_RSP_ACCEPT then (cb, [], [HalCback.setPlayerAppRsp 1])
  else (cb, [], [HalCback.setPlayerAppRsp 0])

/-- handle_get_elem_attr_response (btif_rc.cc:3038): report the track
attributes on success, retry the fetch on the synthesized timeout status,
log otherwise. -/
def handle_get_elem_attr_response (cb : RcCb) (p : GetElemAttrsRsp) :
    RcCb × List OutCmd × List HalCback :=
  if p.status = AVRC_STS_NO_ERROR then
    (cb, [], [HalCback.trackChanged p.num_attr])
  else if p.status = BTIF_RC_STS_TIMEOUT then
    let r := get_element_attribute_cmd cb
    (r.1, r.2, [])
  else (cb, [], [])

/-- handle_get_playstatus_response (btif_rc.cc:3091). -/
def handle_get_playstatus_response (cb : RcCb) (p : GetPlayStatusRsp) :
    RcCb × List OutCmd × List HalCback :=
  if p.status = AVRC_STS_NO_ERROR then
    (cb, [], [HalCback.playPositionChanged p.song_len p.song_pos])
  else (cb, [], [])

/-! ### The AVK response dispatcher and the timeout handlers -/

/-- The decoded vendor response delivered by AVRC_Ctrl_ParsResponse,
tagged by PDU. -/
inductive AvrcResponse where
  | regNotif (p : RegNotifRsp)
  | getCaps (p : GetCapsRsp)
  | listAppAttr (p : ListAppAttrRsp)
  | listAppValues (p : ListAppValuesRsp)
  | getCurAppVal (p : GetCurAppValueRsp)
  | getAppAttrTxt (p : GetAppAttrTxtRsp)
  | getAppValTxt (p : GetAppAttrTxtRsp)
  | setAppVal
  | getElemAttrs (p : GetElemAttrsRsp)
  | getPlayStatus (p : GetPlayStatusRsp)
  | other (pdu : Nat)
deriving Repr, DecidableEq

/-- The PDU id carried by a decoded response. -/
def AvrcResponse.pdu : AvrcResponse → Nat
  | AvrcResponse.regNotif _ => AVRC_PDU_REGISTER_NOTIFICATION
  | AvrcResponse.getCaps _ => AVRC_PDU_GET_CAPABILITIES
  | AvrcResponse.listAppAttr _ => AVRC_PDU_LIST_PLAYER_APP_ATTR
  | AvrcResponse.listAppValues _ => AVRC_PDU_LIST_PLAYER_APP_VALUES
  | AvrcResponse.getCurAppVal _ => AVRC_PDU_GET_CUR_PLAYER_APP_VALUE
  | AvrcResponse.getAppAttrTxt _ => AVRC_PDU_GET_PLAYER_APP_ATTR_TEXT
  | AvrcResponse.getAppValTxt _ => AVRC_PDU_GET_PLAYER_APP_VALUE_TEXT
  | AvrcResponse.setAppVal => AVRC_PDU_SET_PLAYER_APP_VALUE
  | AvrcResponse.getElemAttrs _ => AVRC_PDU_GET_ELEMENT_ATTR
  | AvrcResponse.getPlayStatus _ => AVRC_PDU_GET_PLAY_STATUS
  | AvrcResponse.other pdu => pdu

/-- Header fields of the inbound tBTA_AV_META_MSG read by the dispatcher. -/
structure MetaMsg where
  opcode : Nat
  code : Nat
  label : Nat
deriving Repr, DecidableEq

/-- The per-PDU handler switch of handle_avk_rc_metamsg_rsp
(btif_rc.cc:3160).  A PDU without a case does nothing. -/
def run_pdu_handler (cb : RcCb) (msg : MetaMsg) (rsp : AvrcResponse) :
    RcCb × List OutCmd × List HalCback :=
  match rsp with
  | AvrcResponse.regNotif p => handle_notification_response cb msg.code p
  | AvrcResponse.getCaps p => handle_get_capability_response cb p
  | AvrcResponse.listAppAttr p => handle_app_attr_response cb p
  | AvrcResponse.listAppValues p => handle_app_val_response cb p
  | AvrcResponse.getCurAppVal p => handle_app_cur_val_response cb p
  | AvrcResponse.getAppAttrTxt p => handle_app_attr_txt_response cb p
  | AvrcResponse.getAppValTxt p => handle_app_attr_val_txt_response cb p
  | AvrcResponse.setAppVal => handle_set_app_attr_val_response cb (some msg.code)
  | AvrcResponse.getElemAttrs p => handle_get_elem_attr_response cb p
  | AvrcResponse.getPlayStatus p => handle_get_playstatus_response cb p
  | AvrcResponse.other _ => (cb, [], [])

/-- handle_avk_rc_metamsg_rsp (btif_rc.cc:3141): for a vendor response with
a response code, parse and run the matching per-PDU handler; an interim
REGISTER_NOTIFICATION response keeps its transaction and only clears the
slot alarm, every other processed response releases the transaction after
its handler ran.  No transaction-label validation is performed. -/
def handle_avk_rc_metamsg_rsp (cb : RcCb) (msg : MetaMsg) (rsp : AvrcResponse) :
    RcCb × List OutCmd × List HalCback :=
  if msg.opcode = AVRC_OP_VENDOR ∧ AVRC_RSP_NOT_IMPL ≤ msg.code ∧
      msg.code ≤ AVRC_RSP_INTERIM then
    let r := run_pdu_handler cb msg rsp
    if rsp.pdu = AVRC_PDU_REGISTER_NOTIFICATION ∧ msg.code = AVRC_RSP_INTERIM then
      ({ r.1 with device := clear_cmd_timeout r.1.device msg.label }, r.2.1, r.2.2)
    else
      ({ r.1 with device := release_transaction r.1.device msg.label }, r.2.1, r.2.2)
  else (cb, [], [])

/-- rc_notification_interim_timout (btif_rc.cc:2042): drop the first event
whose registration label timed out, then register the next eNOT_REGISTERED
entry. -/
def rc_notification_interim_timout (cb : RcCb) (label : Nat) : RcCb × List OutCmd :=
  let cb1 := { cb with
    rc_supported_event_list := remove_first_label cb.rc_supported_event_list label }
  let r := register_first_not_registered cb1
  (r.1, r.2.1)

/-- btif_rc_status_cmd_timeout_handler (btif_rc.cc:2077): route the timed
out label to the per-PDU handler with a synthesized BTIF_RC_STS_TIMEOUT
status (zeroed payload), then release the transaction.  Note that the
source routes a GET_PLAYER_APP_VALUE_TEXT timeout to
handle_app_attr_txt_response, not to handle_app_attr_val_txt_response
(btif_rc.cc:2118-2121). -/
def btif_rc_status_cmd_timeout_handler (cb : RcCb) (pdu : Nat) (label : Nat) :
    RcCb × List OutCmd × List HalCback :=
  let r :=
    if pdu = AVRC_PDU_REGISTER_NOTIFICATION then
      let r0 := rc_notification_interim_timout cb label
      (r0.1, r0.2, ([] : List HalCback))
    else if pdu = AVRC_PDU_GET_CAPABILITIES then
      handle_get_capability_response cb ⟨BTIF_RC_STS_TIMEOUT, 0, [], []⟩
    else if pdu = AVRC_PDU_LIST_PLAYER_APP_ATTR then
      handle_app_attr_response cb ⟨BTIF_RC_STS_TIMEOUT, []⟩
    else if pdu = AVRC_PDU_LIST_PLAYER_APP_VALUES then
      handle_app_val_response cb ⟨BTIF_RC_STS_TIMEOUT, []⟩
    else if pdu = AVRC_PDU_GET_CUR_PLAYER_APP_VALUE then
      handle_app_cur_val_response cb ⟨BTIF_RC_STS_TIMEOUT, []⟩
    else if pdu = AVRC_PDU_GET_PLAYER_APP_ATTR_TEXT then
      handle_app_attr_txt_response cb ⟨BTIF_RC_STS_TIMEOUT, []⟩
    else if pdu = AVRC_PDU_GET_PLAYER_APP_VALUE_TEXT then
      handle_app_attr_txt_response cb ⟨BTIF_RC_STS_TIMEOUT, []⟩
    else if pdu = AVRC_PDU_GET_ELEMENT_ATTR then
      handle_get_elem_attr_response cb ⟨BTIF_RC_STS_TIMEOUT, 0⟩
    else if pdu = AVRC_PDU_GET_PLAY_STATUS then
      handle_get_playstatus_response cb ⟨BTIF_RC_STS_TIMEOUT, 0, 0, 0⟩
    else (cb, [], [])
  ({ r.1 with device := release_transaction r.1.device label }, r.2.1, r.2.2)

/-! ### The TG-role volume response path -/

/-- The outcome of AVRC_ParsResponse as read by handle_rc_metamsg_rsp:
parse status, PDU, the notified event id and the carried volume. -/
structure VolRspParse where
  status : Nat
  pdu : Nat
  event_id : Nat
  volume : Nat
deriving Repr, DecidableEq

/-- register_volumechange (btif_rc.cc:1871): build the volume-change
REGISTER_NOTIFICATION and send it under the given label when the label still
looks up to a live transaction; no state is modified. -/
def register_volumechange (cb : RcCb) (lbl : Nat) : RcCb × List OutCmd :=
  match get_transaction_by_lbl cb.device lbl with
  | some _ => (cb, [OutCmd.registerVolumeChange lbl])
  | none => (cb, [])

/-- btif_rc_upstreams_rsp_evt (btif_rc.cc:1558): cache the volume on a
CHANGED notification or an ACCEPTed SET_ABSOLUTE_VOLUME and forward the
volume to the HAL. -/
def btif_rc_upstreams_rsp_evt (cb : RcCb) (event : Nat) (volume : Nat) (ctype : Nat) :
    RcCb × List HalCback :=
  if event = AVRC_PDU_REGISTER_NOTIFICATION then
    let cb1 := if ctype = AVRC_RSP_CHANGED then { cb with rc_volume := volume } else cb
    (cb1, [HalCback.volumeChange volume ctype])
  else if event = AVRC_PDU_SET_ABSOLUTE_VOLUME then
    let cb1 := if ctype = AVRC_RSP_ACCEPT then { cb with rc_volume := volume } else cb
    (cb1, [HalCback.volumeChange volume ctype])
  else (cb, [])

/-- handle_rc_metamsg_rsp (btif_rc.cc:1912): the TG-role response handler
for the volume subscription and SET_ABSOLUTE_VOLUME.  On a parse error for
the volume registration it overwrites rc_vol_label with MAX_LABEL before
releasing, so the release receives MAX_LABEL (out of range, a no-op),
exactly as in the source.  On CHANGED it re-registers under the same,
still-in-use volume label; on SET_ABSOLUTE_VOLUME it releases the label;
afterwards the response is forwarded upstream. -/
def handle_rc_metamsg_rsp (cb : RcCb) (msg : MetaMsg) (p : VolRspParse) :
    RcCb × List OutCmd × List HalCback :=
  if msg.opcode = AVRC_OP_VENDOR ∧ (msg.code = AVRC_RSP_CHANGED ∨
      msg.code = AVRC_RSP_INTERIM ∨ msg.code = AVRC_RSP_ACCEPT ∨
      msg.code = AVRC_RSP_REJ ∨ msg.code = AVRC_RSP_NOT_IMPL) then
    if p.status ≠ AVRC_STS_NO_ERROR then
      if p.pdu = AVRC_PDU_REGISTER_NOTIFICATION ∧
          p.event_id = AVRC_EVT_VOLUME_CHANGE ∧ cb.rc_vol_label = msg.label then
        let cb1 := { cb with rc_vol_label := MAX_LABEL }
        ({ cb1 with device := release_transaction cb1.device cb1.rc_vol_label }, [], [])
      else if p.pdu = AVRC_PDU_SET_ABSOLUTE_VOLUME then
        ({ cb with device := release_transaction cb.device msg.label }, [], [])
      else (cb, [], [])
    else if p.pdu = AVRC_PDU_REGISTER_NOTIFICATION ∧
        p.event_id = AVRC_EVT_VOLUME_CHANGE ∧ cb.rc_vol_label ≠ msg.label then
      (cb, [], [])
    else
      let rereg :=
        if p.pdu = AVRC_PDU_REGISTER_NOTIFICATION ∧
            p.event_id = AVRC_EVT_VOLUME_CHANGE ∧ msg.code = AVRC_RSP_CHANGED then
          register_volumechange cb cb.rc_vol_label
        else if p.pdu = AVRC_PDU_SET_ABSOLUTE_VOLUME then
          ({ cb with device := release_transaction cb.device msg.label }, [])
        else (cb, [])
      let r := btif_rc_upstreams_rsp_evt rereg.1 p.pdu p.volume msg.code
      (r.1, rereg.2, r.2)
  else (cb, [], [])

/-- The response branch of handle_rc_metamsg_cmd (btif_rc.cc:920-935): a
vendor response in the adv-ctrl role is handed to handle_rc_metamsg_rsp only
when its label looks up to a live transaction, otherwise it is discarded. -/
def rc_metamsg_cmd_rsp_guard (cb : RcCb) (msg : MetaMsg) (p : VolRspParse) :
    RcCb × List OutCmd × List HalCback :=
  match get_transaction_by_lbl cb.device msg.label with
  | some _ => handle_rc_metamsg_rsp cb msg p
  | none => (cb, [], [])

/-! ### Preservation of in-use pool slots across the handlers -/

/-- Every in-use slot survives unchanged from d to d2. -/
abbrev SlotInUsePreserved (d d2 : RcDevice) : Prop :=
  ∀ (i : Nat) (t : RcTransaction),
    d.transaction[i]? = some t → t.in_use = true → d2.transaction[i]? = some t

lemma slotPres_refl (d : RcDevice) : SlotInUsePreserved d d := fun _ _ h _ => h

lemma slotPres_trans {a b c : RcDevice}
    (h1 : SlotInUsePreserved a b) (h2 : SlotInUsePreserved b c) :
    SlotInUsePreserved a c := by
  intro i t hi hu
  exact h2 i t (h1 i t hi hu) hu

/-- The allocation scan keeps every in-use slot untouched. -/
lemma get_transaction_scan_slotPres :
    ∀ (l l2 : List RcTransaction) (tr : RcTransaction),
      get_transaction_scan l = some (l2, tr) →
      ∀ (i : Nat) (t : RcTransaction), l[i]? = some t → t.in_use = true → l2[i]? = some t := by
  intro l
  induction l with
  | nil => intro l2 tr h; simp [get_transaction_scan] at h
  | cons x xs ih =>
    intro l2 tr h i t hi hu
    unfold get_transaction_scan at h
    by_cases hx : x.in_use = false
    · simp [hx] at h
      rcases h with ⟨h1, _⟩
      subst h1
      cases i with
      | zero =>
        simp at hi
        subst hi
        rw [hu] at hx
        exact Bool.noConfusion hx
      | succ n => simpa using hi
    · simp [hx] at h
      cases hscan : get_transaction_scan xs with
      | none => rw [hscan] at h; simp at h
      | some pr =>
        rw [hscan] at h
        cases pr with
        | mk xs2 tr2 =>
          simp at h
          rcases h with ⟨h1, _⟩
          subst h1
          cases i with
          | zero => simpa using hi
          | succ n =>
            simp at hi
            simpa using ih xs2 tr2 hscan n t hi hu

/-- The slot the scan hands out was free, at some index, before the scan. -/
lemma get_transaction_scan_result_free :
    ∀ (l l2 : List RcTransaction) (tr : RcTransaction),
      get_transaction_scan l = some (l2, tr) →
      ∃ j : Nat, l[j]? = some { tr with in_use := false } := by
  intro l
  induction l with
  | nil => intro l2 tr h; simp [get_transaction_scan] at h
  | cons x xs ih =>
    intro l2 tr h
    unfold get_transaction_scan at h
    by_cases hx : x.in_use = false
    · simp [hx] at h
      refine ⟨0, ?_⟩
      simp
      rcases h with ⟨_, h2⟩
      subst h2
      cases x
      simp at hx
      simp [hx]
    · simp [hx] at h
      cases hscan : get_transaction_scan xs with
      | none => rw [hscan] at h; simp at h
      | some pr =>
        rw [hscan] at h
        cases pr with
        | mk xs2 tr2 =>
          simp at h
          rcases h with ⟨_, h2⟩
          subst h2
          rcases ih xs2 tr2 hscan with ⟨j, hj⟩
          exact ⟨j + 1, by simpa using hj⟩

lemma wf_arm_status_timer (d : RcDevice) (lbl pdu : Nat) (h : WfDevice d) :
    WfDevice (arm_status_timer d lbl pdu) := by
  refine ⟨by simpa [arm_status_timer, modifySlot_length] using h.1, ?_⟩
  intro i hi
  unfold arm_status_timer
  simp only
  exact (modifySlot_lbl_invariant d.transaction lbl
    (fun t => { t with ctxLabel := lbl, ctxPdu := pdu, timerScheduled := true })
    (fun t => rfl) i).trans (h.2 i hi)

/-- Acquiring a slot and arming a timer on the acquired label preserves
every in-use slot and pool well-formedness. -/
lemma acquire_arm_devOk (d : RcDevice) (hwf : WfDevice d) (pdu : Nat)
    (l2 : List RcTransaction) (tr : RcTransaction)
    (hs : get_transaction_scan d.transaction = some (l2, tr)) :
    SlotInUsePreserved d (arm_status_timer ⟨l2⟩ tr.lbl pdu) ∧
      WfDevice (arm_status_timer ⟨l2⟩ tr.lbl pdu) := by
  have hwf1 : WfDevice (⟨l2⟩ : RcDevice) := by
    refine ⟨by simpa using (get_transaction_scan_length d.transaction l2 tr hs).trans hwf.1, ?_⟩
    intro i hi
    simpa using (get_transaction_scan_lbl_preserved d.transaction l2 tr hs i).trans
      (hwf.2 i hi)
  rcases get_transaction_scan_result_free d.transaction l2 tr hs with ⟨j, hj⟩
  have hjlen : j < d.transaction.length := (List.getElem?_eq_some_iff.mp hj).choose
  have hj16 : j < MAX_TRANSACTIONS_PER_SESSION := by rw [hwf.1] at hjlen; exact hjlen
  have hlblj : tr.lbl = j := by
    have := hwf.2 j hj16
    rw [hj] at this
    simpa using this
  constructor
  · intro i t hi hu
    have hne : i ≠ j := by
      intro he
      subst he
      rw [hi] at hj
      have hfalse : t.in_use = false := by
        have := congrArg (Option.map RcTransaction.in_use) hj
        simpa using this
      rw [hu] at hfalse
      exact Bool.noConfusion hfalse
    have h1 : l2[i]? = some t :=
      get_transaction_scan_slotPres d.transaction l2 tr hs i t hi hu
    unfold arm_status_timer
    simp only
    rw [hlblj, modifySlot_get_ne _ _ _ _ hne]
    exact h1
  · exact wf_arm_status_timer ⟨l2⟩ tr.lbl pdu hwf1

/-- Device-effect summary of a step from cb to cb2: in-use slots survive and
the pool stays well-formed. -/
abbrev DevOk (cb cb2 : RcCb) : Prop :=
  WfDevice cb.device → SlotInUsePreserved cb.device cb2.device ∧ WfDevice cb2.device

lemma devOk_refl (cb : RcCb) : DevOk cb cb :=
  fun h => ⟨slotPres_refl _, h⟩

lemma devOk_of_eq {cb cb2 : RcCb} (h : cb2.device = cb.device) : DevOk cb cb2 := by
  intro hwf
  rw [h]
  exact ⟨slotPres_refl _, hwf⟩

lemma devOk_trans {a b c : RcCb} (h1 : DevOk a b) (h2 : DevOk b c) : DevOk a c := by
  intro hwf
  rcases h1 hwf with ⟨p1, w1⟩
  rcases h2 w1 with ⟨p2, w2⟩
  exact ⟨slotPres_trans p1 p2, w2⟩

lemma send_status_cmd_devOk (cb : RcCb) (pdu : Nat) (mk : Nat → OutCmd) :
    DevOk cb (send_status_cmd cb pdu mk).1 := by
  intro hwf
  unfold send_status_cmd
  by_cases hc : cb.rc_connected = false
  · simp only [hc, if_true]
    exact ⟨slotPres_refl _, hwf⟩
  · simp only [hc, if_false]
    cases hs : get_transaction_scan cb.device.transaction with
    | none =>
      have hacq : get_transaction cb.device = (BtStatus.nomem, cb.device, none) := by
        unfold get_transaction; rw [hs]
      rw [hacq]
      exact ⟨slotPres_refl _, hwf⟩
    | some pr =>
      cases pr with
      | mk l2 tr =>
        have hacq : get_transaction cb.device =
            (BtStatus.success, ⟨l2⟩, some tr) := by
          unfold get_transaction; rw [hs]
        rw [hacq]
        simp only
        exact acquire_arm_devOk cb.device hwf pdu l2 tr hs

lemma register_for_event_notification_devOk (cb : RcCb) (i : Nat) :
    DevOk cb (register_for_event_notification cb i).1 := by
  intro hwf
  unfold register_for_event_notification
  cases he : cb.rc_supported_event_list[i]? with
  | none => exact ⟨slotPres_refl _, hwf⟩
  | some e =>
    cases hs : get_transaction_scan cb.device.transaction with
    | none =>
      have hacq : get_transaction cb.device = (BtStatus.nomem, cb.device, none) := by
        unfold get_transaction; rw [hs]
      rw [hacq]
      exact ⟨slotPres_refl _, hwf⟩
    | some pr =>
      cases pr with
      | mk l2 tr =>
        have hacq : get_transaction cb.device =
            (BtStatus.success, ⟨l2⟩, some tr) := by
          unfold get_transaction; rw [hs]
        rw [hacq]
        simp only
        exact acquire_arm_devOk cb.device hwf AVRC_PDU_REGISTER_NOTIFICATION l2 tr hs

lemma register_first_not_registered_devOk (cb : RcCb) :
    DevOk cb (register_first_not_registered cb).1 := by
  unfold register_first_not_registered
  cases hf : find_first_not_registered cb.rc_supported_event_list with
  | none => exact devOk_refl cb
  | some i =>
    simp only
    exact register_for_event_notification_devOk cb i

lemma rc_ctrl_procedure_complete_devOk (cb : RcCb) :
    DevOk cb (rc_ctrl_procedure_complete cb).1 := by
  unfold rc_ctrl_procedure_complete
  by_cases h : cb.rc_procedure_complete = true
  · rw [if_pos h]
    exact devOk_refl cb
  · rw [if_neg h]
    exact devOk_trans (devOk_of_eq rfl)
      (send_status_cmd_devOk { cb with rc_procedure_complete := true } _ _)

lemma interim_advance_devOk (cb : RcCb) (eid : Nat) :
    DevOk cb (interim_advance cb eid).1 := by
  unfold interim_advance
  dsimp only
  set cb1 : RcCb := { cb with
    rc_supported_event_list := mark_first_interim cb.rc_supported_event_list eid } with hcb1
  have h1 : DevOk cb cb1 := devOk_of_eq rfl
  have h2 : DevOk cb1 (register_first_not_registered cb1).1 :=
    register_first_not_registered_devOk cb1
  by_cases hsig : (register_first_not_registered cb1).2.2 = false ∧
      (register_first_not_registered cb1).1.rc_app_settings.query_started = false
  · rw [if_pos hsig]
    set cb2 := (register_first_not_registered cb1).1 with hcb2
    set cb3 : RcCb := { cb2 with
      rc_app_settings := { cb2.rc_app_settings with query_started := true } } with hcb3
    have h3 : DevOk cb2 cb3 := devOk_of_eq rfl
    by_cases hfeat : cb3.rc_features_app_setting
    · rw [if_pos hfeat]
      exact devOk_trans h1 (devOk_trans h2 (devOk_trans h3
        (send_status_cmd_devOk cb3 _ _)))
    · rw [if_neg hfeat]
      exact devOk_trans h1 (devOk_trans h2 (devOk_trans h3
        (rc_ctrl_procedure_complete_devOk cb3)))
  · rw [if_neg hsig]
    exact devOk_trans h1 h2

lemma handle_notification_response_devOk (cb : RcCb) (code : Nat) (p : RegNotifRsp) :
    DevOk cb (handle_notification_response cb code p).1 := by
  unfold handle_notification_response
  by_cases hcode : code = AVRC_RSP_INTERIM
  · rw [if_pos hcode]
    by_cases h1 : p.event_id = AVRC_EVT_PLAY_STATUS_CHANGE
    · rw [if_pos h1]
      dsimp only
      by_cases hp : p.play_status = AVRC_PLAYSTATE_PLAYING
      · rw [if_pos hp]
        exact devOk_trans (devOk_of_eq rfl)
          (interim_advance_devOk (rc_start_play_status_timer cb) p.event_id)
      · rw [if_neg hp]
        exact interim_advance_devOk cb p.event_id
    · rw [if_neg h1]
      by_cases h2 : p.event_id = AVRC_EVT_TRACK_CHANGE
      · rw [if_pos h2]
        dsimp only
        by_cases hv : p.track_valid = true
        · rw [if_pos hv]
          exact devOk_trans (devOk_of_eq rfl)
            (interim_advance_devOk { cb with rc_playing_uid := p.track_uid } p.event_id)
        · rw [if_neg hv]
          exact interim_advance_devOk cb p.event_id
      · rw [if_neg h2]
        by_cases h3 : p.event_id = AVRC_EVT_APP_SETTING_CHANGE ∨
            p.event_id = AVRC_EVT_NOW_PLAYING_CHANGE ∨
            p.event_id = AVRC_EVT_AVAL_PLAYERS_CHANGE ∨
            p.event_id = AVRC_EVT_ADDR_PLAYER_CHANGE ∨
            p.event_id = AVRC_EVT_UIDS_CHANGE
        · rw [if_pos h3]
          exact interim_advance_devOk cb p.event_id
        · rw [if_neg h3]
          exact devOk_refl cb
  · rw [if_neg hcode]
    by_cases hch : code = AVRC_RSP_CHANGED
    · rw [if_pos hch]
      dsimp only
      have hrereg : DevOk cb (changed_rereg cb p.event_id).1 := by
        unfold changed_rereg
        cases hf : find_first_event cb.rc_supported_event_list p.event_id with
        | none => exact devOk_refl cb
        | some i =>
          dsimp only
          refine devOk_trans ?_ (register_for_event_notification_devOk _ i)
          exact devOk_of_eq rfl
      by_cases h1 : p.event_id = AVRC_EVT_PLAY_STATUS_CHANGE
      · rw [if_pos h1]
        by_cases hp : p.play_status = AVRC_PLAYSTATE_PLAYING
        · rw [if_pos hp]
          exact devOk_trans hrereg (devOk_of_eq rfl)
        · rw [if_neg hp]
          exact devOk_trans hrereg (devOk_of_eq rfl)
      · rw [if_neg h1]
        by_cases h2 : p.event_id = AVRC_EVT_TRACK_CHANGE
        · rw [if_pos h2]
          by_cases hv : p.track_valid = false
          · rw [if_pos hv]
            exact hrereg
          · rw [if_neg hv]
            exact devOk_trans hrereg
              (send_status_cmd_devOk (changed_rereg cb p.event_id).1 _ _)
        · rw [if_neg h2]
          by_cases h3 : p.event_id = AVRC_EVT_APP_SETTING_CHANGE
          · rw [if_pos h3]
            exact hrereg
          · rw [if_neg h3]
            exact hrereg
    · rw [if_neg hch]
      exact devOk_refl cb

lemma handle_get_capability_response_devOk (cb : RcCb) (p : GetCapsRsp) :
    DevOk cb (handle_get_capability_response cb p).1 := by
  unfold handle_get_capability_response
  by_cases h : p.status ≠ AVRC_STS_NO_ERROR
  · rw [if_pos h]
    exact devOk_refl cb
  · rw [if_neg h]
    by_cases h2 : p.capability_id = AVRC_CAP_EVENTS_SUPPORTED
    · rw [if_pos h2]
      dsimp only
      cases hev : (p.event_ids.filter (fun e =>
          e = AVRC_EVT_PLAY_STATUS_CHANGE ∨ e = AVRC_EVT_TRACK_CHANGE ∨
          e = AVRC_EVT_APP_SETTING_CHANGE)).map
            (fun e => SupportedEvent.mk e 0 EvtRegStatus.eNOT_REGISTERED) with
      | nil => exact devOk_of_eq rfl
      | cons e es =>
        dsimp only
        refine devOk_trans ?_ (register_for_event_notification_devOk _ 0)
        exact devOk_of_eq rfl
    · rw [if_neg h2]
      by_cases h3 : p.capability_id = AVRC_CAP_COMPANY_ID
      · rw [if_pos h3]
        dsimp only
        exact send_status_cmd_devOk cb _ _
      · rw [if_neg h3]
        exact devOk_refl cb

lemma handle_app_attr_response_devOk (cb : RcCb) (p : ListAppAttrRsp) :
    DevOk cb (handle_app_attr_response cb p).1 := by
  unfold handle_app_attr_response
  by_cases h : p.status ≠ AVRC_STS_NO_ERROR
  · rw [if_pos h]
    exact rc_ctrl_procedure_complete_devOk cb
  · rw [if_neg h]
    dsimp only
    by_cases h2 : p.attrs.length ≠ 0
    · rw [if_pos h2]
      refine devOk_trans ?_ (send_status_cmd_devOk _ _ _)
      exact devOk_of_eq rfl
    · rw [if_neg h2]
      exact devOk_of_eq rfl

lemma handle_app_val_response_devOk (cb : RcCb) (p : ListAppValuesRsp) :
    DevOk cb (handle_app_val_response cb p).1 := by
  unfold handle_app_val_response
  by_cases h : p.status ≠ AVRC_STS_NO_ERROR
  · rw [if_pos h]
    exact devOk_refl cb
  · rw [if_neg h]
    dsimp only
    by_cases h1 : cb.rc_app_settings.attr_index < cb.rc_app_settings.num_attrs
    · rw [if_pos h1]
      split
      · refine devOk_trans ?_ (send_status_cmd_devOk _ _ _)
        exact devOk_of_eq rfl
      · split
        · refine devOk_trans ?_ (send_status_cmd_devOk _ _ _)
          exact devOk_of_eq rfl
        · refine devOk_trans ?_ (send_status_cmd_devOk _ _ _)
          exact devOk_of_eq rfl
    · rw [if_neg h1]
      by_cases h2 : cb.rc_app_settings.ext_attr_index < cb.rc_app_settings.num_ext_attrs
      · rw [if_pos h2]
        split
        · refine devOk_trans ?_ (send_status_cmd_devOk _ _ _)
          exact devOk_of_eq rfl
        · refine devOk_trans ?_ (send_status_cmd_devOk _ _ _)
          exact devOk_of_eq rfl
      · rw [if_neg h2]
        exact devOk_refl cb

lemma handle_app_cur_val_response_devOk (cb : RcCb) (p : GetCurAppValueRsp) :
    DevOk cb (handle_app_cur_val_response cb p).1 := by
  unfold handle_app_cur_val_response
  by_cases h : p.status ≠ AVRC_STS_NO_ERROR
  · rw [if_pos h]
    exact devOk_refl cb
  · rw [if_neg h]
    dsimp only
    exact rc_ctrl_procedure_complete_devOk cb

lemma handle_app_attr_txt_response_devOk (cb : RcCb) (p : GetAppAttrTxtRsp) :
    DevOk cb (handle_app_attr_txt_response cb p).1 := by
  unfold handle_app_attr_txt_response
  by_cases h : p.status ≠ AVRC_STS_NO_ERROR
  · rw [if_pos h]
    refine devOk_trans ?_ (send_status_cmd_devOk _ _ _)
    exact devOk_of_eq rfl
  · rw [if_neg h]
    refine devOk_trans ?_ (send_status_cmd_devOk _ _ _)
    exact devOk_of_eq rfl

lemma handle_app_attr_val_txt_response_devOk (cb : RcCb) (p : GetAppAttrTxtRsp) :
    DevOk cb (handle_app_attr_val_txt_response cb p).1 := by
  unfold handle_app_attr_val_txt_response
  by_cases h : p.status ≠ AVRC_STS_NO_ERROR
  · rw [if_pos h]
    dsimp only
    refine devOk_trans ?_ (send_status_cmd_devOk _ _ _)
    exact devOk_of_eq rfl
  · rw [if_neg h]
    dsimp only
    split
    · refine devOk_trans ?_ (send_status_cmd_devOk _ _ _)
      exact devOk_of_eq rfl
    · refine devOk_trans ?_ (send_status_cmd_devOk _ _ _)
      exact devOk_of_eq rfl

lemma handle_get_elem_attr_response_devOk (cb : RcCb) (p : GetElemAttrsRsp) :
    DevOk cb (handle_get_elem_attr_response cb p).1 := by
  unfold handle_get_elem_attr_response
  split
  · exact devOk_refl cb
  · split
    · dsimp only
      exact send_status_cmd_devOk cb _ _
    · exact devOk_refl cb

lemma handle_get_playstatus_response_devOk (cb : RcCb) (p : GetPlayStatusRsp) :
    DevOk cb (handle_get_playstatus_response cb p).1 := by
  unfold handle_get_playstatus_response
  split
  · exact devOk_refl cb
  · exact devOk_refl cb

lemma run_pdu_handler_devOk (cb : RcCb) (msg : MetaMsg) (rsp : AvrcResponse) :
    DevOk cb (run_pdu_handler cb msg rsp).1 := by
  unfold run_pdu_handler
  cases rsp with
  | regNotif p => exact handle_notification_response_devOk cb msg.code p
  | getCaps p => exact handle_get_capability_response_devOk cb p
  | listAppAttr p => exact handle_app_attr_response_devOk cb p
  | listAppValues p => exact handle_app_val_response_devOk cb p
  | getCurAppVal p => exact handle_app_cur_val_response_devOk cb p
  | getAppAttrTxt p => exact handle_app_attr_txt_response_devOk cb p
  | getAppValTxt p => exact handle_app_attr_val_txt_response_devOk cb p
  | setAppVal =>
    show DevOk cb (handle_set_app_attr_val_response cb (some msg.code)).1
    unfold handle_set_app_attr_val_response
    split
    · exact devOk_refl cb
    · exact devOk_refl cb
  | getElemAttrs p => exact handle_get_elem_attr_response_devOk cb p
  | getPlayStatus p => exact handle_get_playstatus_response_devOk cb p
  | other pdu => exact devOk_refl cb

/-! ### Claims about the dispatcher (C5, C2) -/

lemma get_transaction_by_lbl_of_slot (d : RcDevice) (lbl : Nat) (t : RcTransaction)
    (hlt : lbl < MAX_TRANSACTIONS_PER_SESSION)
    (h : d.transaction[lbl]? = some t) (hu : t.in_use = true) :
    get_transaction_by_lbl d lbl = some t := by
  unfold get_transaction_by_lbl
  rw [if_pos hlt, h]
  simp [hu]

lemma clear_cmd_timeout_spec (d : RcDevice) (lbl : Nat) (t : RcTransaction)
    (hlt : lbl < MAX_TRANSACTIONS_PER_SESSION)
    (h : d.transaction[lbl]? = some t) (hu : t.in_use = true) :
    (clear_cmd_timeout d lbl).transaction[lbl]? =
      some { t with timerScheduled := false } := by
  unfold clear_cmd_timeout
  rw [get_transaction_by_lbl_of_slot d lbl t hlt h hu]
  simp only
  rw [modifySlot_get_eq, h]
  rfl

/-- C5: for every processed vendor response whose transaction label is in
use, an INTERIM REGISTER_NOTIFICATION response leaves the transaction slot
allocated with only its alarm cancelled, while any other processed response
ends with the transaction released (release happens after the per-PDU
handler ran). -/
theorem avk_dispatcher_interim_keeps_transaction (cb : RcCb) (msg : MetaMsg)
    (rsp : AvrcResponse) (t : RcTransaction)
    (hop : msg.opcode = AVRC_OP_VENDOR)
    (hlo : AVRC_RSP_NOT_IMPL ≤ msg.code) (hhi : msg.code ≤ AVRC_RSP_INTERIM)
    (hwf : WfDevice cb.device)
    (hslot : cb.device.transaction[msg.label]? = some t)
    (huse : t.in_use = true) :
    ((rsp.pdu = AVRC_PDU_REGISTER_NOTIFICATION ∧ msg.code = AVRC_RSP_INTERIM) →
      (handle_avk_rc_metamsg_rsp cb msg rsp).1.device.transaction[msg.label]? =
        some { t with timerScheduled := false }) ∧
    (¬(rsp.pdu = AVRC_PDU_REGISTER_NOTIFICATION ∧ msg.code = AVRC_RSP_INTERIM) →
      (handle_avk_rc_metamsg_rsp cb msg rsp).1.device =
        release_transaction (run_pdu_handler cb msg rsp).1.device msg.label ∧
      ((handle_avk_rc_metamsg_rsp cb msg rsp).1.device.transaction[msg.label]?).map
        RcTransaction.in_use = some false) := by
  have hlt : msg.label < MAX_TRANSACTIONS_PER_SESSION := by
    have := (List.getElem?_eq_some_iff.mp hslot).choose
    rw [hwf.1] at this
    exact this
  obtain ⟨pres, hwf2⟩ := run_pdu_handler_devOk cb msg rsp hwf
  have hslot2 : (run_pdu_handler cb msg rsp).1.device.transaction[msg.label]? = some t :=
    pres msg.label t hslot huse
  have hcond : msg.opcode = AVRC_OP_VENDOR ∧ AVRC_RSP_NOT_IMPL ≤ msg.code ∧
      msg.code ≤ AVRC_RSP_INTERIM := ⟨hop, hlo, hhi⟩
  constructor
  · intro hint
    unfold handle_avk_rc_metamsg_rsp
    rw [if_pos hcond, if_pos hint]
    exact clear_cmd_timeout_spec _ msg.label t hlt hslot2 huse
  · intro hnot
    unfold handle_avk_rc_metamsg_rsp
    rw [if_pos hcond, if_neg hnot]
    refine ⟨rfl, ?_⟩
    have hlook : get_transaction_by_lbl (run_pdu_handler cb msg rsp).1.device msg.label =
        some t := get_transaction_by_lbl_of_slot _ msg.label t hlt hslot2 huse
    have hspec := release_transaction_spec _ msg.label t hlook
    simp only
    rw [hspec.1]
    rfl

/-- The fully zeroed application settings accumulator (memset of
btif_rc_player_app_settings_t, with the two fixed 16-entry arrays). -/
def init_app_settings : PlayerAppSettings :=
  ⟨false, 0, 0, 0, 0, 0,
    List.replicate AVRC_MAX_APP_ATTR_SIZE ⟨0, 0, List.replicate AVRC_MAX_APP_ATTR_SIZE 0⟩,
    List.replicate AVRC_MAX_APP_ATTR_SIZE
      ⟨0, 0, 0, none, 0, List.replicate AVRC_MAX_APP_ATTR_SIZE ⟨0, 0, 0, none⟩⟩⟩

/-- A freshly connected session (handle_rc_connect followed by lbl_init). -/
def base_cb : RcCb :=
  ⟨true, false, 0, MAX_LABEL, [], init_app_settings, false, 0, false, init_device⟩

/-- C5 witness state: one acquired transaction (label 0). -/
def c5_cb : RcCb := { base_cb with device := applyPoolOp init_device PoolOp.acquire }

theorem avk_dispatcher_interim_keeps_transaction_witness :
    (handle_avk_rc_metamsg_rsp c5_cb ⟨AVRC_OP_VENDOR, AVRC_RSP_INTERIM, 0⟩
        (AvrcResponse.regNotif ⟨AVRC_EVT_UIDS_CHANGE, 0, false, 0, 0⟩)).1.device.transaction[0]? =
      some ⟨true, 0, 0, 0, 0, false⟩ ∧
    ((handle_avk_rc_metamsg_rsp c5_cb ⟨AVRC_OP_VENDOR, AVRC_RSP_CHANGED, 0⟩
        (AvrcResponse.getPlayStatus ⟨AVRC_STS_NO_ERROR, 7, 3, 1⟩)).1.device.transaction[0]?).map
      RcTransaction.in_use = some false := by
  constructor
  · exact (avk_dispatcher_interim_keeps_transaction c5_cb
      ⟨AVRC_OP_VENDOR, AVRC_RSP_INTERIM, 0⟩
      (AvrcResponse.regNotif ⟨AVRC_EVT_UIDS_CHANGE, 0, false, 0, 0⟩)
      ⟨true, 0, 0, 0, 0, false⟩ rfl (by decide) (by decide) (by decide)
      (by decide) rfl).1 (by decide)
  · exact ((avk_dispatcher_interim_keeps_transaction c5_cb
      ⟨AVRC_OP_VENDOR, AVRC_RSP_CHANGED, 0⟩
      (AvrcResponse.getPlayStatus ⟨AVRC_STS_NO_ERROR, 7, 3, 1⟩)
      ⟨true, 0, 0, 0, 0, false⟩ rfl (by decide) (by decide) (by decide)
      (by decide) rfl).2 (by decide)).2

/-- C2 (amended): lookup by label returns NULL for any label that is out of
range or not in use, and the adv-ctrl response branch of
handle_rc_metamsg_cmd discards such responses with no state change, no
command and no callback; handle_avk_rc_metamsg_rsp however performs no
transaction-label validation: for every processed vendor response its
commands and callbacks are exactly those of the per-PDU handler, whatever
the state of the label in the pool. -/
theorem lookup_none_and_dispatch_discard (cb : RcCb) (msg : MetaMsg)
    (p : VolRspParse) (rsp : AvrcResponse) :
    (∀ t, cb.device.transaction[msg.label]? = some t → t.in_use = false →
      get_transaction_by_lbl cb.device msg.label = none) ∧
    (¬ msg.label < MAX_TRANSACTIONS_PER_SESSION →
      get_transaction_by_lbl cb.device msg.label = none) ∧
    (get_transaction_by_lbl cb.device msg.label = none →
      rc_metamsg_cmd_rsp_guard cb msg p = (cb, [], [])) ∧
    (msg.opcode = AVRC_OP_VENDOR ∧ AVRC_RSP_NOT_IMPL ≤ msg.code ∧
        msg.code ≤ AVRC_RSP_INTERIM →
      (handle_avk_rc_metamsg_rsp cb msg rsp).2 =
        (run_pdu_handler cb msg rsp).2) := by
  refine ⟨?_, ?_, ?_, ?_⟩
  · intro t h hfree
    unfold get_transaction_by_lbl
    by_cases hlt : msg.label < MAX_TRANSACTIONS_PER_SESSION
    · rw [if_pos hlt, h]
      simp [hfree]
    · rw [if_neg hlt]
  · intro hge
    unfold get_transaction_by_lbl
    rw [if_neg hge]
  · intro hnone
    unfold rc_metamsg_cmd_rsp_guard
    rw [hnone]
  · intro hcond
    unfold handle_avk_rc_metamsg_rsp
    rw [if_pos hcond]
    by_cases hint : rsp.pdu = AVRC_PDU_REGISTER_NOTIFICATION ∧ msg.code = AVRC_RSP_INTERIM
    · rw [if_pos hint]
    · rw [if_neg hint]

/-- C2 counterexample state: only slot 5 is in use; one registered event
(PLAY_STATUS_CHANGE, label 5) is awaiting its interim response. -/
def c2_cb : RcCb :=
  { base_cb with
    rc_supported_event_list := [⟨AVRC_EVT_PLAY_STATUS_CHANGE, 5, EvtRegStatus.eREGISTERED⟩],
    device := ⟨(List.range 16).map (fun i => ⟨decide (i = 5), i, 0, 0, 0, false⟩)⟩ }

/-- C2 counterexample: a response carrying the unused label 1 is not
discarded by handle_avk_rc_metamsg_rsp: the per-PDU handler runs, fires a
HAL callback, starts the play-status timer and even sends a new outbound
command, refuting the claim that the dispatcher drops responses with
unknown labels without side effects. -/
theorem avk_dispatcher_no_label_validation :
    get_transaction_by_lbl c2_cb.device 1 = none ∧
    (handle_avk_rc_metamsg_rsp c2_cb ⟨AVRC_OP_VENDOR, AVRC_RSP_INTERIM, 1⟩
      (AvrcResponse.regNotif ⟨AVRC_EVT_PLAY_STATUS_CHANGE, AVRC_PLAYSTATE_PLAYING,
        false, 0, 0⟩)).2.2 = [HalCback.playStatusChanged AVRC_PLAYSTATE_PLAYING] ∧
    (handle_avk_rc_metamsg_rsp c2_cb ⟨AVRC_OP_VENDOR, AVRC_RSP_INTERIM, 1⟩
      (AvrcResponse.regNotif ⟨AVRC_EVT_PLAY_STATUS_CHANGE, AVRC_PLAYSTATE_PLAYING,
        false, 0, 0⟩)).2.1 = [OutCmd.getElementAttributes 0] ∧
    (handle_avk_rc_metamsg_rsp c2_cb ⟨AVRC_OP_VENDOR, AVRC_RSP_INTERIM, 1⟩
      (AvrcResponse.regNotif ⟨AVRC_EVT_PLAY_STATUS_CHANGE, AVRC_PLAYSTATE_PLAYING,
        false, 0, 0⟩)).1.rc_play_status_timer = true := by
  exact ⟨by decide, by decide, by decide, by decide⟩

theorem lookup_none_and_dispatch_discard_witness :
    get_transaction_by_lbl c2_cb.device 1 = none ∧
    rc_metamsg_cmd_rsp_guard c2_cb ⟨AVRC_OP_VENDOR, AVRC_RSP_INTERIM, 1⟩
      ⟨AVRC_STS_NO_ERROR, 0, 0, 0⟩ = (c2_cb, [], []) ∧
    (handle_avk_rc_metamsg_rsp c2_cb ⟨AVRC_OP_VENDOR, AVRC_RSP_INTERIM, 1⟩
        (AvrcResponse.other 0)).2 =
      (run_pdu_handler c2_cb ⟨AVRC_OP_VENDOR, AVRC_RSP_INTERIM, 1⟩
        (AvrcResponse.other 0)).2 := by
  have h := lookup_none_and_dispatch_discard c2_cb ⟨AVRC_OP_VENDOR, AVRC_RSP_INTERIM, 1⟩
    ⟨AVRC_STS_NO_ERROR, 0, 0, 0⟩ (AvrcResponse.other 0)
  have hnone : get_transaction_by_lbl c2_cb.device 1 = none :=
    h.1 ⟨false, 1, 0, 0, 0, false⟩ (by decide) rfl
  exact ⟨hnone, h.2.2.1 hnone, h.2.2.2 (by decide)⟩

/-! ### Claim C4: per-phase error handling of the discovery walk -/

/-- C4 (amended): error statuses in the discovery walk are handled per
handler, not uniformly: the capability, app-values and current-values
handlers log and return with no callback, no command and no state change
(the procedure is not advanced from there); an attr-list error completes
the procedure; only the attr-text handler degrades gracefully by reporting
the standard settings upstream and querying current values. -/
theorem discovery_error_step_behavior (cb : RcCb) (pg : GetCapsRsp)
    (pv : ListAppValuesRsp) (pc : GetCurAppValueRsp) (pa : ListAppAttrRsp)
    (pt : GetAppAttrTxtRsp) :
    (pg.status ≠ AVRC_STS_NO_ERROR →
      handle_get_capability_response cb pg = (cb, [], [])) ∧
    (pv.status ≠ AVRC_STS_NO_ERROR → handle_app_val_response cb pv = (cb, [], [])) ∧
    (pc.status ≠ AVRC_STS_NO_ERROR → handle_app_cur_val_response cb pc = (cb, [], [])) ∧
    (pa.status ≠ AVRC_STS_NO_ERROR →
      handle_app_attr_response cb pa =
        ((rc_ctrl_procedure_complete cb).1, (rc_ctrl_procedure_complete cb).2, [])) ∧
    (pt.status ≠ AVRC_STS_NO_ERROR →
      (handle_app_attr_txt_response cb pt).2.2 =
        [HalCback.playerAppSetting cb.rc_app_settings.num_attrs 0]) := by
  refine ⟨?_, ?_, ?_, ?_, ?_⟩
  · intro h
    unfold handle_get_capability_response
    rw [if_pos h]
  · intro h
    unfold handle_app_val_response
    rw [if_pos h]
  · intro h
    unfold handle_app_cur_val_response
    rw [if_pos h]
  · intro h
    unfold handle_app_attr_response
    rw [if_pos h]
  · intro h
    unfold handle_app_attr_txt_response
    rw [if_pos h]

theorem discovery_error_step_behavior_witness :
    handle_get_capability_response base_cb
      ⟨AVRC_STS_BAD_PARAM, AVRC_CAP_EVENTS_SUPPORTED, [1], []⟩ = (base_cb, [], []) ∧
    handle_app_val_response base_cb ⟨AVRC_STS_BAD_PARAM, []⟩ = (base_cb, [], []) ∧
    handle_app_cur_val_response base_cb ⟨AVRC_STS_BAD_PARAM, []⟩ = (base_cb, [], []) ∧
    handle_app_attr_response base_cb ⟨AVRC_STS_BAD_PARAM, []⟩ =
      ((rc_ctrl_procedure_complete base_cb).1, (rc_ctrl_procedure_complete base_cb).2, []) ∧
    (handle_app_attr_txt_response base_cb ⟨AVRC_STS_BAD_PARAM, []⟩).2.2 =
      [HalCback.playerAppSetting base_cb.rc_app_settings.num_attrs 0] := by
  have h := discovery_error_step_behavior base_cb
    ⟨AVRC_STS_BAD_PARAM, AVRC_CAP_EVENTS_SUPPORTED, [1], []⟩ ⟨AVRC_STS_BAD_PARAM, []⟩
    ⟨AVRC_STS_BAD_PARAM, []⟩ ⟨AVRC_STS_BAD_PARAM, []⟩ ⟨AVRC_STS_BAD_PARAM, []⟩
  exact ⟨h.1 (by decide), h.2.1 (by decide), h.2.2.1 (by decide),
    h.2.2.2.1 (by decide), h.2.2.2.2 (by decide)⟩

/-- C4 counterexample: a non-timeout error status (AVRC_STS_BAD_PARAM) in
the capability, app-values or current-values step is dropped silently: no
host callback reporting empty settings, no follow-up command, no state
change at all, so these steps do not advance the procedure, contrary to the
claim. -/
theorem app_val_error_discards_silently :
    AVRC_STS_BAD_PARAM ≠ AVRC_STS_NO_ERROR ∧
    AVRC_STS_BAD_PARAM ≠ BTIF_RC_STS_TIMEOUT ∧
    handle_get_capability_response base_cb
      ⟨AVRC_STS_BAD_PARAM, AVRC_CAP_EVENTS_SUPPORTED,
        [AVRC_EVT_PLAY_STATUS_CHANGE], []⟩ = (base_cb, [], []) ∧
    handle_app_val_response base_cb ⟨AVRC_STS_BAD_PARAM, [5]⟩ = (base_cb, [], []) ∧
    handle_app_cur_val_response base_cb ⟨AVRC_STS_BAD_PARAM, [(1, 1)]⟩ =
      (base_cb, [], []) := by
  exact ⟨by decide, by decide, by decide, by decide, by decide⟩

/-! ### Shape of the emitted commands -/

lemma send_status_cmd_cmds (cb : RcCb) (pdu : Nat) (mk : Nat → OutCmd) :
    ∀ c ∈ (send_status_cmd cb pdu mk).2, ∃ l, c = mk l := by
  intro c hc
  unfold send_status_cmd at hc
  by_cases hcn : cb.rc_connected = false
  · rw [if_pos hcn] at hc
    simp at hc
  · rw [if_neg hcn] at hc
    cases hs : get_transaction_scan cb.device.transaction with
    | none =>
      have hacq : get_transaction cb.device = (BtStatus.nomem, cb.device, none) := by
        unfold get_transaction; rw [hs]
      rw [hacq] at hc
      simp at hc
    | some pr =>
      cases pr with
      | mk l2 tr =>
        have hacq : get_transaction cb.device = (BtStatus.success, ⟨l2⟩, some tr) := by
          unfold get_transaction; rw [hs]
        rw [hacq] at hc
        simp at hc
        exact ⟨tr.lbl, hc⟩

lemma register_for_event_notification_cmds (cb : RcCb) (i : Nat) :
    ∀ c ∈ (register_for_event_notification cb i).2,
      ∃ l e, cb.rc_supported_event_list[i]? = some e ∧
        c = OutCmd.registerNotification l e.event_id := by
  intro c hc
  unfold register_for_event_notification at hc
  cases he : cb.rc_supported_event_list[i]? with
  | none => rw [he] at hc; simp at hc
  | some e =>
    rw [he] at hc
    cases hs : get_transaction_scan cb.device.transaction with
    | none =>
      have hacq : get_transaction cb.device = (BtStatus.nomem, cb.device, none) := by
        unfold get_transaction; rw [hs]
      rw [hacq] at hc
      simp at hc
    | some pr =>
      cases pr with
      | mk l2 tr =>
        have hacq : get_transaction cb.device = (BtStatus.success, ⟨l2⟩, some tr) := by
          unfold get_transaction; rw [hs]
        rw [hacq] at hc
        simp at hc
        exact ⟨tr.lbl, e, rfl, hc⟩

/-- Every registration command the first-eNOT_REGISTERED walk emits targets
exactly the first eNOT_REGISTERED entry of the list. -/
lemma register_first_not_registered_cmds (cb : RcCb) :
    ∀ c ∈ (register_first_not_registered cb).2.1,
      ∃ i e l, find_first_not_registered cb.rc_supported_event_list = some i ∧
        cb.rc_supported_event_list[i]? = some e ∧
        c = OutCmd.registerNotification l e.event_id := by
  intro c hc
  unfold register_first_not_registered at hc
  cases hf : find_first_not_registered cb.rc_supported_event_list with
  | none => rw [hf] at hc; simp at hc
  | some i =>
    rw [hf] at hc
    simp at hc
    rcases register_for_event_notification_cmds cb i c hc with ⟨l, e, he, hce⟩
    exact ⟨i, e, l, rfl, he, hce⟩

/-! ### Claim C9: the procedure-complete flag is sticky -/

lemma send_status_cmd_fields (cb : RcCb) (pdu : Nat) (mk : Nat → OutCmd) :
    (send_status_cmd cb pdu mk).1.rc_procedure_complete = cb.rc_procedure_complete ∧
    (send_status_cmd cb pdu mk).1.rc_supported_event_list = cb.rc_supported_event_list ∧
    (send_status_cmd cb pdu mk).1.rc_app_settings = cb.rc_app_settings := by
  unfold send_status_cmd
  by_cases hcn : cb.rc_connected = false
  · rw [if_pos hcn]
    exact ⟨rfl, rfl, rfl⟩
  · rw [if_neg hcn]
    cases hs : get_transaction_scan cb.device.transaction with
    | none =>
      have hacq : get_transaction cb.device = (BtStatus.nomem, cb.device, none) := by
        unfold get_transaction; rw [hs]
      rw [hacq]
      exact ⟨rfl, rfl, rfl⟩
    | some pr =>
      cases pr with
      | mk l2 tr =>
        have hacq : get_transaction cb.device = (BtStatus.success, ⟨l2⟩, some tr) := by
          unfold get_transaction; rw [hs]
        rw [hacq]
        exact ⟨rfl, rfl, rfl⟩

lemma register_for_event_notification_proc (cb : RcCb) (i : Nat) :
    (register_for_event_notification cb i).1.rc_procedure_complete =
      cb.rc_procedure_complete := by
  unfold register_for_event_notification
  cases he : cb.rc_supported_event_list[i]? with
  | none => rfl
  | some e =>
    cases hs : get_transaction_scan cb.device.transaction with
    | none =>
      have hacq : get_transaction cb.device = (BtStatus.nomem, cb.device, none) := by
        unfold get_transaction; rw [hs]
      rw [hacq]
    | some pr =>
      cases pr with
      | mk l2 tr =>
        have hacq : get_transaction cb.device = (BtStatus.success, ⟨l2⟩, some tr) := by
          unfold get_transaction; rw [hs]
        rw [hacq]

lemma changed_rereg_proc (cb : RcCb) (eid : Nat) :
    (changed_rereg cb eid).1.rc_procedure_complete = cb.rc_procedure_complete := by
  unfold changed_rereg
  cases hf : find_first_event cb.rc_supported_event_list eid with
  | none => rfl
  | some i =>
    dsimp only
    rw [register_for_event_notification_proc]

lemma changed_rereg_cmds (cb : RcCb) (eid : Nat) :
    ∀ c ∈ (changed_rereg cb eid).2, ∃ l e, c = OutCmd.registerNotification l e := by
  intro c hc
  unfold changed_rereg at hc
  cases hf : find_first_event cb.rc_supported_event_list eid with
  | none => rw [hf] at hc; simp at hc
  | some i =>
    rw [hf] at hc
    simp at hc
    rcases register_for_event_notification_cmds _ i c hc with ⟨l, e, _, hce⟩
    exact ⟨l, e.event_id, hce⟩

/-- C9: once rc_procedure_complete is set, calling
rc_ctrl_procedure_complete again is a no-op (no state change, no new
element-attribute request), and a later track-change CHANGED notification
leaves the flag set and triggers only the notification re-registration and
the element-attribute re-fetch, never a restart of the discovery
procedure. -/
theorem rc_ctrl_procedure_complete_sticky (cb : RcCb) (p : RegNotifRsp)
    (hc : cb.rc_procedure_complete = true) :
    rc_ctrl_procedure_complete cb = (cb, []) ∧
    (p.event_id = AVRC_EVT_TRACK_CHANGE →
      (handle_notification_response cb AVRC_RSP_CHANGED p).1.rc_procedure_complete = true ∧
      ∀ c ∈ (handle_notification_response cb AVRC_RSP_CHANGED p).2.1,
        (∃ l e, c = OutCmd.registerNotification l e) ∨
        (∃ l, c = OutCmd.getElementAttributes l)) := by
  constructor
  · unfold rc_ctrl_procedure_complete
    rw [if_pos hc]
  · intro hev
    unfold handle_notification_response
    rw [if_neg (by decide : ¬(AVRC_RSP_CHANGED = AVRC_RSP_INTERIM)),
      if_pos (rfl : AVRC_RSP_CHANGED = AVRC_RSP_CHANGED)]
    dsimp only
    have hne1 : ¬(p.event_id = AVRC_EVT_PLAY_STATUS_CHANGE) := by
      rw [hev]; decide
    rw [if_neg hne1, if_pos hev]
    by_cases hv : p.track_valid = false
    · rw [if_pos hv]
      constructor
      · rw [changed_rereg_proc, hc]
      · intro c hc2
        exact Or.inl (changed_rereg_cmds cb p.event_id c hc2)
    · rw [if_neg hv]
      constructor
      · show (get_element_attribute_cmd (changed_rereg cb p.event_id).1).1.rc_procedure_complete = true
        unfold get_element_attribute_cmd
        rw [(send_status_cmd_fields _ _ _).1, changed_rereg_proc, hc]
      · intro c hc2
        dsimp only at hc2
        rcases List.mem_append.mp hc2 with h1 | h2
        · exact Or.inl (changed_rereg_cmds cb p.event_id c h1)
        · have h2e : c ∈ (send_status_cmd (changed_rereg cb p.event_id).1
              AVRC_PDU_GET_ELEMENT_ATTR (fun l => OutCmd.getElementAttributes l)).2 := h2
          rcases send_status_cmd_cmds _ _ _ c h2e with ⟨l, hl⟩
          exact Or.inr ⟨l, hl⟩

/-- C9 witness state: procedure already complete, the track-change event in
interim state. -/
def c9_cb : RcCb :=
  { base_cb with
    rc_procedure_complete := true,
    rc_supported_event_list := [⟨AVRC_EVT_TRACK_CHANGE, 0, EvtRegStatus.eINTERIM⟩] }

theorem rc_ctrl_procedure_complete_sticky_witness :
    rc_ctrl_procedure_complete c9_cb = (c9_cb, []) ∧
    (handle_notification_response c9_cb AVRC_RSP_CHANGED
      ⟨AVRC_EVT_TRACK_CHANGE, 0, true, 7, 0⟩).1.rc_procedure_complete = true := by
  have h := rc_ctrl_procedure_complete_sticky c9_cb
    ⟨AVRC_EVT_TRACK_CHANGE, 0, true, 7, 0⟩ rfl
  exact ⟨h.1, (h.2 rfl).1⟩

/-! ### The registration phase machine (claims C3, C6, C10) -/

/-- Index of the first entry whose registration label matches (the
traversal of iterate_supported_event_list_for_timeout). -/
def find_first_label : List SupportedEvent → Nat → Option Nat
  | [], _ => none
  | e :: es, lbl =>
    if e.label = lbl then some 0 else (find_first_label es lbl).map (· + 1)

/-- Event ids advertised by the supported event list. -/
def event_ids (l : List SupportedEvent) : List Nat :=
  l.map SupportedEvent.event_id

/-- Number of registrations in flight (status eREGISTERED: command sent,
interim response pending). -/
def regCount (l : List SupportedEvent) : Nat :=
  l.countP (fun e => decide (e.status = EvtRegStatus.eREGISTERED))

/-- An inbound event driving the notification registry after the
capabilities response: an interim response, a changed response, or an
interim-wait timeout. -/
inductive RegInput where
  | interim (p : RegNotifRsp)
  | changed (p : RegNotifRsp)
  | timeout (lbl : Nat)
deriving Repr, DecidableEq

/-- One registry-driving step: the corresponding handler, projected to the
session state and the outbound commands. -/
def reg_step (cb : RcCb) : RegInput → RcCb × List OutCmd
  | RegInput.interim p =>
    let r := handle_notification_response cb AVRC_RSP_INTERIM p
    (r.1, r.2.1)
  | RegInput.changed p =>
    let r := handle_notification_response cb AVRC_RSP_CHANGED p
    (r.1, r.2.1)
  | RegInput.timeout lbl => rc_notification_interim_timout cb lbl

def run_reg : RcCb → List RegInput → RcCb × List OutCmd
  | _cb, [] => (_cb, [])
  | cb, i :: is =>
    let r := reg_step cb i
    let r2 := run_reg r.1 is
    (r2.1, r.2 ++ r2.2)

/-- The supported event list right after the response bookkeeping of a step
(interim flag / timeout removal), before any re-registration. -/
def bookkept (cb : RcCb) : RegInput → List SupportedEvent
  | RegInput.interim p => mark_first_interim cb.rc_supported_event_list p.event_id
  | RegInput.changed p =>
    match find_first_event cb.rc_supported_event_list p.event_id with
    | none => cb.rc_supported_event_list
    | some i =>
      updAt cb.rc_supported_event_list i
        (fun e => { e with status := EvtRegStatus.eNOT_REGISTERED })
  | RegInput.timeout lbl => remove_first_label cb.rc_supported_event_list lbl

/-- A step belongs to the registration phase (changed responses drive the
steady-state re-registration instead). -/
def is_phase_input : RegInput → Bool
  | RegInput.interim _ => true
  | RegInput.changed _ => false
  | RegInput.timeout _ => true

/-- The input is a genuine resolution of the registration in flight: the
entry the bookkeeping will hit is the one awaiting its interim response. -/
def genuine_phase (cb : RcCb) : RegInput → Bool
  | RegInput.interim p =>
    match find_first_event cb.rc_supported_event_list p.event_id with
    | some j => decide ((cb.rc_supported_event_list[j]?).map SupportedEvent.status =
        some EvtRegStatus.eREGISTERED)
    | none => false
  | RegInput.changed _ => false
  | RegInput.timeout lbl =>
    match find_first_label cb.rc_supported_event_list lbl with
    | some j => decide ((cb.rc_supported_event_list[j]?).map SupportedEvent.status =
        some EvtRegStatus.eREGISTERED)
    | none => false

def GenuineTrace : RcCb → List RegInput → Prop
  | _, [] => True
  | cb, i :: is => genuine_phase cb i = true ∧ is_phase_input i = true ∧
      GenuineTrace (reg_step cb i).1 is

/-- The step raised the registration-phase-complete signal: it flipped
query_started from false to true. -/
def phase_signal (cb : RcCb) (inp : RegInput) : Bool :=
  !cb.rc_app_settings.query_started && (reg_step cb inp).1.rc_app_settings.query_started

def count_signals : RcCb → List RegInput → Nat
  | _, [] => 0
  | cb, i :: is =>
    (if phase_signal cb i then 1 else 0) + count_signals (reg_step cb i).1 is

lemma mark_first_interim_event_ids (l : List SupportedEvent) (eid : Nat) :
    event_ids (mark_first_interim l eid) = event_ids l := by
  induction l with
  | nil => rfl
  | cons e es ih =>
    unfold mark_first_interim
    by_cases he : e.event_id = eid
    · rw [if_pos he]
      rfl
    · rw [if_neg he]
      unfold event_ids at ih ⊢
      simp [ih]

lemma remove_first_label_ids_subset (l : List SupportedEvent) (lbl : Nat) :
    ∀ x ∈ event_ids (remove_first_label l lbl), x ∈ event_ids l := by
  induction l with
  | nil => intro x hx; exact hx
  | cons e es ih =>
    intro x hx
    unfold remove_first_label at hx
    by_cases he : e.label = lbl
    · rw [if_pos he] at hx
      unfold event_ids at hx ⊢
      simp at hx ⊢
      exact Or.inr hx
    · rw [if_neg he] at hx
      unfold event_ids at hx ⊢
      simp at hx ⊢
      rcases hx with h1 | h2
      · exact Or.inl h1
      · have := ih x (by simpa [event_ids] using h2)
        unfold event_ids at this
        simp at this
        exact Or.inr this

lemma updAt_event_ids (l : List SupportedEvent) (i : Nat)
    (f : SupportedEvent → SupportedEvent)
    (hf : ∀ e, l[i]? = some e → (f e).event_id = e.event_id) :
    event_ids (updAt l i f) = event_ids l := by
  unfold updAt
  cases hg : l[i]? with
  | none => rfl
  | some e =>
    unfold event_ids
    rw [List.map_set]
    rw [hf e hg]
    apply List.ext_getElem?
    intro n
    by_cases hn : n = i
    · subst hn
      rw [List.getElem?_set_self']
      rw [List.getElem?_map, hg]
      rfl
    · exact List.getElem?_set_ne (fun hh => hn hh.symm)

lemma set_event_ids (l : List SupportedEvent) (i : Nat) (e e2 : SupportedEvent)
    (hg : l[i]? = some e) (hee : e2.event_id = e.event_id) :
    event_ids (l.set i e2) = event_ids l := by
  have hupd : l.set i e2 = updAt l i (fun _ => e2) := by
    unfold updAt
    rw [hg]
  rw [hupd]
  refine updAt_event_ids l i (fun _ => e2) ?_
  intro x hx
  rw [hg] at hx
  cases hx
  exact hee

lemma register_for_event_notification_fields (cb : RcCb) (i : Nat) :
    event_ids (register_for_event_notification cb i).1.rc_supported_event_list =
      event_ids cb.rc_supported_event_list ∧
    (register_for_event_notification cb i).1.rc_app_settings = cb.rc_app_settings := by
  unfold register_for_event_notification
  cases he : cb.rc_supported_event_list[i]? with
  | none => exact ⟨rfl, rfl⟩
  | some e =>
    cases hs : get_transaction_scan cb.device.transaction with
    | none =>
      have hacq : get_transaction cb.device = (BtStatus.nomem, cb.device, none) := by
        unfold get_transaction; rw [hs]
      rw [hacq]
      exact ⟨rfl, rfl⟩
    | some pr =>
      cases pr with
      | mk l2 tr =>
        have hacq : get_transaction cb.device = (BtStatus.success, ⟨l2⟩, some tr) := by
          unfold get_transaction; rw [hs]
        rw [hacq]
        refine ⟨?_, rfl⟩
        simp only
        exact set_event_ids cb.rc_supported_event_list i e _ he rfl

lemma register_first_not_registered_fields (cb : RcCb) :
    event_ids (register_first_not_registered cb).1.rc_supported_event_list =
      event_ids cb.rc_supported_event_list ∧
    (register_first_not_registered cb).1.rc_app_settings = cb.rc_app_settings := by
  unfold register_first_not_registered
  cases hf : find_first_not_registered cb.rc_supported_event_list with
  | none => exact ⟨rfl, rfl⟩
  | some i =>
    simp only
    exact register_for_event_notification_fields cb i

lemma rc_ctrl_procedure_complete_fields (cb : RcCb) :
    event_ids (rc_ctrl_procedure_complete cb).1.rc_supported_event_list =
      event_ids cb.rc_supported_event_list ∧
    (rc_ctrl_procedure_complete cb).1.rc_app_settings = cb.rc_app_settings := by
  unfold rc_ctrl_procedure_complete
  by_cases h : cb.rc_procedure_complete = true
  · rw [if_pos h]
    exact ⟨rfl, rfl⟩
  · rw [if_neg h]
    unfold get_element_attribute_cmd
    have h2 := send_status_cmd_fields { cb with rc_procedure_complete := true }
      AVRC_PDU_GET_ELEMENT_ATTR (fun l => OutCmd.getElementAttributes l)
    exact ⟨by rw [h2.2.1], by rw [h2.2.2]⟩

/-- A single list write bumps the in-flight count by at most one. -/
lemma countP_set_le (p : SupportedEvent → Bool) :
    ∀ (l : List SupportedEvent) (i : Nat) (x : SupportedEvent),
      (l.set i x).countP p ≤ l.countP p + 1 := by
  intro l
  induction l with
  | nil => intro i x; simp
  | cons e es ih =>
    intro i x
    cases i with
    | zero =>
      simp only [List.set_cons_zero, List.countP_cons]
      by_cases hx : p x
      · by_cases hpe : p e
        · simp [hx, hpe]
        · simp [hx, hpe]
      · by_cases hpe : p e
        · simp [hx, hpe]
          omega
        · simp [hx, hpe]
    | succ n =>
      simp only [List.set_cons_succ, List.countP_cons]
      have := ih n x
      omega

lemma register_for_event_notification_regCount (cb : RcCb) (i : Nat) :
    regCount (register_for_event_notification cb i).1.rc_supported_event_list ≤
      regCount cb.rc_supported_event_list + 1 := by
  unfold register_for_event_notification
  cases he : cb.rc_supported_event_list[i]? with
  | none => exact Nat.le_succ_of_le (Nat.le_refl _)
  | some e =>
    cases hs : get_transaction_scan cb.device.transaction with
    | none =>
      have hacq : get_transaction cb.device = (BtStatus.nomem, cb.device, none) := by
        unfold get_transaction; rw [hs]
      rw [hacq]
      exact Nat.le_succ_of_le (Nat.le_refl _)
    | some pr =>
      cases pr with
      | mk l2 tr =>
        have hacq : get_transaction cb.device = (BtStatus.success, ⟨l2⟩, some tr) := by
          unfold get_transaction; rw [hs]
        rw [hacq]
        exact countP_set_le _ cb.rc_supported_event_list i _

lemma register_first_not_registered_regCount (cb : RcCb) :
    regCount (register_first_not_registered cb).1.rc_supported_event_list ≤
      regCount cb.rc_supported_event_list + 1 := by
  unfold register_first_not_registered
  cases hf : find_first_not_registered cb.rc_supported_event_list with
  | none => exact Nat.le_succ_of_le (Nat.le_refl _)
  | some i =>
    simp only
    exact register_for_event_notification_regCount cb i

/-- Marking the genuinely in-flight entry interim decrements the in-flight
count by exactly one. -/
lemma mark_first_interim_regCount :
    ∀ (l : List SupportedEvent) (eid : Nat) (j : Nat),
      find_first_event l eid = some j →
      (l[j]?).map SupportedEvent.status = some EvtRegStatus.eREGISTERED →
      regCount (mark_first_interim l eid) + 1 = regCount l := by
  intro l
  induction l with
  | nil => intro eid j h; simp [find_first_event] at h
  | cons e es ih =>
    intro eid j hfind hst
    unfold find_first_event at hfind
    unfold mark_first_interim
    by_cases he : e.event_id = eid
    · rw [if_pos he]
      rw [if_pos he] at hfind
      have hj : j = 0 := by
        cases hfind
        rfl
      subst hj
      simp at hst
      unfold regCount
      simp [List.countP_cons, hst]
    · rw [if_neg he]
      rw [if_neg he] at hfind
      cases hf2 : find_first_event es eid with
      | none => rw [hf2] at hfind; simp at hfind
      | some j0 =>
        rw [hf2] at hfind
        simp at hfind
        subst hfind
        have hst2 : (es[j0]?).map SupportedEvent.status =
            some EvtRegStatus.eREGISTERED := by simpa using hst
        have := ih eid j0 hf2 hst2
        unfold regCount at this ⊢
        simp only [List.countP_cons]
        omega

/-- Removing the genuinely in-flight entry on timeout decrements the
in-flight count by exactly one. -/
lemma remove_first_label_regCount :
    ∀ (l : List SupportedEvent) (lbl : Nat) (j : Nat),
      find_first_label l lbl = some j →
      (l[j]?).map SupportedEvent.status = some EvtRegStatus.eREGISTERED →
      regCount (remove_first_label l lbl) + 1 = regCount l := by
  intro l
  induction l with
  | nil => intro lbl j h; simp [find_first_label] at h
  | cons e es ih =>
    intro lbl j hfind hst
    unfold find_first_label at hfind
    unfold remove_first_label
    by_cases he : e.label = lbl
    · rw [if_pos he]
      rw [if_pos he] at hfind
      have hj : j = 0 := by
        cases hfind
        rfl
      subst hj
      simp at hst
      unfold regCount
      simp [List.countP_cons, hst]
    · rw [if_neg he]
      rw [if_neg he] at hfind
      cases hf2 : find_first_label es lbl with
      | none => rw [hf2] at hfind; simp at hfind
      | some j0 =>
        rw [hf2] at hfind
        simp at hfind
        subst hfind
        have hst2 : (es[j0]?).map SupportedEvent.status =
            some EvtRegStatus.eREGISTERED := by simpa using hst
        have := ih lbl j0 hf2 hst2
        unfold regCount at this ⊢
        simp only [List.countP_cons]
        omega

lemma rc_ctrl_procedure_complete_cmds (cb : RcCb) :
    ∀ c ∈ (rc_ctrl_procedure_complete cb).2, ∃ l, c = OutCmd.getElementAttributes l := by
  intro c hc
  unfold rc_ctrl_procedure_complete at hc
  by_cases h : cb.rc_procedure_complete = true
  · rw [if_pos h] at hc
    simp at hc
  · rw [if_neg h] at hc
    exact send_status_cmd_cmds _ _ _ c hc

/-- Anatomy of interim_advance: the supported event ids equal those of the
marked list, the in-flight count grows by at most one over the marked list,
a started query stays started, and every emitted command is either a
registration of the first eNOT_REGISTERED entry of the marked list or one
of the two phase-completion commands. -/
lemma interim_advance_spec (cb : RcCb) (eid : Nat) :
    event_ids (interim_advance cb eid).1.rc_supported_event_list =
      event_ids (mark_first_interim cb.rc_supported_event_list eid) ∧
    regCount (interim_advance cb eid).1.rc_supported_event_list ≤
      regCount (mark_first_interim cb.rc_supported_event_list eid) + 1 ∧
    (cb.rc_app_settings.query_started = true →
      (interim_advance cb eid).1.rc_app_settings.query_started = true) ∧
    (∀ c ∈ (interim_advance cb eid).2,
      (∃ i e l, find_first_not_registered
          (mark_first_interim cb.rc_supported_event_list eid) = some i ∧
        (mark_first_interim cb.rc_supported_event_list eid)[i]? = some e ∧
        c = OutCmd.registerNotification l e.event_id) ∨
      (∃ l, c = OutCmd.listPlayerAppSettingAttrib l) ∨
      (∃ l, c = OutCmd.getElementAttributes l)) := by
  unfold interim_advance
  dsimp only
  set cb1 : RcCb := { cb with
    rc_supported_event_list := mark_first_interim cb.rc_supported_event_list eid } with hcb1
  have hids1 : event_ids cb1.rc_supported_event_list =
      event_ids (mark_first_interim cb.rc_supported_event_list eid) := rfl
  have hfieldsR := register_first_not_registered_fields cb1
  have hcountR := register_first_not_registered_regCount cb1
  have hcmdsR := register_first_not_registered_cmds cb1
  by_cases hsig : (register_first_not_registered cb1).2.2 = false ∧
      (register_first_not_registered cb1).1.rc_app_settings.query_started = false
  · rw [if_pos hsig]
    set cb2 := (register_first_not_registered cb1).1 with hcb2
    set cb3 : RcCb := { cb2 with
      rc_app_settings := { cb2.rc_app_settings with query_started := true } } with hcb3
    by_cases hfeat : cb3.rc_features_app_setting
    · rw [if_pos hfeat]
      have hf3 := send_status_cmd_fields cb3 AVRC_PDU_LIST_PLAYER_APP_ATTR
        (fun l => OutCmd.listPlayerAppSettingAttrib l)
      refine ⟨?_, ?_, ?_, ?_⟩
      · show event_ids (send_status_cmd cb3 AVRC_PDU_LIST_PLAYER_APP_ATTR
          (fun l => OutCmd.listPlayerAppSettingAttrib l)).1.rc_supported_event_list = _
        rw [hf3.2.1]
        exact hfieldsR.1
      · show regCount (send_status_cmd cb3 AVRC_PDU_LIST_PLAYER_APP_ATTR
          (fun l => OutCmd.listPlayerAppSettingAttrib l)).1.rc_supported_event_list ≤ _
        rw [hf3.2.1]
        exact hcountR
      · intro hq
        exfalso
        have : cb2.rc_app_settings.query_started = true := by
          rw [hcb2, hfieldsR.2]
          exact hq
        rw [hsig.2] at this
        exact Bool.noConfusion this
      · intro c hc
        rcases List.mem_append.mp hc with h1 | h2
        · rcases hcmdsR c h1 with ⟨i, e, l, hfi, hei, hce⟩
          exact Or.inl ⟨i, e, l, hfi, hei, hce⟩
        · rcases send_status_cmd_cmds _ _ _ c h2 with ⟨l, hl⟩
          exact Or.inr (Or.inl ⟨l, hl⟩)
    · rw [if_neg hfeat]
      have hf3 := rc_ctrl_procedure_complete_fields cb3
      refine ⟨?_, ?_, ?_, ?_⟩
      · show event_ids (rc_ctrl_procedure_complete cb3).1.rc_supported_event_list = _
        rw [hf3.1]
        exact hfieldsR.1
      · show regCount (rc_ctrl_procedure_complete cb3).1.rc_supported_event_list ≤ _
        have : event_ids (rc_ctrl_procedure_complete cb3).1.rc_supported_event_list =
          event_ids cb3.rc_supported_event_list := hf3.1
        calc regCount (rc_ctrl_procedure_complete cb3).1.rc_supported_event_list
            = regCount cb3.rc_supported_event_list := by
              unfold rc_ctrl_procedure_complete
              by_cases hpc : cb3.rc_procedure_complete = true
              · rw [if_pos hpc]
              · rw [if_neg hpc]
                unfold get_element_attribute_cmd
                rw [(send_status_cmd_fields _ _ _).2.1]
          _ ≤ _ := hcountR
      · intro hq
        exfalso
        have : cb2.rc_app_settings.query_started = true := by
          rw [hcb2, hfieldsR.2]
          exact hq
        rw [hsig.2] at this
        exact Bool.noConfusion this
      · intro c hc
        rcases List.mem_append.mp hc with h1 | h2
        · rcases hcmdsR c h1 with ⟨i, e, l, hfi, hei, hce⟩
          exact Or.inl ⟨i, e, l, hfi, hei, hce⟩
        · rcases rc_ctrl_procedure_complete_cmds cb3 c h2 with ⟨l, hl⟩
          exact Or.inr (Or.inr ⟨l, hl⟩)
  · rw [if_neg hsig]
    refine ⟨hfieldsR.1, hcountR, ?_, ?_⟩
    · intro hq
      rw [hfieldsR.2]
      exact hq
    · intro c hc
      rcases hcmdsR c hc with ⟨i, e, l, hfi, hei, hce⟩
      exact Or.inl ⟨i, e, l, hfi, hei, hce⟩

lemma changed_rereg_fields (cb : RcCb) (eid : Nat) :
    event_ids (changed_rereg cb eid).1.rc_supported_event_list =
      event_ids cb.rc_supported_event_list ∧
    (changed_rereg cb eid).1.rc_app_settings = cb.rc_app_settings := by
  unfold changed_rereg
  cases hf : find_first_event cb.rc_supported_event_list eid with
  | none => exact ⟨rfl, rfl⟩
  | some i =>
    dsimp only
    set cbU : RcCb := { cb with
      rc_supported_event_list :=
        updAt cb.rc_supported_event_list i
          (fun e => { e with status := EvtRegStatus.eNOT_REGISTERED }) } with hcbU
    have h1 := register_for_event_notification_fields cbU i
    refine ⟨?_, h1.2⟩
    rw [h1.1]
    exact updAt_event_ids cb.rc_supported_event_list i
      (fun e => { e with status := EvtRegStatus.eNOT_REGISTERED }) (fun e _ => rfl)

lemma changed_rereg_cmds_mem (cb : RcCb) (eid : Nat) :
    ∀ c ∈ (changed_rereg cb eid).2,
      ∃ l x, x ∈ event_ids cb.rc_supported_event_list ∧
        c = OutCmd.registerNotification l x := by
  intro c hc
  unfold changed_rereg at hc
  cases hf : find_first_event cb.rc_supported_event_list eid with
  | none => rw [hf] at hc; simp at hc
  | some i =>
    rw [hf] at hc
    simp at hc
    rcases register_for_event_notification_cmds _ i c hc with ⟨l, e, he, hce⟩
    refine ⟨l, e.event_id, ?_, hce⟩
    have hmem : e.event_id ∈ event_ids (updAt cb.rc_supported_event_list i
        (fun e => { e with status := EvtRegStatus.eNOT_REGISTERED })) :=
      List.mem_map_of_mem SupportedEvent.event_id (List.getElem?_mem he)
    rw [updAt_event_ids cb.rc_supported_event_list i
      (fun e => { e with status := EvtRegStatus.eNOT_REGISTERED }) (fun e _ => rfl)] at hmem
    exact hmem

/-- Anatomy of an interim step of the registry. -/
lemma reg_step_interim_spec (cb : RcCb) (p : RegNotifRsp) :
    event_ids (reg_step cb (RegInput.interim p)).1.rc_supported_event_list =
      event_ids cb.rc_supported_event_list ∧
    (cb.rc_app_settings.query_started = true →
      (reg_step cb (RegInput.interim p)).1.rc_app_settings.query_started = true) ∧
    (∀ j, find_first_event cb.rc_supported_event_list p.event_id = some j →
      (cb.rc_supported_event_list[j]?).map SupportedEvent.status =
        some EvtRegStatus.eREGISTERED →
      regCount cb.rc_supported_event_list ≤ 1 →
      regCount (reg_step cb (RegInput.interim p)).1.rc_supported_event_list ≤ 1) ∧
    (∀ c ∈ (reg_step cb (RegInput.interim p)).2,
      (∃ i e l, find_first_not_registered (bookkept cb (RegInput.interim p)) = some i ∧
        (bookkept cb (RegInput.interim p))[i]? = some e ∧
        c = OutCmd.registerNotification l e.event_id) ∨
      (∃ l, c = OutCmd.listPlayerAppSettingAttrib l) ∨
      (∃ l, c = OutCmd.getElementAttributes l)) := by
  have hbk : bookkept cb (RegInput.interim p) =
      mark_first_interim cb.rc_supported_event_list p.event_id := rfl
  have hred : reg_step cb (RegInput.interim p) =
      ((handle_notification_response cb AVRC_RSP_INTERIM p).1,
       (handle_notification_response cb AVRC_RSP_INTERIM p).2.1) := rfl
  rw [hbk, hred]
  unfold handle_notification_response
  rw [if_pos (rfl : AVRC_RSP_INTERIM = AVRC_RSP_INTERIM)]
  by_cases h1 : p.event_id = AVRC_EVT_PLAY_STATUS_CHANGE
  · rw [if_pos h1]
    dsimp only
    by_cases hp : p.play_status = AVRC_PLAYSTATE_PLAYING
    · rw [if_pos hp]
      have hs := interim_advance_spec (rc_start_play_status_timer cb) p.event_id
      refine ⟨hs.1.trans (mark_first_interim_event_ids _ _), hs.2.2.1, ?_, ?_⟩
      · intro j hfj hst hinv
        have hmk := mark_first_interim_regCount cb.rc_supported_event_list p.event_id
          j hfj hst
        refine le_trans hs.2.1 ?_
        show regCount (mark_first_interim cb.rc_supported_event_list p.event_id) + 1 ≤ 1
        omega
      · intro c hc
        exact hs.2.2.2 c hc
    · rw [if_neg hp]
      have hs := interim_advance_spec cb p.event_id
      refine ⟨hs.1.trans (mark_first_interim_event_ids _ _), hs.2.2.1, ?_, ?_⟩
      · intro j hfj hst hinv
        have hmk := mark_first_interim_regCount cb.rc_supported_event_list p.event_id
          j hfj hst
        refine le_trans hs.2.1 ?_
        show regCount (mark_first_interim cb.rc_supported_event_list p.event_id) + 1 ≤ 1
        omega
      · intro c hc
        exact hs.2.2.2 c hc
  · rw [if_neg h1]
    by_cases h2 : p.event_id = AVRC_EVT_TRACK_CHANGE
    · rw [if_pos h2]
      dsimp only
      by_cases hv : p.track_valid = true
      · rw [if_pos hv]
        have hs := interim_advance_spec { cb with rc_playing_uid := p.track_uid } p.event_id
        refine ⟨hs.1.trans (mark_first_interim_event_ids _ _), hs.2.2.1, ?_, ?_⟩
        · intro j hfj hst hinv
          have hmk := mark_first_interim_regCount cb.rc_supported_event_list p.event_id
            j hfj hst
          refine le_trans hs.2.1 ?_
          show regCount (mark_first_interim cb.rc_supported_event_list p.event_id) + 1 ≤ 1
          omega
        · intro c hc
          exact hs.2.2.2 c hc
      · rw [if_neg hv]
        have hs := interim_advance_spec cb p.event_id
        refine ⟨hs.1.trans (mark_first_interim_event_ids _ _), hs.2.2.1, ?_, ?_⟩
        · intro j hfj hst hinv
          have hmk := mark_first_interim_regCount cb.rc_supported_event_list p.event_id
            j hfj hst
          refine le_trans hs.2.1 ?_
          show regCount (mark_first_interim cb.rc_supported_event_list p.event_id) + 1 ≤ 1
          omega
        · intro c hc
          exact hs.2.2.2 c hc
    · rw [if_neg h2]
      by_cases h3 : p.event_id = AVRC_EVT_APP_SETTING_CHANGE ∨
          p.event_id = AVRC_EVT_NOW_PLAYING_CHANGE ∨
          p.event_id = AVRC_EVT_AVAL_PLAYERS_CHANGE ∨
          p.event_id = AVRC_EVT_ADDR_PLAYER_CHANGE ∨
          p.event_id = AVRC_EVT_UIDS_CHANGE
      · rw [if_pos h3]
        have hs := interim_advance_spec cb p.event_id
        refine ⟨hs.1.trans (mark_first_interim_event_ids _ _), hs.2.2.1, ?_, ?_⟩
        · intro j hfj hst hinv
          have hmk := mark_first_interim_regCount cb.rc_supported_event_list p.event_id
            j hfj hst
          refine le_trans hs.2.1 ?_
          show regCount (mark_first_interim cb.rc_supported_event_list p.event_id) + 1 ≤ 1
          omega
        · intro c hc
          exact hs.2.2.2 c hc
      · rw [if_neg h3]
        refine ⟨rfl, fun h => h, ?_, ?_⟩
        · intro j hfj hst hinv
          exact hinv
        · intro c hc
          simp at hc

/-- Anatomy of a timeout step of the registry. -/
lemma reg_step_timeout_spec (cb : RcCb) (lbl : Nat) :
    (∀ x ∈ event_ids (reg_step cb (RegInput.timeout lbl)).1.rc_supported_event_list,
      x ∈ event_ids cb.rc_supported_event_list) ∧
    (cb.rc_app_settings.query_started = true →
      (reg_step cb (RegInput.timeout lbl)).1.rc_app_settings.query_started = true) ∧
    (∀ j, find_first_label cb.rc_supported_event_list lbl = some j →
      (cb.rc_supported_event_list[j]?).map SupportedEvent.status =
        some EvtRegStatus.eREGISTERED →
      regCount cb.rc_supported_event_list ≤ 1 →
      regCount (reg_step cb (RegInput.timeout lbl)).1.rc_supported_event_list ≤ 1) ∧
    (∀ c ∈ (reg_step cb (RegInput.timeout lbl)).2,
      ∃ i e l, find_first_not_registered (bookkept cb (RegInput.timeout lbl)) = some i ∧
        (bookkept cb (RegInput.timeout lbl))[i]? = some e ∧
        c = OutCmd.registerNotification l e.event_id) := by
  have hred : reg_step cb (RegInput.timeout lbl) =
      rc_notification_interim_timout cb lbl := rfl
  rw [hred]
  unfold rc_notification_interim_timout
  dsimp only
  set cb1 : RcCb := { cb with
    rc_supported_event_list := remove_first_label cb.rc_supported_event_list lbl } with hcb1
  have hfields := register_first_not_registered_fields cb1
  have hcount := register_first_not_registered_regCount cb1
  have hcmds := register_first_not_registered_cmds cb1
  refine ⟨?_, ?_, ?_, ?_⟩
  · intro x hx
    rw [hfields.1] at hx
    exact remove_first_label_ids_subset cb.rc_supported_event_list lbl x hx
  · intro hq
    rw [hfields.2]
    exact hq
  · intro j hfj hst hinv
    have hrm := remove_first_label_regCount cb.rc_supported_event_list lbl j hfj hst
    refine le_trans hcount ?_
    show regCount (remove_first_label cb.rc_supported_event_list lbl) + 1 ≤ 1
    omega
  · intro c hc
    exact hcmds c hc

/-- Anatomy of a changed step of the registry (steady state). -/
lemma reg_step_changed_spec (cb : RcCb) (p : RegNotifRsp) :
    event_ids (reg_step cb (RegInput.changed p)).1.rc_supported_event_list =
      event_ids cb.rc_supported_event_list ∧
    (cb.rc_app_settings.query_started = true →
      (reg_step cb (RegInput.changed p)).1.rc_app_settings.query_started = true) ∧
    (∀ c ∈ (reg_step cb (RegInput.changed p)).2,
      (∃ l x, x ∈ event_ids cb.rc_supported_event_list ∧
        c = OutCmd.registerNotification l x) ∨
      (∃ l, c = OutCmd.getElementAttributes l)) := by
  have hred : reg_step cb (RegInput.changed p) =
      ((handle_notification_response cb AVRC_RSP_CHANGED p).1,
       (handle_notification_response cb AVRC_RSP_CHANGED p).2.1) := rfl
  rw [hred]
  unfold handle_notification_response
  rw [if_neg (by decide : ¬(AVRC_RSP_CHANGED = AVRC_RSP_INTERIM)),
    if_pos (rfl : AVRC_RSP_CHANGED = AVRC_RSP_CHANGED)]
  dsimp only
  have hrf := changed_rereg_fields cb p.event_id
  have hrc := changed_rereg_cmds_mem cb p.event_id
  by_cases h1 : p.event_id = AVRC_EVT_PLAY_STATUS_CHANGE
  · rw [if_pos h1]
    by_cases hp : p.play_status = AVRC_PLAYSTATE_PLAYING
    · rw [if_pos hp]
      refine ⟨hrf.1, ?_, ?_⟩
      · intro hq
        show (changed_rereg cb p.event_id).1.rc_app_settings.query_started = true
        rw [hrf.2]
        exact hq
      · intro c hc
        exact Or.inl (hrc c hc)
    · rw [if_neg hp]
      refine ⟨hrf.1, ?_, ?_⟩
      · intro hq
        show (changed_rereg cb p.event_id).1.rc_app_settings.query_started = true
        rw [hrf.2]
        exact hq
      · intro c hc
        exact Or.inl (hrc c hc)
  · rw [if_neg h1]
    by_cases h2 : p.event_id = AVRC_EVT_TRACK_CHANGE
    · rw [if_pos h2]
      by_cases hv : p.track_valid = false
      · rw [if_pos hv]
        refine ⟨hrf.1, ?_, ?_⟩
        · intro hq
          rw [hrf.2]
          exact hq
        · intro c hc
          exact Or.inl (hrc c hc)
      · rw [if_neg hv]
        have hsf := send_status_cmd_fields (changed_rereg cb p.event_id).1
          AVRC_PDU_GET_ELEMENT_ATTR (fun l => OutCmd.getElementAttributes l)
        refine ⟨?_, ?_, ?_⟩
        · show event_ids (get_element_attribute_cmd
            (changed_rereg cb p.event_id).1).1.rc_supported_event_list = _
          unfold get_element_attribute_cmd
          rw [hsf.2.1]
          exact hrf.1
        · intro hq
          show (get_element_attribute_cmd
            (changed_rereg cb p.event_id).1).1.rc_app_settings.query_started = true
          unfold get_element_attribute_cmd
          rw [hsf.2.2, hrf.2]
          exact hq
        · intro c hc
          rcases List.mem_append.mp hc with hca | hcb
          · exact Or.inl (hrc c hca)
          · have hcb2 : c ∈ (send_status_cmd (changed_rereg cb p.event_id).1
                AVRC_PDU_GET_ELEMENT_ATTR (fun l => OutCmd.getElementAttributes l)).2 := hcb
            rcases send_status_cmd_cmds _ _ _ c hcb2 with ⟨l, hl⟩
            exact Or.inr ⟨l, hl⟩
    · rw [if_neg h2]
      by_cases h3 : p.event_id = AVRC_EVT_APP_SETTING_CHANGE
      · rw [if_pos h3]
        refine ⟨hrf.1, ?_, ?_⟩
        · intro hq
          rw [hrf.2]
          exact hq
        · intro c hc
          exact Or.inl (hrc c hc)
      · rw [if_neg h3]
        refine ⟨hrf.1, ?_, ?_⟩
        · intro hq
          rw [hrf.2]
          exact hq
        · intro c hc
          exact Or.inl (hrc c hc)

lemma reg_step_query_mono (cb : RcCb) (inp : RegInput) :
    cb.rc_app_settings.query_started = true →
    (reg_step cb inp).1.rc_app_settings.query_started = true := by
  cases inp with
  | interim p => exact (reg_step_interim_spec cb p).2.1
  | changed p => exact (reg_step_changed_spec cb p).2.1
  | timeout lbl => exact (reg_step_timeout_spec cb lbl).2.1

lemma count_signals_zero_of_started :
    ∀ (trace : List RegInput) (cb : RcCb),
      cb.rc_app_settings.query_started = true → count_signals cb trace = 0 := by
  intro trace
  induction trace with
  | nil => intro cb _; rfl
  | cons i is ih =>
    intro cb hq
    unfold count_signals
    have hsig : phase_signal cb i = false := by
      unfold phase_signal
      rw [hq]
      rfl
    rw [hsig]
    simpa using ih (reg_step cb i).1 (reg_step_query_mono cb i hq)

lemma count_signals_le_one :
    ∀ (trace : List RegInput) (cb : RcCb), count_signals cb trace ≤ 1 := by
  intro trace
  induction trace with
  | nil => intro cb; exact Nat.zero_le 1
  | cons i is ih =>
    intro cb
    unfold count_signals
    by_cases hsig : phase_signal cb i = true
    · rw [hsig]
      have hq2 : (reg_step cb i).1.rc_app_settings.query_started = true := by
        unfold phase_signal at hsig
        rw [Bool.and_eq_true] at hsig
        exact hsig.2
      rw [count_signals_zero_of_started is (reg_step cb i).1 hq2]
      simp
    · rw [Bool.not_eq_true] at hsig
      rw [hsig]
      simpa using ih (reg_step cb i).1

lemma register_first_not_registered_found (cb : RcCb) :
    (register_first_not_registered cb).2.2 = false ↔
      find_first_not_registered cb.rc_supported_event_list = none := by
  unfold register_first_not_registered
  cases hf : find_first_not_registered cb.rc_supported_event_list with
  | none => exact ⟨fun _ => rfl, fun _ => rfl⟩
  | some i => exact ⟨fun h => Bool.noConfusion h, fun h => Option.noConfusion h⟩

/-- If interim_advance flipped query_started from false to true, no
eNOT_REGISTERED entry remained after the interim bookkeeping. -/
lemma interim_advance_signal_none (cb : RcCb) (eid : Nat)
    (hq : cb.rc_app_settings.query_started = false)
    (h2 : (interim_advance cb eid).1.rc_app_settings.query_started = true) :
    find_first_not_registered (mark_first_interim cb.rc_supported_event_list eid) = none := by
  unfold interim_advance at h2
  dsimp only at h2
  set cb1 : RcCb := { cb with
    rc_supported_event_list := mark_first_interim cb.rc_supported_event_list eid } with hcb1
  by_cases hsig : (register_first_not_registered cb1).2.2 = false ∧
      (register_first_not_registered cb1).1.rc_app_settings.query_started = false
  · exact (register_first_not_registered_found cb1).mp hsig.1
  · rw [if_neg hsig] at h2
    exfalso
    rw [(register_first_not_registered_fields cb1).2] at h2
    have : cb1.rc_app_settings.query_started = false := hq
    rw [this] at h2
    exact Bool.noConfusion h2

/-- Only an interim response can raise the phase-complete signal, and it
does so exactly when no eNOT_REGISTERED entry remains after the interim
bookkeeping. -/
lemma phase_signal_spec (cb : RcCb) (inp : RegInput) :
    phase_signal cb inp = true →
    cb.rc_app_settings.query_started = false ∧
    (reg_step cb inp).1.rc_app_settings.query_started = true ∧
    ∃ p, inp = RegInput.interim p ∧
      find_first_not_registered (bookkept cb inp) = none := by
  intro hsig
  unfold phase_signal at hsig
  rw [Bool.and_eq_true] at hsig
  obtain ⟨h1, h2⟩ := hsig
  have hq : cb.rc_app_settings.query_started = false := by
    cases hh : cb.rc_app_settings.query_started
    · rfl
    · rw [hh] at h1
      exact Bool.noConfusion h1
  refine ⟨hq, h2, ?_⟩
  cases inp with
  | changed p =>
    exfalso
    have := (reg_step_changed_spec cb p).2.1
    have hsame : (reg_step cb (RegInput.changed p)).1.rc_app_settings.query_started =
        cb.rc_app_settings.query_started := by
      have hred : reg_step cb (RegInput.changed p) =
          ((handle_notification_response cb AVRC_RSP_CHANGED p).1,
          (handle_notification_response cb AVRC_RSP_CHANGED p).2.1) := rfl
      rw [hred]
      unfold handle_notification_response
      rw [if_neg (by decide : ¬(AVRC_RSP_CHANGED = AVRC_RSP_INTERIM)),
        if_pos (rfl : AVRC_RSP_CHANGED = AVRC_RSP_CHANGED)]
      dsimp only
      have hrf := (changed_rereg_fields cb p.event_id).2
      by_cases e1 : p.event_id = AVRC_EVT_PLAY_STATUS_CHANGE
      · rw [if_pos e1]
        by_cases e2 : p.play_status = AVRC_PLAYSTATE_PLAYING
        · rw [if_pos e2]
          show (changed_rereg cb p.event_id).1.rc_app_settings.query_started = _
          rw [hrf]
        · rw [if_neg e2]
          show (changed_rereg cb p.event_id).1.rc_app_settings.query_started = _
          rw [hrf]
      · rw [if_neg e1]
        by_cases e2 : p.event_id = AVRC_EVT_TRACK_CHANGE
        · rw [if_pos e2]
          by_cases e3 : p.track_valid = false
          · rw [if_pos e3]
            show (changed_rereg cb p.event_id).1.rc_app_settings.query_started = _
            rw [hrf]
          · rw [if_neg e3]
            show (get_element_attribute_cmd
              (changed_rereg cb p.event_id).1).1.rc_app_settings.query_started = _
            unfold get_element_attribute_cmd
            rw [(send_status_cmd_fields _ _ _).2.2, hrf]
        · rw [if_neg e2]
          by_cases e3 : p.event_id = AVRC_EVT_APP_SETTING_CHANGE
          · rw [if_pos e3]
            rw [hrf]
          · rw [if_neg e3]
            rw [hrf]
    rw [hsame, hq] at h2
    exact Bool.noConfusion h2
  | timeout lbl =>
    exfalso
    have hsame : (reg_step cb (RegInput.timeout lbl)).1.rc_app_settings =
        cb.rc_app_settings := by
      have hred : reg_step cb (RegInput.timeout lbl) =
          rc_notification_interim_timout cb lbl := rfl
      rw [hred]
      unfold rc_notification_interim_timout
      dsimp only
      exact (register_first_not_registered_fields _).2
    rw [hsame, hq] at h2
    exact Bool.noConfusion h2
  | interim p =>
    refine ⟨p, rfl, ?_⟩
    have hred : (reg_step cb (RegInput.interim p)).1 =
        (handle_notification_response cb AVRC_RSP_INTERIM p).1 := rfl
    rw [hred] at h2
    by_cases e1 : p.event_id = AVRC_EVT_PLAY_STATUS_CHANGE
    · by_cases e2 : p.play_status = AVRC_PLAYSTATE_PLAYING
      · have heq : (handle_notification_response cb AVRC_RSP_INTERIM p).1 =
            (interim_advance (rc_start_play_status_timer cb) p.event_id).1 := by
          unfold handle_notification_response
          rw [if_pos (rfl : AVRC_RSP_INTERIM = AVRC_RSP_INTERIM), if_pos e1]
          dsimp only
          rw [if_pos e2]
        rw [heq] at h2
        exact interim_advance_signal_none (rc_start_play_status_timer cb) p.event_id hq h2
      · have heq : (handle_notification_response cb AVRC_RSP_INTERIM p).1 =
            (interim_advance cb p.event_id).1 := by
          unfold handle_notification_response
          rw [if_pos (rfl : AVRC_RSP_INTERIM = AVRC_RSP_INTERIM), if_pos e1]
          dsimp only
          rw [if_neg e2]
        rw [heq] at h2
        exact interim_advance_signal_none cb p.event_id hq h2
    · by_cases e2 : p.event_id = AVRC_EVT_TRACK_CHANGE
      · by_cases e3 : p.track_valid = true
        · have heq : (handle_notification_response cb AVRC_RSP_INTERIM p).1 =
              (interim_advance { cb with rc_playing_uid := p.track_uid } p.event_id).1 := by
            unfold handle_notification_response
            rw [if_pos (rfl : AVRC_RSP_INTERIM = AVRC_RSP_INTERIM), if_neg e1, if_pos e2]
            dsimp only
            rw [if_pos e3]
          rw [heq] at h2
          exact interim_advance_signal_none { cb with rc_playing_uid := p.track_uid }
            p.event_id hq h2
        · have heq : (handle_notification_response cb AVRC_RSP_INTERIM p).1 =
              (interim_advance cb p.event_id).1 := by
            unfold handle_notification_response
            rw [if_pos (rfl : AVRC_RSP_INTERIM = AVRC_RSP_INTERIM), if_neg e1, if_pos e2]
            dsimp only
            rw [if_neg e3]
          rw [heq] at h2
          exact interim_advance_signal_none cb p.event_id hq h2
      · by_cases e3 : p.event_id = AVRC_EVT_APP_SETTING_CHANGE ∨
            p.event_id = AVRC_EVT_NOW_PLAYING_CHANGE ∨
            p.event_id = AVRC_EVT_AVAL_PLAYERS_CHANGE ∨
            p.event_id = AVRC_EVT_ADDR_PLAYER_CHANGE ∨
            p.event_id = AVRC_EVT_UIDS_CHANGE
        · have heq : (handle_notification_response cb AVRC_RSP_INTERIM p).1 =
              (interim_advance cb p.event_id).1 := by
            unfold handle_notification_response
            rw [if_pos (rfl : AVRC_RSP_INTERIM = AVRC_RSP_INTERIM), if_neg e1, if_neg e2,
              if_pos e3]
          rw [heq] at h2
          exact interim_advance_signal_none cb p.event_id hq h2
        · exfalso
          have heq : (handle_notification_response cb AVRC_RSP_INTERIM p).1 = cb := by
            unfold handle_notification_response
            rw [if_pos (rfl : AVRC_RSP_INTERIM = AVRC_RSP_INTERIM), if_neg e1, if_neg e2,
              if_neg e3]
          rw [heq, hq] at h2
          exact Bool.noConfusion h2

/-- The capability response builds a fresh all-eNOT_REGISTERED list and
registers at most its front entry. -/
lemma caps_events_regCount (cb : RcCb) (ids : List Nat) :
    regCount (handle_get_capability_response cb
      ⟨AVRC_STS_NO_ERROR, AVRC_CAP_EVENTS_SUPPORTED, ids, []⟩).1.rc_supported_event_list ≤ 1 := by
  unfold handle_get_capability_response
  rw [if_neg (by decide : ¬(AVRC_STS_NO_ERROR ≠ AVRC_STS_NO_ERROR)),
    if_pos (rfl : AVRC_CAP_EVENTS_SUPPORTED = AVRC_CAP_EVENTS_SUPPORTED)]
  dsimp only
  have hfresh : ∀ l : List Nat, regCount (l.map
      (fun e => SupportedEvent.mk e 0 EvtRegStatus.eNOT_REGISTERED)) = 0 := by
    intro l
    unfold regCount
    rw [List.countP_eq_zero]
    intro a ha
    rcases List.mem_map.mp ha with ⟨x, _, hx⟩
    subst hx
    simp
  cases hev : (ids.filter (fun e =>
      e = AVRC_EVT_PLAY_STATUS_CHANGE ∨ e = AVRC_EVT_TRACK_CHANGE ∨
      e = AVRC_EVT_APP_SETTING_CHANGE)).map
        (fun e => SupportedEvent.mk e 0 EvtRegStatus.eNOT_REGISTERED) with
  | nil =>
    simp only
    show regCount ([] : List SupportedEvent) ≤ 1
    exact Nat.zero_le 1
  | cons e es =>
    simp only
    have hb := register_for_event_notification_regCount
      { cb with rc_supported_event_list := e :: es } 0
    have h0 : regCount (e :: es) = 0 := by
      rw [← hev]
      exact hfresh _
    calc regCount (register_for_event_notification
          { cb with rc_supported_event_list := e :: es } 0).1.rc_supported_event_list
        ≤ regCount (e :: es) + 1 := hb
      _ ≤ 1 := by rw [h0]

/-- Genuine phase traces preserve the at-most-one-in-flight invariant. -/
lemma run_reg_regCount :
    ∀ (trace : List RegInput) (cb : RcCb), GenuineTrace cb trace →
      regCount cb.rc_supported_event_list ≤ 1 →
      regCount (run_reg cb trace).1.rc_supported_event_list ≤ 1 := by
  intro trace
  induction trace with
  | nil => intro cb _ hinv; exact hinv
  | cons i is ih =>
    intro cb hgen hinv
    obtain ⟨hg, hp, hrest⟩ := hgen
    have hstep : regCount (reg_step cb i).1.rc_supported_event_list ≤ 1 := by
      cases i with
      | interim p =>
        have hg2 : (match find_first_event cb.rc_supported_event_list p.event_id with
            | some j => decide ((cb.rc_supported_event_list[j]?).map SupportedEvent.status =
                some EvtRegStatus.eREGISTERED)
            | none => false) = true := hg
        cases hf : find_first_event cb.rc_supported_event_list p.event_id with
        | none => rw [hf] at hg2; exact Bool.noConfusion hg2
        | some j =>
          rw [hf] at hg2
          exact (reg_step_interim_spec cb p).2.2.1 j hf (of_decide_eq_true hg2) hinv
      | changed p => exact Bool.noConfusion hp
      | timeout lbl =>
        have hg2 : (match find_first_label cb.rc_supported_event_list lbl with
            | some j => decide ((cb.rc_supported_event_list[j]?).map SupportedEvent.status =
                some EvtRegStatus.eREGISTERED)
            | none => false) = true := hg
        cases hf : find_first_label cb.rc_supported_event_list lbl with
        | none => rw [hf] at hg2; exact Bool.noConfusion hg2
        | some j =>
          rw [hf] at hg2
          exact (reg_step_timeout_spec cb lbl).2.2.1 j hf (of_decide_eq_true hg2) hinv
    exact ih (reg_step cb i).1 hrest hstep

/-- C3 (amended): the registration phase registers one event at a time.
Starting from the EventsSupported capability response, at most one
REGISTER_NOTIFICATION is in flight, and along any genuine trace of interim
responses and timeout removals the invariant is preserved; every
registration command such a step emits targets the first eNOT_REGISTERED
entry (in list order) of the bookkept list; and the phase-complete signal
(query_started flipping, which starts the application-settings query or
completes the procedure) is raised AT MOST once — only by an interim step
after which no eNOT_REGISTERED entry remains — and not exactly once: a
phase whose last registration resolves via timeout ends without the signal,
since rc_notification_interim_timout never starts the query. -/
theorem registration_single_flight (cb0 : RcCb) (ids : List Nat)
    (trace : List RegInput)
    (hgen : GenuineTrace (handle_get_capability_response cb0
      ⟨AVRC_STS_NO_ERROR, AVRC_CAP_EVENTS_SUPPORTED, ids, []⟩).1 trace) :
    regCount (handle_get_capability_response cb0
      ⟨AVRC_STS_NO_ERROR, AVRC_CAP_EVENTS_SUPPORTED, ids, []⟩).1.rc_supported_event_list ≤ 1 ∧
    regCount (run_reg (handle_get_capability_response cb0
      ⟨AVRC_STS_NO_ERROR, AVRC_CAP_EVENTS_SUPPORTED, ids,
        []⟩).1 trace).1.rc_supported_event_list ≤ 1 ∧
    count_signals (handle_get_capability_response cb0
      ⟨AVRC_STS_NO_ERROR, AVRC_CAP_EVENTS_SUPPORTED, ids, []⟩).1 trace ≤ 1 ∧
    (∀ (cb : RcCb) (inp : RegInput), is_phase_input inp = true →
      ∀ c ∈ (reg_step cb inp).2, ∀ l2 e2, c = OutCmd.registerNotification l2 e2 →
        ∃ i e, find_first_not_registered (bookkept cb inp) = some i ∧
          (bookkept cb inp)[i]? = some e ∧ e2 = e.event_id) ∧
    (∀ (cb : RcCb) (inp : RegInput), phase_signal cb inp = true →
      cb.rc_app_settings.query_started = false ∧
      (reg_step cb inp).1.rc_app_settings.query_started = true ∧
      ∃ p, inp = RegInput.interim p ∧
        find_first_not_registered (bookkept cb inp) = none) := by
  refine ⟨caps_events_regCount cb0 ids, ?_, ?_, ?_, ?_⟩
  · exact run_reg_regCount trace _ hgen (caps_events_regCount cb0 ids)
  · exact count_signals_le_one trace _
  · intro cb inp hphase c hc l2 e2 hce
    cases inp with
    | interim p =>
      rcases (reg_step_interim_spec cb p).2.2.2 c hc with h | h | h
      · rcases h with ⟨i, e, l, hfi, hei, hcr⟩
        rw [hce] at hcr
        cases hcr
        exact ⟨i, e, hfi, hei, rfl⟩
      · rcases h with ⟨l, hl⟩
        rw [hce] at hl
        exact OutCmd.noConfusion hl
      · rcases h with ⟨l, hl⟩
        rw [hce] at hl
        exact OutCmd.noConfusion hl
    | changed p => exact Bool.noConfusion hphase
    | timeout lbl =>
      rcases (reg_step_timeout_spec cb lbl).2.2.2 c hc with ⟨i, e, l, hfi, hei, hcr⟩
      rw [hce] at hcr
      cases hcr
      exact ⟨i, e, hfi, hei, rfl⟩
  · intro cb inp hsig
    exact phase_signal_spec cb inp hsig

/-- Dropping the first label match removes one occurrence of its event id. -/
lemma remove_first_label_count :
    ∀ (l : List SupportedEvent) (lbl : Nat) (j : Nat) (e : SupportedEvent),
      find_first_label l lbl = some j → l[j]? = some e →
      (event_ids (remove_first_label l lbl)).count e.event_id + 1 =
        (event_ids l).count e.event_id := by
  intro l
  induction l with
  | nil => intro lbl j e h; simp [find_first_label] at h
  | cons x xs ih =>
    intro lbl j e hfind hj
    unfold find_first_label at hfind
    unfold remove_first_label
    by_cases hx : x.label = lbl
    · rw [if_pos hx]
      rw [if_pos hx] at hfind
      have hj0 : j = 0 := by cases hfind; rfl
      subst hj0
      simp at hj
      subst hj
      unfold event_ids
      simp [List.count_cons]
    · rw [if_neg hx]
      rw [if_neg hx] at hfind
      cases hf2 : find_first_label xs lbl with
      | none => rw [hf2] at hfind; simp at hfind
      | some j0 =>
        rw [hf2] at hfind
        simp at hfind
        subst hfind
        have hj2 : xs[j0]? = some e := by simpa using hj
        have := ih lbl j0 e hf2 hj2
        unfold event_ids at this ⊢
        simp only [List.map_cons, List.count_cons]
        omega

/-- An event id absent from the registry is never re-added and never
registered again by any later registry step. -/
lemma reg_step_not_listed (cb : RcCb) (inp : RegInput) (eid : Nat)
    (h : eid ∉ event_ids cb.rc_supported_event_list) :
    eid ∉ event_ids (reg_step cb inp).1.rc_supported_event_list ∧
    (∀ c ∈ (reg_step cb inp).2, ∀ l, c ≠ OutCmd.registerNotification l eid) := by
  cases inp with
  | interim p =>
    have hs := reg_step_interim_spec cb p
    constructor
    · rw [hs.1]
      exact h
    · intro c hc l hcl
      rcases hs.2.2.2 c hc with hcase | hcase | hcase
      · rcases hcase with ⟨i, e, l2, hfi, hei, hce⟩
        rw [hcl] at hce
        cases hce
        have hmem : e.event_id ∈ event_ids (bookkept cb (RegInput.interim p)) :=
          List.mem_map_of_mem SupportedEvent.event_id (List.getElem?_mem hei)
        have hbk : event_ids (bookkept cb (RegInput.interim p)) =
            event_ids cb.rc_supported_event_list :=
          mark_first_interim_event_ids _ _
        rw [hbk] at hmem
        exact h hmem
      · rcases hcase with ⟨l2, hl2⟩
        rw [hcl] at hl2
        exact OutCmd.noConfusion hl2
      · rcases hcase with ⟨l2, hl2⟩
        rw [hcl] at hl2
        exact OutCmd.noConfusion hl2
  | changed p =>
    have hs := reg_step_changed_spec cb p
    constructor
    · rw [hs.1]
      exact h
    · intro c hc l hcl
      rcases hs.2.2 c hc with hcase | hcase
      · rcases hcase with ⟨l2, x, hx, hce⟩
        rw [hcl] at hce
        cases hce
        exact h hx
      · rcases hcase with ⟨l2, hl2⟩
        rw [hcl] at hl2
        exact OutCmd.noConfusion hl2
  | timeout lbl =>
    have hs := reg_step_timeout_spec cb lbl
    constructor
    · intro hmem
      exact h (hs.1 eid hmem)
    · intro c hc l hcl
      rcases hs.2.2.2 c hc with ⟨i, e, l2, hfi, hei, hce⟩
      rw [hcl] at hce
      cases hce
      have hmem : e.event_id ∈ event_ids (bookkept cb (RegInput.timeout lbl)) :=
        List.mem_map_of_mem SupportedEvent.event_id (List.getElem?_mem hei)
      have hsub : e.event_id ∈ event_ids cb.rc_supported_event_list :=
        remove_first_label_ids_subset _ _ _ hmem
      exact h hsub

lemma run_reg_not_listed :
    ∀ (trace : List RegInput) (cb : RcCb) (eid : Nat),
      eid ∉ event_ids cb.rc_supported_event_list →
      ∀ l2, OutCmd.registerNotification l2 eid ∉ (run_reg cb trace).2 := by
  intro trace
  induction trace with
  | nil => intro cb eid h l2 hmem; simp [run_reg] at hmem
  | cons i is ih =>
    intro cb eid h l2 hmem
    unfold run_reg at hmem
    rcases List.mem_append.mp hmem with h1 | h2
    · exact (reg_step_not_listed cb i eid h).2 _ h1 l2 rfl
    · exact ih (reg_step cb i).1 eid (reg_step_not_listed cb i eid h).1 l2 h2

lemma rc_notification_interim_timout_devOk (cb : RcCb) (lbl : Nat) :
    DevOk cb (rc_notification_interim_timout cb lbl).1 := by
  unfold rc_notification_interim_timout
  dsimp only
  refine devOk_trans ?_ (register_first_not_registered_devOk _)
  exact devOk_of_eq rfl

/-- C6: a REGISTER_NOTIFICATION interim timeout removes the awaiting event
from the supported event list, releases its transaction label, and neither
the timeout handling itself nor any later registry step ever sends another
REGISTER_NOTIFICATION for that event on this connection. -/
theorem reg_notif_timeout_drops_event (cb : RcCb) (lbl : Nat) (t : RcTransaction)
    (j : Nat) (e : SupportedEvent)
    (hwf : WfDevice cb.device)
    (hslot : cb.device.transaction[lbl]? = some t) (huse : t.in_use = true)
    (hfind : find_first_label cb.rc_supported_event_list lbl = some j)
    (hj : cb.rc_supported_event_list[j]? = some e)
    (hcount : (event_ids cb.rc_supported_event_list).count e.event_id = 1) :
    e.event_id ∉ event_ids (btif_rc_status_cmd_timeout_handler cb
      AVRC_PDU_REGISTER_NOTIFICATION lbl).1.rc_supported_event_list ∧
    (((btif_rc_status_cmd_timeout_handler cb
      AVRC_PDU_REGISTER_NOTIFICATION lbl).1.device.transaction[lbl]?).map
        RcTransaction.in_use = some false) ∧
    (∀ l2, OutCmd.registerNotification l2 e.event_id ∉
      (btif_rc_status_cmd_timeout_handler cb AVRC_PDU_REGISTER_NOTIFICATION lbl).2.1) ∧
    (∀ (trace : List RegInput) (l2 : Nat),
      OutCmd.registerNotification l2 e.event_id ∉
        (run_reg (btif_rc_status_cmd_timeout_handler cb
          AVRC_PDU_REGISTER_NOTIFICATION lbl).1 trace).2) := by
  have hlt : lbl < MAX_TRANSACTIONS_PER_SESSION := by
    have := (List.getElem?_eq_some_iff.mp hslot).choose
    rw [hwf.1] at this
    exact this
  have hnotmem : e.event_id ∉
      event_ids (remove_first_label cb.rc_supported_event_list lbl) := by
    intro hmem
    have hc := remove_first_label_count cb.rc_supported_event_list lbl j e hfind hj
    rw [hcount] at hc
    have h0 : (event_ids (remove_first_label cb.rc_supported_event_list lbl)).count
        e.event_id = 0 := by omega
    rw [List.count_eq_zero] at h0
    exact h0 hmem
  have hred : btif_rc_status_cmd_timeout_handler cb AVRC_PDU_REGISTER_NOTIFICATION lbl =
      (let r0 := rc_notification_interim_timout cb lbl
       ({ r0.1 with device := release_transaction r0.1.device lbl }, r0.2,
        ([] : List HalCback))) := by
    unfold btif_rc_status_cmd_timeout_handler
    rw [if_pos (rfl : AVRC_PDU_REGISTER_NOTIFICATION = AVRC_PDU_REGISTER_NOTIFICATION)]
  rw [hred]
  dsimp only
  have hstep : (rc_notification_interim_timout cb lbl).1 =
      (reg_step cb (RegInput.timeout lbl)).1 := rfl
  have hids : e.event_id ∉
      event_ids (rc_notification_interim_timout cb lbl).1.rc_supported_event_list := by
    unfold rc_notification_interim_timout
    dsimp only
    rw [(register_first_not_registered_fields _).1]
    exact hnotmem
  refine ⟨hids, ?_, ?_, ?_⟩
  · obtain ⟨pres, hwf2⟩ := rc_notification_interim_timout_devOk cb lbl hwf
    have hslot2 : (rc_notification_interim_timout cb lbl).1.device.transaction[lbl]? =
        some t := pres lbl t hslot huse
    have hlook := get_transaction_by_lbl_of_slot _ lbl t hlt hslot2 huse
    have hspec := release_transaction_spec _ lbl t hlook
    rw [hspec.1]
    rfl
  · intro l2 hmem
    have hcmds : (rc_notification_interim_timout cb lbl).2 =
        (reg_step cb (RegInput.timeout lbl)).2 := rfl
    rw [hcmds] at hmem
    have hs := reg_step_timeout_spec cb lbl
    rcases hs.2.2.2 _ hmem with ⟨i, e2, l3, hfi, hei, hce⟩
    injection hce with hl he
    have hmem2 : e2.event_id ∈ event_ids (bookkept cb (RegInput.timeout lbl)) :=
      List.mem_map_of_mem SupportedEvent.event_id (List.getElem?_mem hei)
    rw [← he] at hmem2
    exact hnotmem hmem2
  · intro trace l2
    refine run_reg_not_listed trace _ e.event_id ?_ l2
    exact hids

theorem registration_single_flight_witness :
    regCount (handle_get_capability_response base_cb
      ⟨AVRC_STS_NO_ERROR, AVRC_CAP_EVENTS_SUPPORTED,
        [AVRC_EVT_PLAY_STATUS_CHANGE, AVRC_EVT_TRACK_CHANGE],
        []⟩).1.rc_supported_event_list ≤ 1 ∧
    regCount (run_reg (handle_get_capability_response base_cb
      ⟨AVRC_STS_NO_ERROR, AVRC_CAP_EVENTS_SUPPORTED,
        [AVRC_EVT_PLAY_STATUS_CHANGE, AVRC_EVT_TRACK_CHANGE], []⟩).1
      [RegInput.interim ⟨AVRC_EVT_PLAY_STATUS_CHANGE, 0, false, 0, 0⟩,
       RegInput.interim ⟨AVRC_EVT_TRACK_CHANGE, 0, false, 0,
         0⟩]).1.rc_supported_event_list ≤ 1 ∧
    count_signals (handle_get_capability_response base_cb
      ⟨AVRC_STS_NO_ERROR, AVRC_CAP_EVENTS_SUPPORTED,
        [AVRC_EVT_PLAY_STATUS_CHANGE, AVRC_EVT_TRACK_CHANGE], []⟩).1
      [RegInput.interim ⟨AVRC_EVT_PLAY_STATUS_CHANGE, 0, false, 0, 0⟩,
       RegInput.interim ⟨AVRC_EVT_TRACK_CHANGE, 0, false, 0, 0⟩] ≤ 1 := by
  have h := registration_single_flight base_cb
    [AVRC_EVT_PLAY_STATUS_CHANGE, AVRC_EVT_TRACK_CHANGE]
    [RegInput.interim ⟨AVRC_EVT_PLAY_STATUS_CHANGE, 0, false, 0, 0⟩,
     RegInput.interim ⟨AVRC_EVT_TRACK_CHANGE, 0, false, 0, 0⟩]
    ⟨by decide, rfl, by decide, rfl, trivial⟩
  exact ⟨h.1, h.2.1, h.2.2.1⟩

/-- C6 witness state: event 1 registered under label 0 (slot 0 in use),
event 2 still unregistered. -/
def c6_cb : RcCb :=
  { base_cb with
    rc_supported_event_list :=
      [⟨AVRC_EVT_PLAY_STATUS_CHANGE, 0, EvtRegStatus.eREGISTERED⟩,
       ⟨AVRC_EVT_TRACK_CHANGE, 0, EvtRegStatus.eNOT_REGISTERED⟩],
    device := applyPoolOp init_device PoolOp.acquire }

theorem reg_notif_timeout_drops_event_witness :
    AVRC_EVT_PLAY_STATUS_CHANGE ∉ event_ids (btif_rc_status_cmd_timeout_handler c6_cb
      AVRC_PDU_REGISTER_NOTIFICATION 0).1.rc_supported_event_list ∧
    (((btif_rc_status_cmd_timeout_handler c6_cb
      AVRC_PDU_REGISTER_NOTIFICATION 0).1.device.transaction[0]?).map
        RcTransaction.in_use = some false) ∧
    OutCmd.registerNotification 3 AVRC_EVT_PLAY_STATUS_CHANGE ∉
      (btif_rc_status_cmd_timeout_handler c6_cb AVRC_PDU_REGISTER_NOTIFICATION 0).2.1 ∧
    OutCmd.registerNotification 3 AVRC_EVT_PLAY_STATUS_CHANGE ∉
      (run_reg (btif_rc_status_cmd_timeout_handler c6_cb
          AVRC_PDU_REGISTER_NOTIFICATION 0).1
        [RegInput.interim ⟨AVRC_EVT_TRACK_CHANGE, 0, false, 0, 0⟩]).2 := by
  have h := reg_notif_timeout_drops_event c6_cb 0 ⟨true, 0, 0, 0, 0, false⟩ 0
    ⟨AVRC_EVT_PLAY_STATUS_CHANGE, 0, EvtRegStatus.eREGISTERED⟩
    (by decide) (by decide) rfl (by decide) (by decide) (by decide)
  exact ⟨h.1, h.2.1, h.2.2.1 3,
    h.2.2.2 [RegInput.interim ⟨AVRC_EVT_TRACK_CHANGE, 0, false, 0, 0⟩] 3⟩

lemma event_ids_fresh (l : List Nat) :
    event_ids (l.map
      (fun e => SupportedEvent.mk e 0 EvtRegStatus.eNOT_REGISTERED)) = l := by
  unfold event_ids
  rw [List.map_map]
  exact List.map_id l

/-- C10: a successful GET_CAPABILITIES(EVENTS_SUPPORTED) response installs
exactly the events the stack tracks — PLAY_STATUS_CHANGE, TRACK_CHANGE and
APP_SETTING_CHANGE, kept in peer order — as the supported event list; every
REGISTER_NOTIFICATION the handler sends targets one of the retained events,
and no later registry step on this connection ever registers an event id
outside the filtered set. -/
theorem caps_events_supported_filter (cb : RcCb) (ids : List Nat) :
    event_ids (handle_get_capability_response cb
      ⟨AVRC_STS_NO_ERROR, AVRC_CAP_EVENTS_SUPPORTED, ids,
        []⟩).1.rc_supported_event_list =
      ids.filter (fun e =>
        e = AVRC_EVT_PLAY_STATUS_CHANGE ∨ e = AVRC_EVT_TRACK_CHANGE ∨
        e = AVRC_EVT_APP_SETTING_CHANGE) ∧
    (∀ c ∈ (handle_get_capability_response cb
        ⟨AVRC_STS_NO_ERROR, AVRC_CAP_EVENTS_SUPPORTED, ids, []⟩).2.1,
      ∀ l eid, c = OutCmd.registerNotification l eid →
        eid ∈ ids.filter (fun e =>
          e = AVRC_EVT_PLAY_STATUS_CHANGE ∨ e = AVRC_EVT_TRACK_CHANGE ∨
          e = AVRC_EVT_APP_SETTING_CHANGE)) ∧
    (∀ eid, eid ∉ ids.filter (fun e =>
        e = AVRC_EVT_PLAY_STATUS_CHANGE ∨ e = AVRC_EVT_TRACK_CHANGE ∨
        e = AVRC_EVT_APP_SETTING_CHANGE) →
      ∀ (trace : List RegInput) (l2 : Nat),
        OutCmd.registerNotification l2 eid ∉
          (run_reg (handle_get_capability_response cb
            ⟨AVRC_STS_NO_ERROR, AVRC_CAP_EVENTS_SUPPORTED, ids,
              []⟩).1 trace).2) := by
  have hmain :
      event_ids (handle_get_capability_response cb
        ⟨AVRC_STS_NO_ERROR, AVRC_CAP_EVENTS_SUPPORTED, ids,
          []⟩).1.rc_supported_event_list =
        ids.filter (fun e =>
          e = AVRC_EVT_PLAY_STATUS_CHANGE ∨ e = AVRC_EVT_TRACK_CHANGE ∨
          e = AVRC_EVT_APP_SETTING_CHANGE) ∧
      (∀ c ∈ (handle_get_capability_response cb
          ⟨AVRC_STS_NO_ERROR, AVRC_CAP_EVENTS_SUPPORTED, ids, []⟩).2.1,
        ∀ l eid, c = OutCmd.registerNotification l eid →
          eid ∈ ids.filter (fun e =>
            e = AVRC_EVT_PLAY_STATUS_CHANGE ∨ e = AVRC_EVT_TRACK_CHANGE ∨
            e = AVRC_EVT_APP_SETTING_CHANGE)) := by
    unfold handle_get_capability_response
    rw [if_neg (by decide : ¬(AVRC_STS_NO_ERROR ≠ AVRC_STS_NO_ERROR)),
      if_pos (rfl : AVRC_CAP_EVENTS_SUPPORTED = AVRC_CAP_EVENTS_SUPPORTED)]
    dsimp only
    cases hev : (ids.filter (fun e =>
        e = AVRC_EVT_PLAY_STATUS_CHANGE ∨ e = AVRC_EVT_TRACK_CHANGE ∨
        e = AVRC_EVT_APP_SETTING_CHANGE)).map
          (fun e => SupportedEvent.mk e 0 EvtRegStatus.eNOT_REGISTERED) with
    | nil =>
      constructor
      · show event_ids ([] : List SupportedEvent) = _
        have hfil : ids.filter (fun e =>
            e = AVRC_EVT_PLAY_STATUS_CHANGE ∨ e = AVRC_EVT_TRACK_CHANGE ∨
            e = AVRC_EVT_APP_SETTING_CHANGE) = [] := List.map_eq_nil_iff.mp hev
        rw [hfil]
        rfl
      · intro c hc
        exact absurd hc (List.not_mem_nil c)
    | cons e es =>
      simp only
      have hids : event_ids (e :: es) = ids.filter (fun e =>
          e = AVRC_EVT_PLAY_STATUS_CHANGE ∨ e = AVRC_EVT_TRACK_CHANGE ∨
          e = AVRC_EVT_APP_SETTING_CHANGE) := by
        rw [← hev]
        exact event_ids_fresh _
      constructor
      · rw [(register_for_event_notification_fields
          { cb with rc_supported_event_list := e :: es } 0).1]
        exact hids
      · intro c hc l eid hce
        rcases register_for_event_notification_cmds
            { cb with rc_supported_event_list := e :: es } 0 c hc with
          ⟨l3, e2, he2, hcr⟩
        rw [hce] at hcr
        injection hcr with hl2 hid2
        have hmem : e2 ∈ e :: es := List.getElem?_mem he2
        have : e2.event_id ∈ event_ids (e :: es) :=
          List.mem_map_of_mem SupportedEvent.event_id hmem
        rw [hids] at this
        rw [hid2]
        exact this
  refine ⟨hmain.1, hmain.2, ?_⟩
  intro eid hnot trace l2
  refine run_reg_not_listed trace _ eid ?_ l2
  rw [hmain.1]
  exact hnot

theorem caps_events_supported_filter_witness :
    event_ids (handle_get_capability_response base_cb
      ⟨AVRC_STS_NO_ERROR, AVRC_CAP_EVENTS_SUPPORTED,
        [AVRC_EVT_PLAY_STATUS_CHANGE, AVRC_EVT_PLAY_POS_CHANGED,
         AVRC_EVT_TRACK_CHANGE, AVRC_EVT_VOLUME_CHANGE],
        []⟩).1.rc_supported_event_list =
      [AVRC_EVT_PLAY_STATUS_CHANGE, AVRC_EVT_TRACK_CHANGE] ∧
    OutCmd.registerNotification 3 AVRC_EVT_PLAY_POS_CHANGED ∉
      (run_reg (handle_get_capability_response base_cb
        ⟨AVRC_STS_NO_ERROR, AVRC_CAP_EVENTS_SUPPORTED,
          [AVRC_EVT_PLAY_STATUS_CHANGE, AVRC_EVT_PLAY_POS_CHANGED,
           AVRC_EVT_TRACK_CHANGE, AVRC_EVT_VOLUME_CHANGE], []⟩).1
        [RegInput.interim ⟨AVRC_EVT_PLAY_STATUS_CHANGE, 0, false, 0, 0⟩]).2 := by
  have h := caps_events_supported_filter base_cb
    [AVRC_EVT_PLAY_STATUS_CHANGE, AVRC_EVT_PLAY_POS_CHANGED,
     AVRC_EVT_TRACK_CHANGE, AVRC_EVT_VOLUME_CHANGE]
  constructor
  · rw [h.1]
    decide
  · exact h.2.2 AVRC_EVT_PLAY_POS_CHANGED (by decide)
      [RegInput.interim ⟨AVRC_EVT_PLAY_STATUS_CHANGE, 0, false, 0, 0⟩] 3

/-! ### Claim C8: the absolute-volume cache and the volume-subscription label -/

lemma release_transaction_max_label (d : RcDevice) :
    release_transaction d MAX_LABEL = d := by
  unfold release_transaction get_transaction_by_lbl
  rw [if_neg (by decide : ¬(MAX_LABEL < MAX_TRANSACTIONS_PER_SESSION))]

/-- C8 (amended): the cached volume is updated exactly on an ACCEPTed
SET_ABSOLUTE_VOLUME and on a CHANGED volume notification; but the dedicated
volume-subscription label is NOT released on the terminal outcomes: on
reject the state is untouched and the slot stays in use, on changed the
very same in-use label is re-used for the re-registration, and on a parse
error of the volume registration the label variable is overwritten with
MAX_LABEL before the release, so the release targets MAX_LABEL (out of
range, a no-op) and the original slot leaks. -/
theorem abs_volume_cache_and_label (cb : RcCb) (t : RcTransaction) (v : Nat)
    (hL : cb.rc_vol_label < MAX_TRANSACTIONS_PER_SESSION)
    (hslot : cb.device.transaction[cb.rc_vol_label]? = some t)
    (huse : t.in_use = true) :
    ((handle_rc_metamsg_rsp cb ⟨AVRC_OP_VENDOR, AVRC_RSP_INTERIM, cb.rc_vol_label⟩
        ⟨AVRC_STS_NO_ERROR, AVRC_PDU_REGISTER_NOTIFICATION, AVRC_EVT_VOLUME_CHANGE,
          v⟩).1.rc_volume = cb.rc_volume ∧
      (handle_rc_metamsg_rsp cb ⟨AVRC_OP_VENDOR, AVRC_RSP_INTERIM, cb.rc_vol_label⟩
        ⟨AVRC_STS_NO_ERROR, AVRC_PDU_REGISTER_NOTIFICATION, AVRC_EVT_VOLUME_CHANGE,
          v⟩).1.rc_vol_label = cb.rc_vol_label ∧
      (handle_rc_metamsg_rsp cb ⟨AVRC_OP_VENDOR, AVRC_RSP_INTERIM, cb.rc_vol_label⟩
        ⟨AVRC_STS_NO_ERROR, AVRC_PDU_REGISTER_NOTIFICATION, AVRC_EVT_VOLUME_CHANGE,
          v⟩).1.device.transaction[cb.rc_vol_label]? = some t) ∧
    ((handle_rc_metamsg_rsp cb ⟨AVRC_OP_VENDOR, AVRC_RSP_CHANGED, cb.rc_vol_label⟩
        ⟨AVRC_STS_NO_ERROR, AVRC_PDU_REGISTER_NOTIFICATION, AVRC_EVT_VOLUME_CHANGE,
          v⟩).1.rc_volume = v ∧
      (handle_rc_metamsg_rsp cb ⟨AVRC_OP_VENDOR, AVRC_RSP_CHANGED, cb.rc_vol_label⟩
        ⟨AVRC_STS_NO_ERROR, AVRC_PDU_REGISTER_NOTIFICATION, AVRC_EVT_VOLUME_CHANGE,
          v⟩).1.rc_vol_label = cb.rc_vol_label ∧
      (handle_rc_metamsg_rsp cb ⟨AVRC_OP_VENDOR, AVRC_RSP_CHANGED, cb.rc_vol_label⟩
        ⟨AVRC_STS_NO_ERROR, AVRC_PDU_REGISTER_NOTIFICATION, AVRC_EVT_VOLUME_CHANGE,
          v⟩).1.device.transaction[cb.rc_vol_label]? = some t ∧
      (handle_rc_metamsg_rsp cb ⟨AVRC_OP_VENDOR, AVRC_RSP_CHANGED, cb.rc_vol_label⟩
        ⟨AVRC_STS_NO_ERROR, AVRC_PDU_REGISTER_NOTIFICATION, AVRC_EVT_VOLUME_CHANGE,
          v⟩).2.1 = [OutCmd.registerVolumeChange cb.rc_vol_label]) ∧
    ((handle_rc_metamsg_rsp cb ⟨AVRC_OP_VENDOR, AVRC_RSP_REJ, cb.rc_vol_label⟩
        ⟨AVRC_STS_NO_ERROR, AVRC_PDU_REGISTER_NOTIFICATION, AVRC_EVT_VOLUME_CHANGE,
          v⟩).1.rc_volume = cb.rc_volume ∧
      (handle_rc_metamsg_rsp cb ⟨AVRC_OP_VENDOR, AVRC_RSP_REJ, cb.rc_vol_label⟩
        ⟨AVRC_STS_NO_ERROR, AVRC_PDU_REGISTER_NOTIFICATION, AVRC_EVT_VOLUME_CHANGE,
          v⟩).1.rc_vol_label = cb.rc_vol_label ∧
      (handle_rc_metamsg_rsp cb ⟨AVRC_OP_VENDOR, AVRC_RSP_REJ, cb.rc_vol_label⟩
        ⟨AVRC_STS_NO_ERROR, AVRC_PDU_REGISTER_NOTIFICATION, AVRC_EVT_VOLUME_CHANGE,
          v⟩).1.device.transaction[cb.rc_vol_label]? = some t) ∧
    ((handle_rc_metamsg_rsp cb ⟨AVRC_OP_VENDOR, AVRC_RSP_ACCEPT, 3⟩
        ⟨AVRC_STS_NO_ERROR, AVRC_PDU_SET_ABSOLUTE_VOLUME, 0, v⟩).1.rc_volume = v) ∧
    ((handle_rc_metamsg_rsp cb ⟨AVRC_OP_VENDOR, AVRC_RSP_REJ, 3⟩
        ⟨AVRC_STS_NO_ERROR, AVRC_PDU_SET_ABSOLUTE_VOLUME, 0, v⟩).1.rc_volume =
      cb.rc_volume) ∧
    ((handle_rc_metamsg_rsp cb ⟨AVRC_OP_VENDOR, AVRC_RSP_REJ, cb.rc_vol_label⟩
        ⟨AVRC_STS_BAD_PARAM, AVRC_PDU_REGISTER_NOTIFICATION, AVRC_EVT_VOLUME_CHANGE,
          v⟩).1.rc_vol_label = MAX_LABEL ∧
      (handle_rc_metamsg_rsp cb ⟨AVRC_OP_VENDOR, AVRC_RSP_REJ, cb.rc_vol_label⟩
        ⟨AVRC_STS_BAD_PARAM, AVRC_PDU_REGISTER_NOTIFICATION, AVRC_EVT_VOLUME_CHANGE,
          v⟩).1.device.transaction[cb.rc_vol_label]? = some t) := by
  have hlook : get_transaction_by_lbl cb.device cb.rc_vol_label = some t :=
    get_transaction_by_lbl_of_slot cb.device cb.rc_vol_label t hL hslot huse
  refine ⟨?_, ?_, ?_, ?_, ?_, ?_⟩
  · unfold handle_rc_metamsg_rsp
    dsimp only
    rw [if_pos ⟨rfl, Or.inr (Or.inl rfl)⟩,
      if_neg (by decide : ¬(AVRC_STS_NO_ERROR ≠ AVRC_STS_NO_ERROR)),
      if_neg (fun h => h.2.2 rfl :
        ¬(AVRC_PDU_REGISTER_NOTIFICATION = AVRC_PDU_REGISTER_NOTIFICATION ∧
          AVRC_EVT_VOLUME_CHANGE = AVRC_EVT_VOLUME_CHANGE ∧
          cb.rc_vol_label ≠ cb.rc_vol_label)),
      if_neg (fun h => absurd h.2.2 (by decide) :
        ¬(AVRC_PDU_REGISTER_NOTIFICATION = AVRC_PDU_REGISTER_NOTIFICATION ∧
          AVRC_EVT_VOLUME_CHANGE = AVRC_EVT_VOLUME_CHANGE ∧
          AVRC_RSP_INTERIM = AVRC_RSP_CHANGED)),
      if_neg (by decide :
        ¬(AVRC_PDU_REGISTER_NOTIFICATION = AVRC_PDU_SET_ABSOLUTE_VOLUME))]
    dsimp only
    unfold btif_rc_upstreams_rsp_evt
    rw [if_pos (rfl : AVRC_PDU_REGISTER_NOTIFICATION = AVRC_PDU_REGISTER_NOTIFICATION),
      if_neg (by decide : ¬(AVRC_RSP_INTERIM = AVRC_RSP_CHANGED))]
    exact ⟨rfl, rfl, hslot⟩
  · unfold handle_rc_metamsg_rsp
    dsimp only
    rw [if_pos ⟨rfl, Or.inl rfl⟩,
      if_neg (by decide : ¬(AVRC_STS_NO_ERROR ≠ AVRC_STS_NO_ERROR)),
      if_neg (fun h => h.2.2 rfl :
        ¬(AVRC_PDU_REGISTER_NOTIFICATION = AVRC_PDU_REGISTER_NOTIFICATION ∧
          AVRC_EVT_VOLUME_CHANGE = AVRC_EVT_VOLUME_CHANGE ∧
          cb.rc_vol_label ≠ cb.rc_vol_label)),
      if_pos (⟨rfl, rfl, rfl⟩ :
        AVRC_PDU_REGISTER_NOTIFICATION = AVRC_PDU_REGISTER_NOTIFICATION ∧
          AVRC_EVT_VOLUME_CHANGE = AVRC_EVT_VOLUME_CHANGE ∧
          AVRC_RSP_CHANGED = AVRC_RSP_CHANGED)]
    unfold register_volumechange
    rw [hlook]
    dsimp only
    unfold btif_rc_upstreams_rsp_evt
    rw [if_pos (rfl : AVRC_PDU_REGISTER_NOTIFICATION = AVRC_PDU_REGISTER_NOTIFICATION),
      if_pos (rfl : AVRC_RSP_CHANGED = AVRC_RSP_CHANGED)]
    exact ⟨rfl, rfl, hslot, rfl⟩
  · unfold handle_rc_metamsg_rsp
    dsimp only
    rw [if_pos ⟨rfl, Or.inr (Or.inr (Or.inr (Or.inl rfl)))⟩,
      if_neg (by decide : ¬(AVRC_STS_NO_ERROR ≠ AVRC_STS_NO_ERROR)),
      if_neg (fun h => h.2.2 rfl :
        ¬(AVRC_PDU_REGISTER_NOTIFICATION = AVRC_PDU_REGISTER_NOTIFICATION ∧
          AVRC_EVT_VOLUME_CHANGE = AVRC_EVT_VOLUME_CHANGE ∧
          cb.rc_vol_label ≠ cb.rc_vol_label)),
      if_neg (fun h => absurd h.2.2 (by decide) :
        ¬(AVRC_PDU_REGISTER_NOTIFICATION = AVRC_PDU_REGISTER_NOTIFICATION ∧
          AVRC_EVT_VOLUME_CHANGE = AVRC_EVT_VOLUME_CHANGE ∧
          AVRC_RSP_REJ = AVRC_RSP_CHANGED)),
      if_neg (by decide :
        ¬(AVRC_PDU_REGISTER_NOTIFICATION = AVRC_PDU_SET_ABSOLUTE_VOLUME))]
    dsimp only
    unfold btif_rc_upstreams_rsp_evt
    rw [if_pos (rfl : AVRC_PDU_REGISTER_NOTIFICATION = AVRC_PDU_REGISTER_NOTIFICATION),
      if_neg (by decide : ¬(AVRC_RSP_REJ = AVRC_RSP_CHANGED))]
    exact ⟨rfl, rfl, hslot⟩
  · unfold handle_rc_metamsg_rsp
    dsimp only
    rw [if_pos ⟨rfl, Or.inr (Or.inr (Or.inl rfl))⟩,
      if_neg (by decide : ¬(AVRC_STS_NO_ERROR ≠ AVRC_STS_NO_ERROR)),
      if_neg (fun h => absurd h.1 (by decide) :
        ¬(AVRC_PDU_SET_ABSOLUTE_VOLUME = AVRC_PDU_REGISTER_NOTIFICATION ∧
          0 = AVRC_EVT_VOLUME_CHANGE ∧
          cb.rc_vol_label ≠ 3)),
      if_neg (fun h => absurd h.1 (by decide) :
        ¬(AVRC_PDU_SET_ABSOLUTE_VOLUME = AVRC_PDU_REGISTER_NOTIFICATION ∧
          0 = AVRC_EVT_VOLUME_CHANGE ∧
          AVRC_RSP_ACCEPT = AVRC_RSP_CHANGED)),
      if_pos (rfl : AVRC_PDU_SET_ABSOLUTE_VOLUME = AVRC_PDU_SET_ABSOLUTE_VOLUME)]
    dsimp only
    unfold btif_rc_upstreams_rsp_evt
    rw [if_neg (by decide :
        ¬(AVRC_PDU_SET_ABSOLUTE_VOLUME = AVRC_PDU_REGISTER_NOTIFICATION)),
      if_pos (rfl : AVRC_PDU_SET_ABSOLUTE_VOLUME = AVRC_PDU_SET_ABSOLUTE_VOLUME),
      if_pos (rfl : AVRC_RSP_ACCEPT = AVRC_RSP_ACCEPT)]
  · unfold handle_rc_metamsg_rsp
    dsimp only
    rw [if_pos ⟨rfl, Or.inr (Or.inr (Or.inr (Or.inl rfl)))⟩,
      if_neg (by decide : ¬(AVRC_STS_NO_ERROR ≠ AVRC_STS_NO_ERROR)),
      if_neg (fun h => absurd h.1 (by decide) :
        ¬(AVRC_PDU_SET_ABSOLUTE_VOLUME = AVRC_PDU_REGISTER_NOTIFICATION ∧
          0 = AVRC_EVT_VOLUME_CHANGE ∧
          cb.rc_vol_label ≠ 3)),
      if_neg (fun h => absurd h.1 (by decide) :
        ¬(AVRC_PDU_SET_ABSOLUTE_VOLUME = AVRC_PDU_REGISTER_NOTIFICATION ∧
          0 = AVRC_EVT_VOLUME_CHANGE ∧
          AVRC_RSP_REJ = AVRC_RSP_CHANGED)),
      if_pos (rfl : AVRC_PDU_SET_ABSOLUTE_VOLUME = AVRC_PDU_SET_ABSOLUTE_VOLUME)]
    dsimp only
    unfold btif_rc_upstreams_rsp_evt
    rw [if_neg (by decide :
        ¬(AVRC_PDU_SET_ABSOLUTE_VOLUME = AVRC_PDU_REGISTER_NOTIFICATION)),
      if_pos (rfl : AVRC_PDU_SET_ABSOLUTE_VOLUME = AVRC_PDU_SET_ABSOLUTE_VOLUME),
      if_neg (by decide : ¬(AVRC_RSP_REJ = AVRC_RSP_ACCEPT))]
  · unfold handle_rc_metamsg_rsp
    dsimp only
    rw [if_pos ⟨rfl, Or.inr (Or.inr (Or.inr (Or.inl rfl)))⟩,
      if_pos (by decide : AVRC_STS_BAD_PARAM ≠ AVRC_STS_NO_ERROR),
      if_pos (⟨rfl, rfl, rfl⟩ :
        AVRC_PDU_REGISTER_NOTIFICATION = AVRC_PDU_REGISTER_NOTIFICATION ∧
          AVRC_EVT_VOLUME_CHANGE = AVRC_EVT_VOLUME_CHANGE ∧
          cb.rc_vol_label = cb.rc_vol_label)]
    dsimp only
    rw [release_transaction_max_label]
    exact ⟨rfl, hslot⟩

/-- C8 counterexample state: volume subscription registered under the
dedicated label 2, whose pool slot is in use. -/
def c8_cb : RcCb :=
  { base_cb with
    rc_vol_label := 2,
    device := ⟨(List.range 16).map (fun i => ⟨decide (i = 2), i, 0, 0, 0, false⟩)⟩ }

/-- C8 counterexample: contrary to the claim, the volume-subscription label
is not released on terminal outcomes.  After a rejected volume notification
the slot of label 2 is still in use and rc_vol_label still holds 2; after a
CHANGED volume notification the slot is equally still in use and the very
same label is re-used for the re-registration command. -/
theorem volume_label_not_released_on_terminal :
    c8_cb.rc_vol_label = 2 ∧
    ((c8_cb.device.transaction[2]?).map RcTransaction.in_use = some true) ∧
    (((handle_rc_metamsg_rsp c8_cb ⟨AVRC_OP_VENDOR, AVRC_RSP_REJ, 2⟩
        ⟨AVRC_STS_NO_ERROR, AVRC_PDU_REGISTER_NOTIFICATION, AVRC_EVT_VOLUME_CHANGE,
          55⟩).1.device.transaction[2]?).map RcTransaction.in_use = some true) ∧
    (handle_rc_metamsg_rsp c8_cb ⟨AVRC_OP_VENDOR, AVRC_RSP_REJ, 2⟩
      ⟨AVRC_STS_NO_ERROR, AVRC_PDU_REGISTER_NOTIFICATION, AVRC_EVT_VOLUME_CHANGE,
        55⟩).1.rc_vol_label = 2 ∧
    (((handle_rc_metamsg_rsp c8_cb ⟨AVRC_OP_VENDOR, AVRC_RSP_CHANGED, 2⟩
        ⟨AVRC_STS_NO_ERROR, AVRC_PDU_REGISTER_NOTIFICATION, AVRC_EVT_VOLUME_CHANGE,
          55⟩).1.device.transaction[2]?).map RcTransaction.in_use = some true) ∧
    (handle_rc_metamsg_rsp c8_cb ⟨AVRC_OP_VENDOR, AVRC_RSP_CHANGED, 2⟩
      ⟨AVRC_STS_NO_ERROR, AVRC_PDU_REGISTER_NOTIFICATION, AVRC_EVT_VOLUME_CHANGE,
        55⟩).2.1 = [OutCmd.registerVolumeChange 2] := by
  decide

theorem abs_volume_cache_and_label_witness :
    (handle_rc_metamsg_rsp c8_cb ⟨AVRC_OP_VENDOR, AVRC_RSP_INTERIM, c8_cb.rc_vol_label⟩
      ⟨AVRC_STS_NO_ERROR, AVRC_PDU_REGISTER_NOTIFICATION, AVRC_EVT_VOLUME_CHANGE,
        55⟩).1.rc_volume = c8_cb.rc_volume ∧
    (handle_rc_metamsg_rsp c8_cb ⟨AVRC_OP_VENDOR, AVRC_RSP_INTERIM, c8_cb.rc_vol_label⟩
      ⟨AVRC_STS_NO_ERROR, AVRC_PDU_REGISTER_NOTIFICATION, AVRC_EVT_VOLUME_CHANGE,
        55⟩).1.device.transaction[c8_cb.rc_vol_label]? =
      some ⟨true, 2, 0, 0, 0, false⟩ ∧
    (handle_rc_metamsg_rsp c8_cb ⟨AVRC_OP_VENDOR, AVRC_RSP_CHANGED, c8_cb.rc_vol_label⟩
      ⟨AVRC_STS_NO_ERROR, AVRC_PDU_REGISTER_NOTIFICATION, AVRC_EVT_VOLUME_CHANGE,
        55⟩).1.rc_volume = 55 ∧
    (handle_rc_metamsg_rsp c8_cb ⟨AVRC_OP_VENDOR, AVRC_RSP_CHANGED, c8_cb.rc_vol_label⟩
      ⟨AVRC_STS_NO_ERROR, AVRC_PDU_REGISTER_NOTIFICATION, AVRC_EVT_VOLUME_CHANGE,
        55⟩).2.1 = [OutCmd.registerVolumeChange c8_cb.rc_vol_label] ∧
    (handle_rc_metamsg_rsp c8_cb ⟨AVRC_OP_VENDOR, AVRC_RSP_REJ, c8_cb.rc_vol_label⟩
      ⟨AVRC_STS_BAD_PARAM, AVRC_PDU_REGISTER_NOTIFICATION, AVRC_EVT_VOLUME_CHANGE,
        55⟩).1.rc_vol_label = MAX_LABEL := by
  have h := abs_volume_cache_and_label c8_cb ⟨true, 2, 0, 0, 0, false⟩ 55
    (by decide) (by decide) rfl
  exact ⟨h.1.1, h.1.2.2, h.2.1.1, h.2.1.2.2.2, h.2.2.2.2.2.1⟩

/-- C3 counterexample state: a single supported event whose registration
(under label 0, slot 0 in use) is the one in flight. -/
def c3_cb : RcCb :=
  { base_cb with
    rc_supported_event_list :=
      [⟨AVRC_EVT_PLAY_STATUS_CHANGE, 0, EvtRegStatus.eREGISTERED⟩],
    device := applyPoolOp init_device PoolOp.acquire }

/-- C3 counterexample: when the last outstanding registration resolves via
a timeout-driven removal instead of an interim response, the registration
phase ends with no eNOT_REGISTERED entry left, yet the phase-complete
signal is never raised: rc_notification_interim_timout starts no
application-settings query and completes no procedure, and on the emptied
event list no further genuine registry step exists, so this completed phase
raises the signal zero times, not exactly once. -/
theorem timeout_completion_raises_no_signal :
    genuine_phase c3_cb (RegInput.timeout 0) = true ∧
    is_phase_input (RegInput.timeout 0) = true ∧
    find_first_not_registered
      (run_reg c3_cb [RegInput.timeout 0]).1.rc_supported_event_list = none ∧
    count_signals c3_cb [RegInput.timeout 0] = 0 ∧
    (run_reg c3_cb [RegInput.timeout 0]).1.rc_app_settings.query_started = false ∧
    (run_reg c3_cb [RegInput.timeout 0]).1.rc_procedure_complete = false ∧
    (∀ inp, genuine_phase (run_reg c3_cb [RegInput.timeout 0]).1 inp = false) := by
  refine ⟨by decide, by decide, by decide, by decide, by decide, by decide, ?_⟩
  intro inp
  cases inp with
  | interim p => rfl
  | changed p => rfl
  | timeout lbl => rfl
